import Mathlib

/-!
# Tegra3 CPU frequency capping, table snapping, cluster switching, core count, bargaining and EDP limits

A shallow embedding of the decision code of `arch/arm/mach-tegra/cpu-tegra.c`
and `arch/arm/mach-tegra/cpuquiet.c`.

Conventions of the embedding:

* a C `unsigned int` is a `Nat`; the capping pipeline, the table snapping and
  the cluster-switch code only compare and copy such values, so no reduction
  modulo `2^32` is needed there, and a statement proved for every `Nat` holds
  for every 32-bit value; where the bargainer computes, the results are
  reduced with `u32`, `s32`, `u64` and `s64`;
* static variables of a translation unit are the fields of a structure that
  is passed in (and, where the code writes them, returned);
* functions of other translation units that the code calls are parameters
  (pure functions), oracle arguments (return codes) or entries of the list of
  calls a function returns.
-/

namespace Tegra

/-! ## Definitions: the capping pipeline (cpu-tegra.c) -/

/-- Largest value of a C `unsigned int` on the 32-bit ARM target (`~0`). -/
def UINT_MAX : Nat := 4294967295

/-- The limits read by the capping pipeline.  `qos_min` and `qos_max` are the
values `pm_qos_request(PM_QOS_CPU_FREQ_MIN)` and
`pm_qos_request(PM_QOS_CPU_FREQ_MAX)` as the comparisons with an
`unsigned int` see them; the other fields are the static variables of the
same names. -/
structure Caps where
  qos_min : Nat
  qos_max : Nat
  no_edp_limit : Nat
  edp_limit : Nat
  cpu_user_cap : Nat
  deriving DecidableEq

/-- The function `user_cap_speed` of cpu-tegra.c:273. -/
def user_cap_speed (c : Caps) (requested_speed : Nat) : Nat :=
  if c.cpu_user_cap ≠ 0 ∧ requested_speed > c.cpu_user_cap then
    c.cpu_user_cap
  else
    requested_speed

/-- The function `pmqos_cap_speed` of cpu-tegra.c:280.  Both tests read
`requested_speed`, not the running value `ret`. -/
def pmqos_cap_speed (c : Caps) (requested_speed : Nat) : Nat :=
  let ret := requested_speed
  let ret := if c.qos_min > requested_speed then c.qos_min else ret
  let ret := if c.qos_max < requested_speed then c.qos_max else ret
  ret

/-- The function `edp_governor_speed` of cpu-tegra.c:431
(`CONFIG_TEGRA_EDP_LIMITS` build). -/
def edp_governor_speed (c : Caps) (requested_speed : Nat) : Nat :=
  if c.no_edp_limit ≠ 0 then
    requested_speed
  else if c.edp_limit = 0 ∨ requested_speed ≤ c.edp_limit then
    requested_speed
  else
    c.edp_limit

/-- The function `get_scaled_freq` of cpu-tegra.c:924.  The thermal throttle
governor `tegra_throttle_governor_speed` lives in another translation unit
and is a parameter.  The EDP result is taken only when it is at least
1000 kHz (cpu-tegra.c:939). -/
def get_scaled_freq (tegra_throttle_governor_speed : Nat → Nat) (c : Caps)
    (target_freq : Nat) : Nat :=
  let target_freq := pmqos_cap_speed c target_freq
  let target_freq := tegra_throttle_governor_speed target_freq
  let edp_freq := edp_governor_speed c target_freq
  let target_freq :=
    if edp_freq ≥ 1000 then edp_governor_speed c target_freq else target_freq
  let target_freq := user_cap_speed c target_freq
  target_freq

/-! ## Definitions: snapping to the frequency table (cpu-tegra.c) -/

/-- The constant `CPUFREQ_RELATION_L` of linux/cpufreq.h: lowest frequency at
or above the target. -/
def CPUFREQ_RELATION_L : Nat := 0

/-- The constant `CPUFREQ_RELATION_H` of linux/cpufreq.h: highest frequency at
or below the target. -/
def CPUFREQ_RELATION_H : Nat := 1

/-- The constant `CPUFREQ_ENTRY_INVALID` of linux/cpufreq.h (`~0`). -/
def CPUFREQ_ENTRY_INVALID : Nat := 4294967295

/-- The constant `CPUFREQ_TABLE_END` of linux/cpufreq.h (`~1`). -/
def CPUFREQ_TABLE_END : Nat := 4294967294

/-- The two fields of a `struct cpufreq_frequency_table` that
`_cpu_target_freq` keeps for its best candidates. -/
structure cpufreq_frequency_table where
  index : Nat
  frequency : Nat
  deriving DecidableEq

/-- The local variables `optimal` and `suboptimal` of `_cpu_target_freq`. -/
structure target_locals where
  optimal : cpufreq_frequency_table
  suboptimal : cpufreq_frequency_table
  deriving DecidableEq

/-- One pass through the body of the `for` loop of `_cpu_target_freq`
(cpu-tegra.c:1152-1182) at index `i`, where `freq = freq_table[i].frequency`
is not the end marker. -/
def target_freq_body (target_freq relation i freq : Nat) (v : target_locals) :
    target_locals :=
  if freq = CPUFREQ_ENTRY_INVALID then
    v
  else if relation = CPUFREQ_RELATION_H then
    if freq ≤ target_freq then
      if freq ≥ v.optimal.frequency then
        { v with optimal := { index := i, frequency := freq } }
      else v
    else
      if freq ≤ v.suboptimal.frequency then
        { v with suboptimal := { index := i, frequency := freq } }
      else v
  else if relation = CPUFREQ_RELATION_L then
    if freq ≥ target_freq then
      if freq ≤ v.optimal.frequency then
        { v with optimal := { index := i, frequency := freq } }
      else v
    else
      if freq ≥ v.suboptimal.frequency then
        { v with suboptimal := { index := i, frequency := freq } }
      else v
  else
    v

/-- The `for` loop of `_cpu_target_freq` (cpu-tegra.c:1151), started at index
`i` on the entries `freq_table[i], freq_table[i+1], ...` given as a list of
their `frequency` fields.  The loop stops at the first `CPUFREQ_TABLE_END`
(the end of the list stands for it when the list carries no marker) and
returns the locals together with the final value of `i`. -/
def target_freq_loop (target_freq relation : Nat) :
    List Nat → Nat → target_locals → target_locals × Nat
  | [], i, v => (v, i)
  | freq :: rest, i, v =>
    if freq = CPUFREQ_TABLE_END then
      (v, i)
    else
      target_freq_loop target_freq relation rest (i + 1)
        (target_freq_body target_freq relation i freq v)

/-- The function `_cpu_target_freq` of cpu-tegra.c:1123.  The static pointer
`freq_table` is `none` while it is `NULL`, and otherwise the list of the
`frequency` fields of the array it points to. -/
def _cpu_target_freq (freq_table : Option (List Nat))
    (target_freq relation : Nat) : Nat :=
  match freq_table with
  | none => 0
  | some tbl =>
    let optimal : cpufreq_frequency_table :=
      { index := UINT_MAX,
        frequency := if relation = CPUFREQ_RELATION_L then UINT_MAX else 0 }
    let suboptimal : cpufreq_frequency_table :=
      { index := UINT_MAX,
        frequency := if relation = CPUFREQ_RELATION_H then UINT_MAX else 0 }
    let r := target_freq_loop target_freq relation tbl 0
      { optimal := optimal, suboptimal := suboptimal }
    if r.1.optimal.index > r.2 then
      if r.1.suboptimal.index > r.2 then
        0
      else
        tbl.getD r.1.suboptimal.index 0
    else
      tbl.getD r.1.optimal.index 0

/-- The entries the loop of `_cpu_target_freq` walks over: those before the
first `CPUFREQ_TABLE_END`. -/
def table_entries (tbl : List Nat) : List Nat :=
  tbl.takeWhile (fun f => decide (f ≠ CPUFREQ_TABLE_END))

/-- A valid entry of the frequency table: an entry before the end marker
that is not `CPUFREQ_ENTRY_INVALID`. -/
def valid_entry (tbl : List Nat) (f : Nat) : Prop :=
  f ∈ table_entries tbl ∧ f ≠ CPUFREQ_ENTRY_INVALID

instance (tbl : List Nat) (f : Nat) : Decidable (valid_entry tbl f) := by
  unfold valid_entry
  exact inferInstance

/-- Loop invariant of `_cpu_target_freq` under `CPUFREQ_RELATION_L`, for the
entries `pre` walked so far: either `optimal` is still unset and no valid
entry seen reaches the target `t`, or `optimal` names the smallest valid entry
seen that is at least `t`. -/
def optimal_inv_L (t : Nat) (pre : List Nat) (opt : cpufreq_frequency_table) :
    Prop :=
  (opt.index = UINT_MAX ∧ opt.frequency = UINT_MAX ∧
      ∀ f ∈ pre, f ≠ CPUFREQ_ENTRY_INVALID → f < t) ∨
  (opt.index < pre.length ∧ pre.getD opt.index 0 = opt.frequency ∧
      opt.frequency ∈ pre ∧ opt.frequency ≠ CPUFREQ_ENTRY_INVALID ∧
      t ≤ opt.frequency ∧
      ∀ f ∈ pre, f ≠ CPUFREQ_ENTRY_INVALID → t ≤ f → opt.frequency ≤ f)

/-- Loop invariant of `_cpu_target_freq` under `CPUFREQ_RELATION_H`, for the
entries `pre` walked so far: either `optimal` is still unset and every valid
entry seen is above the target `t`, or `optimal` names the largest valid entry
seen that is at most `t`. -/
def optimal_inv_H (t : Nat) (pre : List Nat) (opt : cpufreq_frequency_table) :
    Prop :=
  (opt.index = UINT_MAX ∧ opt.frequency = 0 ∧
      ∀ f ∈ pre, f ≠ CPUFREQ_ENTRY_INVALID → t < f) ∨
  (opt.index < pre.length ∧ pre.getD opt.index 0 = opt.frequency ∧
      opt.frequency ∈ pre ∧ opt.frequency ≠ CPUFREQ_ENTRY_INVALID ∧
      opt.frequency ≤ t ∧
      ∀ f ∈ pre, f ≠ CPUFREQ_ENTRY_INVALID → f ≤ t → f ≤ opt.frequency)

/-- A frequency is admissible for a table when it is a valid entry or the
sentinel 0. -/
def table_or_sentinel (tbl : List Nat) (f : Nat) : Prop :=
  valid_entry tbl f ∨ f = 0

instance (tbl : List Nat) (f : Nat) : Decidable (table_or_sentinel tbl f) := by
  unfold table_or_sentinel
  exact inferInstance

/-- A sample frequency table of the shape the scenario of the specification
gives (51000 kHz up to 1600000 kHz, ascending), closed by the end marker. -/
def sample_freq_table : List Nat :=
  [51000, 102000, 204000, 340000, 475000, 640000, 760000, 860000, 1000000,
   1100000, 1200000, 1300000, 1400000, 1500000, 1600000, CPUFREQ_TABLE_END]

/-! ## Definitions: the cluster-switch state machine (cpuquiet.c) -/

/-- The constant `CONFIG_NR_CPUS` of the Tegra3 build (four cores). -/
def CONFIG_NR_CPUS : Nat := 4

/-- The constant `LP_UP_DELAY_MS_DEF` of cpuquiet.c:47. -/
def LP_UP_DELAY_MS_DEF : Nat := 80

/-- The constant `LP_DOWN_DELAY_MS_DEF` of cpuquiet.c:48. -/
def LP_DOWN_DELAY_MS_DEF : Nat := 800

/-- The constant `T3_LP_MAX_FREQ` of tegra_pmqos.h:54. -/
def T3_LP_MAX_FREQ : Nat := 475000

/-- The values of the static `cpq_state` (the enum of cpuquiet.c:92).  The
code only ever stores these four enumerators in it. -/
inductive CpqState where
  | TEGRA_CPQ_DISABLED
  | TEGRA_CPQ_IDLE
  | TEGRA_CPQ_SWITCH_TO_LP
  | TEGRA_CPQ_SWITCH_TO_G
  deriving DecidableEq

/-- The constant `INITIAL_STATE` of cpuquiet.c:46. -/
def INITIAL_STATE : CpqState := CpqState.TEGRA_CPQ_IDLE

/-- The static variables of cpuquiet.c, with the values they hold once
`tegra_auto_hotplug_init` has run as defaults. -/
structure Cpuquiet where
  cpq_state : CpqState := INITIAL_STATE
  is_suspended : Bool := false
  no_lp : Bool := false
  enable : Bool := true
  lp_up_delay : Nat := LP_UP_DELAY_MS_DEF
  lp_down_delay : Nat := LP_DOWN_DELAY_MS_DEF
  idle_top_freq : Nat := T3_LP_MAX_FREQ
  manual_hotplug : Bool := false
  cpusallowed : Nat := 0
  cpu_core_state : List Nat := [0, 0, 0]
  screen_on : Bool := true
  lp_on_time : Nat := 0
  min_cpus : Nat := 1
  max_cpus : Nat := CONFIG_NR_CPUS
  deriving DecidableEq

/-- What cpuquiet.c reads from the rest of the kernel: `is_g_cluster_present()`,
`is_lp_cluster()`, the online mask (`online[i]` is `cpu_online(i)`), the
requests `pm_qos_request(PM_QOS_MIN_ONLINE_CPUS)` and
`pm_qos_request(PM_QOS_MAX_ONLINE_CPUS)` as stored in an `unsigned int`, and
`clk_get_rate(cpu_clk)`. -/
structure Platform where
  g_cluster_present : Bool
  lp_cluster : Bool
  online : List Bool
  qos_min_online_cpus : Nat
  qos_max_online_cpus : Nat
  cpu_clk_rate : Nat
  deriving DecidableEq

/-- The calls cpuquiet.c makes into the rest of the kernel, in program order:
`queue_delayed_work(cpuquiet_wq, &cpuquiet_work, msecs_to_jiffies(delay_ms))`,
`clk_set_rate(cpu_clk, rate)`, `clk_set_parent(cpu_clk, cpu_g_clk)`,
`clk_set_parent(cpu_clk, cpu_lp_clk)`, `tegra_cpu_set_speed_cap(NULL)`,
`cpu_up(cpu)`, `cpu_down(cpu)` and `schedule_work(&minmax_work)`. -/
inductive Call where
  | queue_delayed_work (delay_ms : Nat)
  | clk_set_rate (rate : Nat)
  | clk_set_parent_g
  | clk_set_parent_lp
  | tegra_cpu_set_speed_cap
  | cpu_up (cpu : Nat)
  | cpu_down (cpu : Nat)
  | schedule_work_minmax
  deriving DecidableEq

/-- The kernel helper `num_online_cpus()`. -/
def num_online_cpus (p : Platform) : Nat :=
  p.online.count true

/-- The function `num_cpu_check` of cpuquiet.c:99. -/
def num_cpu_check (num : Nat) : Nat :=
  if num > CONFIG_NR_CPUS then CONFIG_NR_CPUS
  else if num < 1 then 1
  else num

/-- The function `tegra_cpq_max_cpus` of cpuquiet.c:108. -/
def tegra_cpq_max_cpus (p : Platform) (s : Cpuquiet) : Nat :=
  let max_cpus_qos := p.qos_max_online_cpus
  let num := min max_cpus_qos s.max_cpus
  num_cpu_check num

/-- The function `tegra_cpq_min_cpus` of cpuquiet.c:115. -/
def tegra_cpq_min_cpus (p : Platform) (s : Cpuquiet) : Nat :=
  let min_cpus_qos := p.qos_min_online_cpus
  let num := max min_cpus_qos s.min_cpus
  num_cpu_check num

/-- The function `lp_possible` of cpuquiet.c:122. -/
def lp_possible (p : Platform) (s : Cpuquiet) : Bool :=
  !p.lp_cluster && !s.no_lp && !(decide (tegra_cpq_min_cpus p s ≥ 2)) &&
    decide (num_online_cpus p = 1)

/-- The function `tegra_auto_hotplug_governor` of cpuquiet.c:472: the new
static variables and the calls made. -/
def tegra_auto_hotplug_governor (p : Platform) (s : Cpuquiet) (cpu_freq : Nat)
    (suspend : Bool) : Cpuquiet × List Call :=
  if !p.g_cluster_present then
    (s, [])
  else if s.cpq_state = CpqState.TEGRA_CPQ_DISABLED then
    (s, [])
  else
    let s := { s with cpq_state := CpqState.TEGRA_CPQ_IDLE, is_suspended := suspend }
    if suspend then
      (s, [])
    else if p.lp_cluster && (decide (cpu_freq > s.idle_top_freq) || s.no_lp) then
      ({ s with cpq_state := CpqState.TEGRA_CPQ_SWITCH_TO_G },
        [Call.queue_delayed_work s.lp_up_delay])
    else if decide (cpu_freq ≤ s.idle_top_freq) && lp_possible p s then
      ({ s with cpq_state := CpqState.TEGRA_CPQ_SWITCH_TO_LP },
        [Call.queue_delayed_work s.lp_down_delay])
    else
      (s, [])

/-- How a call `tegra_cpu_set_speed_cap(NULL)` made by cpuquiet.c ends, as far
as the static variables of cpuquiet.c can tell (cpu-tegra.c:2101-2224): it
either returns without reaching line 2222 (early-suspend boost, suspended,
bargaining path on the performance cluster, or the speed is already the
resolved one), or it applies the resolved speed and calls
`tegra_auto_hotplug_governor(new_speed, false)` at line 2222. -/
inductive SpeedCapPath where
  | returns_early
  | calls_governor (new_speed : Nat)
  deriving DecidableEq

/-- The effect on cpuquiet.c of a call `tegra_cpu_set_speed_cap(NULL)` that
takes the path `path`. -/
def speed_cap_call (path : SpeedCapPath) (p : Platform) (s : Cpuquiet) :
    Cpuquiet × List Call :=
  match path with
  | SpeedCapPath.returns_early => (s, [Call.tegra_cpu_set_speed_cap])
  | SpeedCapPath.calls_governor new_speed =>
    let r := tegra_auto_hotplug_governor p s new_speed false
    (r.1, Call.tegra_cpu_set_speed_cap :: r.2)

/-- What one run of `tegra_cpuquiet_work_func` gets from its environment:
whether `mutex_trylock(&hotplug_lock)` succeeds, the value `clk_set_parent`
returns (0 on success), the time `ktime_to_ms(ktime_get())`, and the path the
nested `tegra_cpu_set_speed_cap(NULL)` takes. -/
structure WorkOracle where
  trylock : Bool
  clk_set_parent_ret : Int
  now_ms : Nat
  speed_cap : SpeedCapPath
  deriving DecidableEq

/-- The function `switch_clk_to_gmode` of cpuquiet.c:127: the calls made, the
value returned being that of `clk_set_parent`.  The product
`idle_top_freq * 1000` is a 32-bit product. -/
def switch_clk_to_gmode (p : Platform) (s : Cpuquiet) : List Call :=
  (if p.cpu_clk_rate < (s.idle_top_freq * 1000) % 2 ^ 32 then
    [Call.clk_set_rate ((s.idle_top_freq * 1000) % 2 ^ 32)]
  else
    []) ++ [Call.clk_set_parent_g]

/-- The function `switch_clk_to_lpmode` of cpuquiet.c:135: the calls made, the
value returned being that of `clk_set_parent`. -/
def switch_clk_to_lpmode : List Call :=
  [Call.clk_set_parent_lp]

/-- The function `tegra_cpuquiet_work_func` of cpuquiet.c:230: the new static
variables and the calls made.  After a successful `clk_set_parent` the CPU
runs on the cluster of the new parent, which is what the nested
`tegra_cpu_set_speed_cap(NULL)` then reads through `is_lp_cluster()`. -/
def tegra_cpuquiet_work_func (o : WorkOracle) (p : Platform) (s : Cpuquiet) :
    Cpuquiet × List Call :=
  if !o.trylock then
    (s, [])
  else
    match s.cpq_state with
    | CpqState.TEGRA_CPQ_DISABLED => (s, [])
    | CpqState.TEGRA_CPQ_IDLE => (s, [])
    | CpqState.TEGRA_CPQ_SWITCH_TO_G =>
      if p.lp_cluster then
        if o.clk_set_parent_ret = 0 then
          let r := speed_cap_call o.speed_cap { p with lp_cluster := false } s
          (r.1, switch_clk_to_gmode p s ++ r.2)
        else
          (s, switch_clk_to_gmode p s)
      else
        (s, [])
    | CpqState.TEGRA_CPQ_SWITCH_TO_LP =>
      if lp_possible p s then
        if o.clk_set_parent_ret = 0 then
          let r := speed_cap_call o.speed_cap { p with lp_cluster := true } s
          ({ r.1 with lp_on_time := o.now_ms }, switch_clk_to_lpmode ++ r.2)
        else
          (s, switch_clk_to_lpmode)
      else
        (s, [])

/-! ## Definitions: the core-count controller (cpuquiet.c, cpu-tegra.c) -/

/-- The kernel variable `nr_cpu_ids`: the number of possible CPUs, which is
`CONFIG_NR_CPUS` on this four-core platform. -/
def nr_cpu_ids : Nat := CONFIG_NR_CPUS

/-- The errno value `EINVAL`. -/
def EINVAL : Int := 22

/-- The errno value `EBUSY`. -/
def EBUSY : Int := 16

/-- The notifier return value `NOTIFY_OK`. -/
def NOTIFY_OK : Int := 1

/-- The kernel helper `cpu_online(cpu)`. -/
def cpu_online (p : Platform) (cpu : Nat) : Bool :=
  p.online.getD cpu false

/-- The kernel helper `cpumask_next(n, mask)`: the lowest set bit above `n`,
or `nr_cpu_ids` when there is none. -/
def cpumask_next (n : Nat) (mask : List Bool) : Nat :=
  match (List.range nr_cpu_ids).find? (fun i => decide (n < i) && mask.getD i false) with
  | some i => i
  | none => nr_cpu_ids

/-- The online mask after a `cpu_up(cpu)` or `cpu_down(cpu)` that returned
success (`ok`), and the unchanged mask after one that failed. -/
def hotplugged (p : Platform) (cpu : Nat) (up ok : Bool) : Platform :=
  if ok then { p with online := p.online.set cpu up } else p

/-- The function `best_core_to_turn_up` of cpu-tegra.c:954. -/
def best_core_to_turn_up (p : Platform) : Nat :=
  if !cpu_online p 3 then 3
  else if !cpu_online p 2 then 2
  else if !cpu_online p 1 then 1
  else nr_cpu_ids

/-- The value `ULONG_MAX` of the 32-bit target. -/
def ULONG_MAX : Nat := 4294967295

/-- The function `tegra_get_slowest_cpu_n` of cpu-tegra.c:829, for the array
`target_cpu_speed`: the pair of the locals `cpu` and `rate` is folded over
the online cores in ascending order. -/
def tegra_get_slowest_cpu_n (p : Platform) (target_cpu_speed : List Nat) : Nat :=
  ((List.range nr_cpu_ids).foldl
    (fun (acc : Nat × Nat) (i : Nat) =>
      if cpu_online p i then
        if decide (i > 0) && decide (acc.2 > target_cpu_speed.getD i 0) then
          (i, target_cpu_speed.getD i 0)
        else acc
      else acc)
    (nr_cpu_ids, ULONG_MAX)).1

/-- The `for` loop of `min_max_constraints_workfunc` (cpuquiet.c:317) with
`count` iterations left.  `ok count cpu` tells whether the `cpu_up` or
`cpu_down` of that iteration succeeds. -/
def min_max_loop (ok : Nat → Nat → Bool) (up : Bool) :
    Nat → Platform → List Call → Platform × List Call
  | 0, p, cs => (p, cs)
  | count + 1, p, cs =>
    if up then
      let cpu := best_core_to_turn_up p
      if cpu < nr_cpu_ids then
        min_max_loop ok up count (hotplugged p cpu true (ok (count + 1) cpu))
          (cs ++ [Call.cpu_up cpu])
      else
        (p, cs)
    else
      let cpu := cpumask_next 0 p.online
      if cpu < nr_cpu_ids then
        min_max_loop ok up count (hotplugged p cpu false (ok (count + 1) cpu))
          (cs ++ [Call.cpu_down cpu])
      else
        (p, cs)

/-- The function `min_max_constraints_workfunc` of cpuquiet.c:294: the
platform after the hotplug calls and the calls made. -/
def min_max_constraints_workfunc (ok : Nat → Nat → Bool) (p : Platform)
    (s : Cpuquiet) : Platform × List Call :=
  let nr_cpus : Int := num_online_cpus p
  let max_cpus : Int := tegra_cpq_max_cpus p s
  let min_cpus : Int := tegra_cpq_min_cpus p s
  if s.cpq_state = CpqState.TEGRA_CPQ_DISABLED then
    (p, [])
  else if p.lp_cluster then
    (p, [])
  else
    let uc : Bool × Int :=
      if nr_cpus < min_cpus then (true, min_cpus - nr_cpus)
      else if nr_cpus > max_cpus ∧ max_cpus ≥ min_cpus then (false, nr_cpus - max_cpus)
      else (false, -1)
    min_max_loop ok uc.1 uc.2.toNat p []

/-- The function `tegra_cpuquiet_force_gmode` of cpuquiet.c:408: the value
returned, the platform afterwards and the calls made; `clk_ret` is what
`clk_set_parent` returns. -/
def tegra_cpuquiet_force_gmode (clk_ret : Int) (p : Platform) (s : Cpuquiet) :
    Int × Platform × List Call :=
  if s.no_lp then (-EBUSY, p, [])
  else if !p.g_cluster_present then (-EBUSY, p, [])
  else if s.cpq_state = CpqState.TEGRA_CPQ_DISABLED then (-EBUSY, p, [])
  else if p.lp_cluster then
    if clk_ret ≠ 0 then
      (-EBUSY, p, switch_clk_to_gmode p s)
    else
      (0, { p with lp_cluster := false }, switch_clk_to_gmode p s)
  else
    (0, p, [])

/-- One pass through the body of the loop of `cpu_core_state_workfunc`
(cpuquiet.c:687) for index `i`; `ok cpu` tells whether the hotplug call on
`cpu` succeeds and `clk_ret cpu` is what `clk_set_parent` returns there. -/
def cpu_core_state_body (ok : Nat → Bool) (clk_ret : Nat → Int) (s : Cpuquiet)
    (acc : Platform × List Call) (i : Nat) : Platform × List Call :=
  let p := acc.1
  let cpu := i + 1
  if decide (s.cpu_core_state.getD i 0 = 0) && cpu_online p cpu then
    (hotplugged p cpu false (ok cpu), acc.2 ++ [Call.cpu_down cpu])
  else if decide (s.cpu_core_state.getD i 0 = 1) && !cpu_online p cpu then
    let g : Int × Platform × List Call :=
      if p.lp_cluster then tegra_cpuquiet_force_gmode (clk_ret cpu) p s
      else (0, p, [])
    (hotplugged g.2.1 cpu true (ok cpu), acc.2 ++ g.2.2 ++ [Call.cpu_up cpu])
  else
    acc

/-- The function `cpu_core_state_workfunc` of cpuquiet.c:682. -/
def cpu_core_state_workfunc (ok : Nat → Bool) (clk_ret : Nat → Int)
    (p : Platform) (s : Cpuquiet) : Platform × List Call :=
  [0, 1, 2].foldl (cpu_core_state_body ok clk_ret s) (p, [])

/-- The core a call hotplugs, if it is a `cpu_up` or a `cpu_down`. -/
def hotplug_target : Call → Option Nat
  | Call.cpu_up cpu => some cpu
  | Call.cpu_down cpu => some cpu
  | _ => none

/-- What `min_cpus_change` gets from its environment: the value
`clk_set_parent` returns and the path the nested
`tegra_cpu_set_speed_cap(NULL)` takes. -/
structure ChangeOracle where
  clk_set_parent_ret : Int
  speed_cap : SpeedCapPath
  deriving DecidableEq

/-- The function `min_cpus_change` of cpuquiet.c:338. -/
def min_cpus_change (o : ChangeOracle) (p : Platform) (s : Cpuquiet) :
    Cpuquiet × List Call :=
  if s.cpq_state = CpqState.TEGRA_CPQ_DISABLED then
    (s, [])
  else if decide (tegra_cpq_min_cpus p s ≥ 2) && p.lp_cluster then
    if o.clk_set_parent_ret ≠ 0 then
      (s, switch_clk_to_gmode p s)
    else
      let r := speed_cap_call o.speed_cap { p with lp_cluster := false } s
      (r.1, switch_clk_to_gmode p s ++ r.2 ++ [Call.schedule_work_minmax])
  else
    let r := speed_cap_call o.speed_cap p s
    (r.1, r.2 ++ [Call.schedule_work_minmax])

/-- The function `min_cpus_notify` of cpuquiet.c:367, notified with `n`. -/
def min_cpus_notify (o : ChangeOracle) (p : Platform) (s : Cpuquiet) (n : Nat) :
    Int × Cpuquiet × List Call :=
  if n < 1 ∨ n > CONFIG_NR_CPUS then (NOTIFY_OK, s, [])
  else if s.manual_hotplug then (NOTIFY_OK, s, [])
  else (NOTIFY_OK, min_cpus_change o p s)

/-- The function `max_cpus_change` of cpuquiet.c:383. -/
def max_cpus_change (p : Platform) (s : Cpuquiet) : Cpuquiet × List Call :=
  if s.cpq_state = CpqState.TEGRA_CPQ_DISABLED then
    (s, [])
  else if tegra_cpq_max_cpus p s < num_online_cpus p then
    (s, [Call.schedule_work_minmax])
  else
    (s, [])

/-- The function `max_cpus_notify` of cpuquiet.c:392, notified with `n`. -/
def max_cpus_notify (p : Platform) (s : Cpuquiet) (n : Nat) :
    Int × Cpuquiet × List Call :=
  if n < 1 then (NOTIFY_OK, s, [])
  else if s.manual_hotplug then (NOTIFY_OK, s, [])
  else (NOTIFY_OK, max_cpus_change p s)

/-- The function `store_min_cpus` of cpuquiet.c:551.  `parsed` is `none` when
`sscanf` does not return 1 and otherwise the value it stored in the
`unsigned int n`; `count` is the length of the write. -/
def store_min_cpus (o : ChangeOracle) (p : Platform) (s : Cpuquiet)
    (parsed : Option Nat) (count : Nat) : Int × Cpuquiet × List Call :=
  match parsed with
  | none => (-EINVAL, s, [])
  | some n =>
    if n < 1 ∨ n > CONFIG_NR_CPUS then (-EINVAL, s, [])
    else if s.manual_hotplug then (-EBUSY, s, [])
    else
      let r := min_cpus_change o p { s with min_cpus := n }
      ((count : Int), r)

/-- The function `store_max_cpus` of cpuquiet.c:577, with the arguments of
`store_min_cpus`. -/
def store_max_cpus (p : Platform) (s : Cpuquiet)
    (parsed : Option Nat) (count : Nat) : Int × Cpuquiet × List Call :=
  match parsed with
  | none => (-EINVAL, s, [])
  | some n =>
    if n < 1 ∨ n > CONFIG_NR_CPUS then (-EINVAL, s, [])
    else if s.manual_hotplug then (-EBUSY, s, [])
    else
      let r := max_cpus_change p { s with max_cpus := n }
      ((count : Int), r)

/-! ## Definitions: the best-trade bargainer (cpu-tegra.c) -/

/-- The value of an integer as a C `unsigned int` or `unsigned long` of the
32-bit target. -/
def u32 (x : Int) : Nat := (x % 4294967296).toNat

/-- The value of an integer as a C `int` (32 bits, two's complement). -/
def s32 (x : Int) : Int := (x + 2147483648) % 4294967296 - 2147483648

/-- The value of an integer as a `cputime64_t` (`u64`). -/
def u64 (x : Int) : Nat := (x % 18446744073709551616).toNat

/-- The value of an integer as an `__s64`. -/
def s64 (x : Int) : Int :=
  (x + 9223372036854775808) % 18446744073709551616 - 9223372036854775808

/-- The macro `time_after64(a, b)` of linux/jiffies.h:
`(__s64)(b) - (__s64)(a) < 0`. -/
def time_after64 (a b : Nat) : Bool := decide (s64 ((b : Int) - (a : Int)) < 0)

/-- The macro `time_before64(a, b)` of linux/jiffies.h. -/
def time_before64 (a b : Nat) : Bool := time_after64 b a

/-- The macro `time_after_eq64(a, b)` of linux/jiffies.h:
`(__s64)(a) - (__s64)(b) >= 0`. -/
def time_after_eq64 (a b : Nat) : Bool := decide (s64 ((a : Int) - (b : Int)) ≥ 0)

/-- The macro `time_before_eq64(a, b)` of linux/jiffies.h. -/
def time_before_eq64 (a b : Nat) : Bool := time_after_eq64 b a

/-- The kernel primitive `atomic_cmpxchg(v, old, new)`: the value of `*v`
afterwards. -/
def atomic_cmpxchg (v old new : Int) : Int := if v = old then new else v

/-- The constant `NR_CPUS` of the build. -/
def NR_CPUS : Int := 4

/-- The constant `__NO_CPU_KICKING__` of cpu-tegra.c:866 (`~0u >> 1`). -/
def NO_CPU_KICKING : Int := 2147483647

/-- The constant `BTHP_DECISION(DO_NOTHING)`, also `BTHP_DECISION(ANY)`. -/
def BTHP_DO_NOTHING : Int := 0

/-- The constant `BTHP_DECISION(CPU_UP)`. -/
def BTHP_CPU_UP : Int := 1

/-- The constant `BTHP_DECISION(CPU_DOWN)`. -/
def BTHP_CPU_DOWN : Int := -1

/-- A read `a[i]` of an array of `unsigned int` with an `int` index; a read
outside the array, undefined in C, gives 0. -/
def arr (a : List Nat) (i : Int) : Nat :=
  if i < 0 then 0 else a.getD i.toNat 0

/-- The static `bthp_kicker` of cpu-tegra.c:974, with its initial values. -/
structure bthp_kicker where
  kicking : Int := 0
  kick_cpu : Int := NO_CPU_KICKING
  last_kick_time : Nat := 0
  last_hotplug_time : Nat := 0
  last_lp_kick_time : Nat := 0
  oc_cpu : Int := NO_CPU_KICKING
  oc_base_clk : Nat := 50000000
  oc_big_hammer : Nat := 1
  oc_last_oc_time : Nat := 0
  deriving DecidableEq

/-- The module parameters of the bargainer (cpu-tegra.c:905-1079), with their
initial values. -/
structure bthp_tunables where
  bthp_debounce_time_up : Nat := 70000000
  bthp_debounce_time_down : Nat := 100000000
  bthp_debounce_time_lp : Nat := 200000000
  bthp_relax : Nat := 0
  bthp_mp_overhead : List Nat := [10, 10, 10, 10]
  big2_mp_overhead_cpuup : Bool := false
  big2_mp_overhead_cpudown : Bool := true
  perfvote_factor : Nat := 0
  oc_big_hammer_limit : Nat := 100
  oc_disabled : Bool := true
  new_comer_as_perf_crit_factor : Nat := 1
  perf_critical_elevator : Nat := 0
  deriving DecidableEq

/-- The static variables the bargainer writes: `bthp_kicker` and the array
`target_cpu_speed`. -/
structure bthp_state where
  kicker : bthp_kicker
  target_cpu_speed : List Nat
  deriving DecidableEq

/-- What `bthp_do_hotplug` hands back: its return value and the values it
leaves in `*last_time` and `*decision_cpu_speed_loc`. -/
structure hotplug_outcome where
  ok : Bool
  last_time : Nat
  decision_cpu_speed : Nat
  deriving DecidableEq

/-- What the bargainer reads and does not write: module parameters, the caps
and the frequency table, the per-cpu `bthp_cpu.policy_qos` limits, the input
boost floor, the platform, and the functions of other translation units
(`p2pconv`, `lb_prophet_up`, `bthp_do_hotplug`, ...), each given by the value
it returns for its arguments.  `bthp_do_hotplug` gets the direction, the
destination core, the value of `*last_time`, the target speed and the value of
`*decision_cpu_speed_loc`.  The three `ktime` fields are the clock readings of
`cpu_get_min_speed` (ns), `resolve_perf_low_by_oc` (us) and of the failure
path at cpu-tegra.c:1882 (ns). -/
structure bthp_env where
  tun : bthp_tunables
  caps : Caps
  tegra_throttle_governor_speed : Nat → Nat
  freq_table : Option (List Nat)
  policy_qos_min_freq : List Nat
  policy_qos_max_freq : List Nat
  iboost_floor_freq : Nat
  iboost_floor_time : Nat
  platform : Platform
  smp_processor_id : Int
  ktime_min_speed : Nat
  ktime_oc : Nat
  ktime_hotplug_failed : Nat
  can_do_bthp : Bool
  bthp_cpu_num_catchup : Bool
  valid_bargain_speed : Nat → Bool
  p2pconv : Nat → Int → Nat
  get_perf_votes : Int → Int
  cpu_nr_running : Int → Nat
  tracked_tasks_nr : Int → Nat
  lb_prophet_up : Int → Bool × Nat × Nat
  lb_prophet_down : Int → Int → Bool × Nat × Nat
  bthp_supported_min_speed : Nat
  valid_power_diff : Int → Bool
  valid_max_power : Nat
  valid_power_value : Nat → Bool
  g2lp_bottom_freq : Nat
  bthp_do_hotplug : Int → Int → Nat → Nat → Nat → hotplug_outcome

/-- The calls the bargainer makes to the hotplug actuators:
`bthp_cpu_num_catchup()` and
`bthp_do_hotplug(core_num_diff, dest_core, ..., target_speed, ...)`. -/
inductive BthpCall where
  | bthp_cpu_num_catchup
  | bthp_do_hotplug (core_num_diff dest_core : Int) (target_speed : Nat)
  deriving DecidableEq

/-- The local `struct bthp_params` of cpu-tegra.c:1087; the members of its
`qos` part carry the prefix `qos_`.  Members not yet assigned hold 0. -/
structure bthp_params where
  cpu : Int := 0
  active_cpus : Int := 0
  orig_speed : Nat := 0
  diff_speed : Int := 0
  orig_power : Nat := 0
  diff_power : Int := 0
  best_diff_power : Int := 0
  best_target_speed : Nat := 0
  best_hotplug_decision : Int := 0
  dest_core : Int := 0
  qos_min_freq : Nat := 0
  qos_max_freq : Nat := 0
  qos_min_cpus : Int := 0
  qos_max_cpus : Int := 0
  qos_perf_up_votes : Int := 0
  qos_perf_critical : Bool := false
  deriving DecidableEq

/-- The value `pm_qos_request(PM_QOS_MIN_ONLINE_CPUS)` as the `int` it is. -/
def pm_qos_min_online_cpus (e : bthp_env) : Int := s32 e.platform.qos_min_online_cpus

/-- The value `pm_qos_request(PM_QOS_MAX_ONLINE_CPUS)` as the `int` it is. -/
def pm_qos_max_online_cpus (e : bthp_env) : Int := s32 e.platform.qos_max_online_cpus

/-- The loop of `better_perf` (cpu-tegra.c:1214) with `mp_levels` iterations
left: the locals `mp_overhead_idx`, `i_perf` and `c_perf`. -/
def better_perf_loop (ov : List Nat) (i_fewer : Bool) :
    Nat → Nat → Nat → Nat → Nat × Nat
  | 0, _, i_perf, c_perf => (i_perf, c_perf)
  | mp_levels + 1, idx, i_perf, c_perf =>
    if i_fewer then
      better_perf_loop ov i_fewer mp_levels ((idx + 1) % 4294967296)
        ((i_perf * ((100 + arr ov idx) % 4294967296)) % 4294967296 / 100) c_perf
    else
      better_perf_loop ov i_fewer mp_levels ((idx + 1) % 4294967296)
        i_perf ((c_perf * ((100 + arr ov idx) % 4294967296)) % 4294967296 / 100)

/-- The function `better_perf` of cpu-tegra.c:1195. -/
def better_perf (tun : bthp_tunables) (i_speed : Nat) (i_cpus : Int)
    (competitor_speed : Nat) (competitor_cpus : Int) : Bool :=
  let mp_levels : Nat := u32 (i_cpus - competitor_cpus).natAbs
  let mp_overhead_idx : Nat :=
    u32 (if i_cpus < competitor_cpus then i_cpus - 1 else competitor_cpus - 1)
  let i_perf : Nat := u32 (i_speed * i_cpus)
  let c_perf : Nat := u32 (competitor_speed * competitor_cpus)
  if i_cpus ≤ 0 ∨ i_cpus > NR_CPUS ∨ competitor_cpus ≤ 0 ∨ competitor_cpus > NR_CPUS then
    false
  else
    let r := better_perf_loop tun.bthp_mp_overhead (decide (i_cpus < competitor_cpus))
      mp_levels mp_overhead_idx i_perf c_perf
    decide (r.1 > r.2)

/-- The function `best_core_to_turn_down` of cpu-tegra.c:1228. -/
def best_core_to_turn_down (e : bthp_env) (st : bthp_state) : Nat :=
  tegra_get_slowest_cpu_n e.platform st.target_cpu_speed

/-- The function `big_two_mp_adjustment` of cpu-tegra.c:1235. -/
def big_two_mp_adjustment (e : bthp_env) (st : bthp_state) (i_cpu : Int)
    (i_cpu_speed : Nat) (mp_type : Int) (speed_added_to_big2 : Nat)
    (exp_cpu : Int) (nr_online_cpus : Int) : Nat :=
  let found : Nat × Nat :=
    (List.range nr_cpu_ids).foldl
      (fun (acc : Nat × Nat) (i : Nat) =>
        if cpu_online e.platform i then
          if decide ((i : Int) ≠ i_cpu) && decide ((i : Int) ≠ exp_cpu) &&
              decide (acc.2 > st.target_cpu_speed.getD i 0) then
            (i, st.target_cpu_speed.getD i 0)
          else acc
        else acc)
      (NR_CPUS.toNat, UINT_MAX)
  let cpu := found.1
  let rate := found.2
  if (cpu : Int) ≠ NR_CPUS then
    if mp_type = BTHP_CPU_UP then
      let rate :=
        if e.tun.big2_mp_overhead_cpuup then
          (rate * ((100 + arr e.tun.bthp_mp_overhead (nr_online_cpus - 1)) % 4294967296))
            % 4294967296 / 100
        else rate
      max i_cpu_speed
        (get_scaled_freq e.tegra_throttle_governor_speed e.caps
          ((rate + speed_added_to_big2) % 4294967296))
    else if mp_type = BTHP_CPU_DOWN then
      let rate :=
        if e.tun.big2_mp_overhead_cpudown then
          (rate * u32 (100 - (arr e.tun.bthp_mp_overhead (nr_online_cpus - 2) : Int)))
            % 4294967296 / 100
        else rate
      max i_cpu_speed ((rate + speed_added_to_big2) % 4294967296)
    else
      i_cpu_speed
  else
    i_cpu_speed

/-- The function `perf_critical_on` of cpu-tegra.c:1285. -/
def perf_critical_on (e : bthp_env) (cpu : Int) (perf_up_votes : Int) : Bool :=
  let nr_running : Nat := u32 (e.cpu_nr_running cpu)
  let tracked_nr_running : Nat := u32 (e.tracked_tasks_nr cpu)
  let new_commers : Nat :=
    if nr_running > tracked_nr_running then nr_running - tracked_nr_running else 0
  let nr_running := nr_running / 2
  let new_commers := new_commers / 2 ^ e.tun.new_comer_as_perf_crit_factor
  let perf_up_votes : Int := s32 (perf_up_votes + new_commers)
  decide (perf_up_votes ≠ 0) &&
    decide (u32 perf_up_votes > (nr_running + e.tun.perf_critical_elevator) % 4294967296)

/-- The function `_adjust__one_core_up` of cpu-tegra.c:1311: the `params`
it leaves. -/
def _adjust__one_core_up (e : bthp_env) (st : bthp_state) (params : bthp_params) :
    bthp_params :=
  let dest_cpu : Nat := best_core_to_turn_up e.platform
  let lb := e.lb_prophet_up params.cpu
  let total_cc : Nat := lb.2.1
  let min_tradable_cc : Nat := lb.2.2
  if !lb.1 ∨ dest_cpu ≥ nr_cpu_ids ∨ total_cc = 0 ∨ min_tradable_cc = 0 ∨
      total_cc < min_tradable_cc then
    params
  else
    let help_ratio : Nat := (min_tradable_cc * 100) % 4294967296 / total_cc
    if help_ratio = 0 ∧ params.qos_perf_up_votes = 0 then
      params
    else
      let base : Nat := u32 (params.orig_speed + params.diff_speed)
      let ov : Nat := arr e.tun.bthp_mp_overhead (params.active_cpus - 1)
      let perfguarded_speed : Nat :=
        (base * u32 (100 - (help_ratio : Int))) % 4294967296 / 100
      let perfguarded_speed : Nat :=
        (perfguarded_speed * ((100 + ov) % 4294967296)) % 4294967296 / 100
      let perfguarded_speed : Nat :=
        if perfguarded_speed ≠ 0 then perfguarded_speed else e.bthp_supported_min_speed
      let offload_speed : Nat := (base * help_ratio) % 4294967296 / 100
      let offload_speed : Nat :=
        (offload_speed * ((100 + ov) % 4294967296)) % 4294967296 / 100
      let perfguarded_speed : Nat := max perfguarded_speed offload_speed
      let perfguarded_speed : Nat :=
        big_two_mp_adjustment e st params.cpu perfguarded_speed BTHP_CPU_UP 0
          params.cpu params.active_cpus
      let perfguarded_speed : Nat :=
        if params.qos_min_freq ≠ 0 ∧ perfguarded_speed < params.qos_min_freq then
          params.qos_min_freq
        else perfguarded_speed
      let perfguarded_speed : Nat :=
        if params.qos_max_freq ≠ 0 ∧ perfguarded_speed > params.qos_max_freq then
          params.qos_max_freq
        else perfguarded_speed
      let perfguarded_speed : Nat :=
        _cpu_target_freq e.freq_table perfguarded_speed CPUFREQ_RELATION_L
      if perfguarded_speed = 0 then
        params
      else if params.qos_perf_critical then
        let perfguarded_speed : Nat :=
          max perfguarded_speed (u32 (params.orig_speed + params.diff_speed))
        let perfguarded_best_diff_power : Int :=
          s32 ((e.p2pconv perfguarded_speed (params.active_cpus + 1) : Int) -
            params.orig_power)
        { params with
          best_diff_power :=
            if e.valid_power_diff perfguarded_best_diff_power then
              perfguarded_best_diff_power
            else s32 ((e.valid_max_power : Int) - params.orig_power),
          best_target_speed := perfguarded_speed,
          best_hotplug_decision := BTHP_CPU_UP,
          dest_core := dest_cpu }
      else
        let perfguarded_best_diff_power : Int :=
          s32 ((e.p2pconv perfguarded_speed (params.active_cpus + 1) : Int) -
            params.orig_power)
        if !e.valid_power_diff perfguarded_best_diff_power then
          params
        else if params.qos_perf_up_votes > 0 ∧
            !better_perf e.tun perfguarded_speed (params.active_cpus + 1)
              params.best_target_speed
              (if params.best_hotplug_decision = BTHP_CPU_DOWN then
                params.active_cpus - 1
              else params.active_cpus) then
          params
        else if perfguarded_best_diff_power <
            (if params.qos_perf_up_votes > 0 then params.diff_power
             else params.best_diff_power) then
          { params with
            best_diff_power := perfguarded_best_diff_power,
            best_target_speed := perfguarded_speed,
            best_hotplug_decision := BTHP_CPU_UP,
            dest_core := dest_cpu }
        else
          params

/-- The function `gov_target_cpu_speed` of cpu-tegra.c:1471. -/
def gov_target_cpu_speed (st : bthp_state) (cpu : Int) : Nat :=
  arr st.target_cpu_speed cpu

/-- The function `_adjust__one_core_down` of cpu-tegra.c:1479: the `params`
it leaves. -/
def _adjust__one_core_down (e : bthp_env) (st : bthp_state) (params : bthp_params) :
    bthp_params :=
  let dest_cpu : Nat := best_core_to_turn_down e st
  let lb := e.lb_prophet_down params.cpu dest_cpu
  let total_cc : Nat := lb.2.1
  let max_added_cc : Nat := lb.2.2
  if dest_cpu ≥ nr_cpu_ids ∨ params.cpu = dest_cpu ∨ !lb.1 ∨ total_cc < max_added_cc ∨
      (e.cpu_nr_running dest_cpu > 0 ∧ total_cc = 0) then
    params
  else
    let transferred_ratio : Nat :=
      if total_cc ≠ 0 ∧ max_added_cc ≠ 0 then
        (max_added_cc * 100) % 4294967296 / total_cc
      else 0
    let ov : Nat := arr e.tun.bthp_mp_overhead (params.active_cpus - 2)
    let transferred_speed : Nat :=
      (gov_target_cpu_speed st dest_cpu * u32 (100 - (ov : Int))) % 4294967296 / 100
    let base : Nat := u32 (params.orig_speed + params.diff_speed)
    let perfguarded_speed : Nat :=
      (base * u32 (100 - (ov : Int))) % 4294967296 / 100
    let perfguarded_speed : Nat :=
      (perfguarded_speed +
        (transferred_speed * transferred_ratio) % 4294967296 / 100) % 4294967296
    let perfguarded_speed : Nat :=
      big_two_mp_adjustment e st params.cpu perfguarded_speed BTHP_CPU_DOWN
        ((transferred_speed * u32 (100 - (transferred_ratio : Int))) % 4294967296 / 100)
        dest_cpu params.active_cpus
    let perfguarded_speed : Nat :=
      if params.qos_min_freq ≠ 0 ∧ perfguarded_speed < params.qos_min_freq then
        params.qos_min_freq
      else perfguarded_speed
    if params.qos_max_freq ≠ 0 ∧ perfguarded_speed > params.qos_max_freq then
      params
    else
      let perfguarded_speed : Nat :=
        _cpu_target_freq e.freq_table perfguarded_speed CPUFREQ_RELATION_L
      if perfguarded_speed = 0 ∨ params.qos_perf_critical then
        params
      else
        let perfguarded_best_diff_power : Int :=
          s32 ((e.p2pconv perfguarded_speed (params.active_cpus - 1) : Int) -
            params.orig_power)
        if !e.valid_power_diff perfguarded_best_diff_power then
          params
        else if params.qos_perf_up_votes > 0 ∧
            !better_perf e.tun perfguarded_speed (params.active_cpus - 1)
              params.best_target_speed
              (if params.best_hotplug_decision = BTHP_CPU_UP then
                params.active_cpus + 1
              else params.active_cpus) then
          params
        else if perfguarded_best_diff_power <
            (if params.qos_perf_up_votes > 0 then params.diff_power
             else params.best_diff_power) then
          { params with
            best_diff_power := perfguarded_best_diff_power,
            best_target_speed := perfguarded_speed,
            best_hotplug_decision := BTHP_CPU_DOWN,
            dest_core := dest_cpu }
        else
          params

/-- The function `resolve_perf_low_by_oc` of cpu-tegra.c:1605: the value
returned, the `bthp_kicker` it leaves and the value left in `*oc_speed`
(`oc_speed` on entry). -/
def resolve_perf_low_by_oc (e : bthp_env) (k : bthp_kicker) (params : bthp_params)
    (oc_speed : Nat) : Bool × bthp_kicker × Nat :=
  let now : Nat := e.ktime_oc
  if params.cpu = k.oc_cpu ∧ params.qos_perf_up_votes = 0 then
    let big_hammer := k.oc_big_hammer / 2
    if big_hammer = 0 then
      (false, { k with oc_big_hammer := 1, oc_cpu := NO_CPU_KICKING }, oc_speed)
    else
      (false, { k with oc_big_hammer := big_hammer }, oc_speed)
  else if params.qos_perf_critical ∧ params.diff_speed = 0 ∧
      params.orig_speed = params.qos_max_freq then
    let oc_speed : Nat := arr e.policy_qos_max_freq params.cpu
    if oc_speed > params.orig_speed then
      let k : bthp_kicker :=
        if k.oc_cpu ≠ NO_CPU_KICKING ∧
            (!cpu_online e.platform k.oc_cpu.toNat ∨ e.get_perf_votes k.oc_cpu = 0) then
          { k with oc_cpu := NO_CPU_KICKING, oc_big_hammer := 1 }
        else k
      let k : bthp_kicker :=
        if k.oc_big_hammer > e.tun.oc_big_hammer_limit then
          { k with oc_big_hammer := e.tun.oc_big_hammer_limit }
        else k
      if time_after64 now
          (u64 (k.oc_last_oc_time + (k.oc_base_clk * k.oc_big_hammer) % 4294967296)) then
        (true,
          { k with oc_cpu := params.cpu, oc_last_oc_time := now,
                   oc_big_hammer := (k.oc_big_hammer * 2) % 4294967296 },
          oc_speed)
      else
        (false, k, oc_speed)
    else
      (false, k, oc_speed)
  else
    (false, k, oc_speed)

/-- The function `cpu_get_min_speed` of cpu-tegra.c:1675. -/
def cpu_get_min_speed (e : bthp_env) : Nat :=
  let input_boost_freq : Nat :=
    if time_before_eq64 e.ktime_min_speed e.iboost_floor_time then
      get_scaled_freq e.tegra_throttle_governor_speed e.caps e.iboost_floor_freq
    else 0
  max (arr e.policy_qos_min_freq 0) input_boost_freq

/-- The function `cpu_get_max_speed` of cpu-tegra.c:1691. -/
def cpu_get_max_speed (e : bthp_env) : Nat :=
  arr e.policy_qos_max_freq 0

/-- The loop of `perf_votes_scaling` (cpu-tegra.c:1707) with
`target_num_factors` iterations left and the current `scaled_freq`: the value
returned and the `params` left. -/
def perf_votes_scaling_loop (e : bthp_env) (params : bthp_params) (base_freq : Nat) :
    Nat → Nat → Nat × bthp_params
  | 0, scaled_freq => (scaled_freq, params)
  | n + 1, _ =>
    let scaled_freq : Nat :=
      (base_freq * u32 (100 + u32 (((n + 1 : Nat) : Int) * e.tun.perfvote_factor)))
        % 4294967296 / 100
    if scaled_freq ≤ params.qos_max_freq then
      let scaled_freq : Nat :=
        _cpu_target_freq e.freq_table scaled_freq CPUFREQ_RELATION_L
      if scaled_freq = 0 then
        (base_freq, params)
      else
        (scaled_freq,
          { params with
            best_diff_power :=
              s32 ((e.p2pconv scaled_freq params.active_cpus : Int) - params.orig_power),
            best_target_speed := scaled_freq })
    else
      perf_votes_scaling_loop e params base_freq n scaled_freq

/-- The function `perf_votes_scaling` of cpu-tegra.c:1699. -/
def perf_votes_scaling (e : bthp_env) (params : bthp_params) : Nat × bthp_params :=
  let base_freq : Nat := u32 (params.orig_speed + params.diff_speed)
  perf_votes_scaling_loop e params base_freq params.qos_perf_up_votes.toNat base_freq

/-- What `_do_trade_bargain` leaves: the value returned, the static variables
and the calls made to the hotplug actuators. -/
structure bargain_result where
  ret : Nat
  state : bthp_state
  calls : List BthpCall
  deriving DecidableEq

/-- The static variables after a `bthp_do_hotplug` call made for the core
`cpu` with the outcome `h`. -/
def after_hotplug (st : bthp_state) (cpu : Int) (h : hotplug_outcome) : bthp_state :=
  { kicker := { st.kicker with last_hotplug_time := h.last_time },
    target_cpu_speed := st.target_cpu_speed.set cpu.toNat h.decision_cpu_speed }

/-- The label `exit_bargain` of `_do_trade_bargain` (cpu-tegra.c:2015). -/
def exit_bargain (st : bthp_state) (params : bthp_params) (calls : List BthpCall) :
    bargain_result :=
  { ret := params.best_target_speed,
    state := { st with kicker :=
      { st.kicker with kicking := atomic_cmpxchg st.kicker.kicking 1 0 } },
    calls := calls }

/-- The test `likely(!oc_disabled) && resolve_perf_low_by_oc(&params, &oc_speed)`
of cpu-tegra.c:1951: its value, the `bthp_kicker` left and the value of
`oc_speed` afterwards. -/
def bargain_oc (e : bthp_env) (st : bthp_state) (params : bthp_params)
    (next_speed : Nat) : Bool × bthp_kicker × Nat :=
  if !e.tun.oc_disabled then resolve_perf_low_by_oc e st.kicker params next_speed
  else (false, st.kicker, next_speed)

/-- The two `else if` branches of the `nothing_bargain` block
(cpu-tegra.c:1966-2012), down to `exit_bargain`. -/
def nothing_bargain_down (e : bthp_env) (st : bthp_state) (params : bthp_params)
    (next_speed : Nat) (calls : List BthpCall) : bargain_result :=
  if params.active_cpus > 1 ∧ next_speed ≤ e.g2lp_bottom_freq then
    let target_down_core : Int := s32 (best_core_to_turn_down e st)
    if target_down_core < nr_cpu_ids ∧ ¬ params.qos_perf_critical then
      let h := e.bthp_do_hotplug BTHP_CPU_DOWN target_down_core
        st.kicker.last_hotplug_time next_speed (arr st.target_cpu_speed params.cpu)
      exit_bargain (after_hotplug st params.cpu h)
        (if !h.ok then { params with best_target_speed := next_speed } else params)
        (calls ++ [BthpCall.bthp_do_hotplug BTHP_CPU_DOWN target_down_core next_speed])
    else
      exit_bargain st params calls
  else if params.active_cpus = 1 ∧ next_speed ≤ e.g2lp_bottom_freq then
    let h := e.bthp_do_hotplug BTHP_CPU_DOWN 0
      st.kicker.last_hotplug_time next_speed (arr st.target_cpu_speed params.cpu)
    exit_bargain (after_hotplug st params.cpu h)
      (if !h.ok then { params with best_target_speed := next_speed } else params)
      (calls ++ [BthpCall.bthp_do_hotplug BTHP_CPU_DOWN 0 next_speed])
  else
    exit_bargain st params calls

/-- The label `nothing_bargain` of `_do_trade_bargain` (cpu-tegra.c:1945)
down to `exit_bargain`. -/
def nothing_bargain (e : bthp_env) (st : bthp_state) (params : bthp_params)
    (prefer_up_or_down : Int) (next_speed scaled_speed : Nat)
    (calls : List BthpCall) : bargain_result :=
  if prefer_up_or_down = BTHP_DO_NOTHING ∧
      params.best_hotplug_decision = BTHP_DO_NOTHING ∧ scaled_speed = next_speed then
    let oc := bargain_oc e st params next_speed
    if oc.1 then
      exit_bargain { st with kicker := oc.2.1 }
        { params with best_target_speed := oc.2.2 } calls
    else
      nothing_bargain_down e { st with kicker := oc.2.1 } params next_speed calls
  else
    exit_bargain st params calls

/-- The core-up evaluation of `_do_trade_bargain` (cpu-tegra.c:1840-1849). -/
def bargain_core_up (e : bthp_env) (st : bthp_state) (params : bthp_params)
    (prefer_up_or_down : Int) : bthp_params :=
  if (prefer_up_or_down = BTHP_DO_NOTHING ∨ prefer_up_or_down = BTHP_CPU_UP) ∧
      params.active_cpus < NR_CPUS ∧ params.active_cpus < params.qos_max_cpus ∧
      time_after64 st.kicker.last_kick_time
        (u64 (st.kicker.last_hotplug_time + e.tun.bthp_debounce_time_up)) then
    _adjust__one_core_up e st params
  else params

/-- The core-down evaluation of `_do_trade_bargain` (cpu-tegra.c:1851-1860). -/
def bargain_core_down (e : bthp_env) (st : bthp_state) (params : bthp_params)
    (prefer_up_or_down : Int) : bthp_params :=
  if (prefer_up_or_down = BTHP_DO_NOTHING ∨ prefer_up_or_down = BTHP_CPU_DOWN) ∧
      params.active_cpus ≤ NR_CPUS ∧ params.active_cpus > params.qos_min_cpus ∧
      time_after64 st.kicker.last_kick_time
        (u64 (st.kicker.last_hotplug_time + e.tun.bthp_debounce_time_down)) then
    _adjust__one_core_down e st params
  else params

/-- The relaxation of the debounce of `_do_trade_bargain`
(cpu-tegra.c:1862-1868). -/
def bargain_relax (e : bthp_env) (st : bthp_state) : bthp_state :=
  if e.tun.bthp_relax ≠ 0 ∧
      time_after64 st.kicker.last_kick_time
        (u64 (st.kicker.last_hotplug_time +
          max e.tun.bthp_debounce_time_up e.tun.bthp_debounce_time_down)) then
    { st with kicker :=
      { st.kicker with last_hotplug_time := st.kicker.last_kick_time } }
  else st

/-- The vote scaling of `_do_trade_bargain` (cpu-tegra.c:1887-1912) and what
follows it, down to `exit_bargain`. -/
def bargain_votes (e : bthp_env) (st : bthp_state) (params : bthp_params)
    (prefer_up_or_down : Int) (next_speed : Nat) (calls : List BthpCall) :
    bargain_result :=
  if params.best_hotplug_decision = BTHP_DO_NOTHING ∧ e.tun.perfvote_factor > 0 ∧
      params.qos_perf_up_votes ≠ 0 then
    let sc := perf_votes_scaling e params
    if sc.1 ≥ e.g2lp_bottom_freq then
      nothing_bargain e
        (if sc.1 > arr st.target_cpu_speed sc.2.cpu then
          { st with target_cpu_speed := st.target_cpu_speed.set sc.2.cpu.toNat sc.1 }
        else st)
        sc.2 prefer_up_or_down next_speed sc.1 calls
    else
      nothing_bargain e st { sc.2 with best_target_speed := next_speed }
        prefer_up_or_down next_speed next_speed calls
  else
    nothing_bargain e st params prefer_up_or_down next_speed next_speed calls

/-- The hotplug by best-trade decision of `_do_trade_bargain`
(cpu-tegra.c:1870-1885) and what follows it, down to `exit_bargain`. -/
def bargain_hotplug (e : bthp_env) (st : bthp_state) (params : bthp_params)
    (prefer_up_or_down : Int) (next_speed : Nat) : bargain_result :=
  if params.best_hotplug_decision ≠ BTHP_DO_NOTHING then
    let h := e.bthp_do_hotplug params.best_hotplug_decision params.dest_core
      st.kicker.last_hotplug_time params.best_target_speed
      (arr st.target_cpu_speed params.cpu)
    if !h.ok then
      exit_bargain
        { kicker :=
            { (after_hotplug st params.cpu h).kicker with
              last_hotplug_time := e.ktime_hotplug_failed },
          target_cpu_speed := (after_hotplug st params.cpu h).target_cpu_speed }
        { params with best_target_speed := next_speed }
        [BthpCall.bthp_do_hotplug params.best_hotplug_decision params.dest_core
          params.best_target_speed]
    else
      bargain_votes e (after_hotplug st params.cpu h) params prefer_up_or_down
        next_speed
        [BthpCall.bthp_do_hotplug params.best_hotplug_decision params.dest_core
          params.best_target_speed]
  else
    bargain_votes e st params prefer_up_or_down next_speed []

/-- The part of `_do_trade_bargain` from the core-up evaluation
(cpu-tegra.c:1840) down to `exit_bargain`, entered with the prepared
`params`. -/
def bargain_trade (e : bthp_env) (st : bthp_state) (params : bthp_params)
    (prefer_up_or_down : Int) (next_speed : Nat) : bargain_result :=
  bargain_hotplug e (bargain_relax e st)
    (bargain_core_down e st (bargain_core_up e st params prefer_up_or_down)
      prefer_up_or_down)
    prefer_up_or_down next_speed

/-- The preparation of `params` in `_do_trade_bargain`
(cpu-tegra.c:1772-1815). -/
def bargain_prepare (e : bthp_env) (prev_speed next_speed : Nat) : bthp_params :=
  let cpu : Int := e.smp_processor_id
  let active_cpus : Int := s32 (num_online_cpus e.platform)
  let orig_power : Nat := u32 (e.p2pconv prev_speed active_cpus)
  let diff_power : Int :=
    s32 ((e.p2pconv next_speed active_cpus : Int) - orig_power)
  let qos_min_freq : Nat := cpu_get_min_speed e
  let qos_max_freq : Nat :=
    get_scaled_freq e.tegra_throttle_governor_speed e.caps (cpu_get_max_speed e)
  let perf_up_votes : Int := e.get_perf_votes cpu
  { cpu := cpu,
    active_cpus := active_cpus,
    orig_speed := prev_speed,
    diff_speed := s32 ((next_speed : Int) - prev_speed),
    orig_power := orig_power,
    diff_power := diff_power,
    best_diff_power := diff_power,
    best_target_speed := next_speed,
    best_hotplug_decision := BTHP_DO_NOTHING,
    dest_core := NR_CPUS,
    qos_min_freq := if qos_min_freq > qos_max_freq then qos_max_freq else qos_min_freq,
    qos_max_freq := qos_max_freq,
    qos_min_cpus :=
      if pm_qos_min_online_cpus e ≠ 0 then pm_qos_min_online_cpus e else 1,
    qos_max_cpus :=
      if pm_qos_max_online_cpus e ≠ 0 then pm_qos_max_online_cpus e else NR_CPUS,
    qos_perf_up_votes := perf_up_votes,
    qos_perf_critical := perf_critical_on e cpu perf_up_votes }

/-- The alignment of `qos.min_freq` to the minimum speed the bargainer
supports (cpu-tegra.c:1834-1838). -/
def bargain_align_min (e : bthp_env) (params : bthp_params) : bthp_params :=
  if e.bthp_supported_min_speed ≤ params.qos_max_freq ∧
      e.bthp_supported_min_speed > params.qos_min_freq then
    { params with qos_min_freq := e.bthp_supported_min_speed }
  else params

/-- The function `_do_trade_bargain` of cpu-tegra.c:1727. -/
def _do_trade_bargain (e : bthp_env) (st : bthp_state)
    (prev_speed next_speed : Nat) (prefer_up_or_down : Int) : bargain_result :=
  if s32 (num_online_cpus e.platform) < pm_qos_min_online_cpus e then
    { ret := next_speed,
      state := { st with kicker :=
        { st.kicker with
          last_hotplug_time := st.kicker.last_kick_time,
          kicking := atomic_cmpxchg st.kicker.kicking 1 0 } },
      calls := [BthpCall.bthp_cpu_num_catchup] }
  else if !e.can_do_bthp ∨
      (st.kicker.last_hotplug_time ≠ 0 ∧
        time_before64 st.kicker.last_kick_time
          (u64 (st.kicker.last_hotplug_time +
            min e.tun.bthp_debounce_time_up e.tun.bthp_debounce_time_down))) then
    exit_bargain st
      { cpu := e.smp_processor_id, active_cpus := s32 (num_online_cpus e.platform),
        best_target_speed := next_speed } []
  else if !e.valid_bargain_speed prev_speed ∨ !e.valid_bargain_speed next_speed ∨
      !e.valid_power_value (bargain_prepare e prev_speed next_speed).orig_power ∨
      !e.valid_power_diff (bargain_prepare e prev_speed next_speed).diff_power then
    nothing_bargain e st (bargain_prepare e prev_speed next_speed)
      prefer_up_or_down next_speed next_speed []
  else
    bargain_trade e st (bargain_align_min e (bargain_prepare e prev_speed next_speed))
      prefer_up_or_down next_speed

/-- The three assignments a caller makes before it calls `_do_trade_bargain`
once it has won the admission flag (cpu-tegra.c:2171-2173 and 2028-2030):
`kicking = 1`, `kick_cpu = cpu` and `last_kick_time = now`. -/
def kick (st : bthp_state) (cpu : Int) (now : Nat) : bthp_state :=
  { st with kicker :=
    { st.kicker with kicking := 1, kick_cpu := cpu, last_kick_time := now } }

/-- The arguments of one bargaining round: what the bargainer reads during the
round, the calling core, the clock reading `now` of the caller and the three
arguments of `_do_trade_bargain`. -/
structure bargain_round where
  env : bthp_env
  cpu : Int
  now : Nat
  prev_speed : Nat
  next_speed : Nat
  prefer_up_or_down : Int

/-- One round as both callers of `_do_trade_bargain` make it
(cpu-tegra.c:2171-2186 and 2028-2035): a caller for which
`atomic_cmpxchg(&bthp_kicker.kicking, 0, 1)` returns 0 makes the three
assignments of `kick` and calls `_do_trade_bargain`; a caller that finds the
flag set calls nothing and keeps its speed. -/
def bargain_round_step (st : bthp_state) (r : bargain_round) : bargain_result :=
  if st.kicker.kicking = 0 then
    _do_trade_bargain r.env (kick st r.cpu r.now) r.prev_speed r.next_speed
      r.prefer_up_or_down
  else
    { ret := r.next_speed, state := st, calls := [] }

/-- A sequence of rounds, one after the other: the speeds returned, the static
variables left and the actuator calls made, in program order. -/
def bargain_rounds : bthp_state → List bargain_round →
    List Nat × bthp_state × List BthpCall
  | st, [] => ([], st, [])
  | st, r :: rs =>
    ((bargain_round_step st r).ret :: (bargain_rounds (bargain_round_step st r).state rs).1,
     (bargain_rounds (bargain_round_step st r).state rs).2.1,
     (bargain_round_step st r).calls ++
       (bargain_rounds (bargain_round_step st r).state rs).2.2)

/-- The round `r` is one that the test of cpu-tegra.c:1750 lets pass and the
test of cpu-tegra.c:1762 stops, when the last hotplug was at `lht`: the
online-core count is not below the requested minimum, and bargaining is
disabled or `lht` is non-zero and the kick time `r.now` is before
`lht + min(up_debounce, down_debounce)`. -/
def in_debounce (lht : Nat) (r : bargain_round) : Prop :=
  ¬ s32 (num_online_cpus r.env.platform) < pm_qos_min_online_cpus r.env ∧
  (r.env.can_do_bthp = false ∨
    (lht ≠ 0 ∧
      time_before64 r.now
        (u64 (lht + min r.env.tun.bthp_debounce_time_up
          r.env.tun.bthp_debounce_time_down)) = true))

/-- A two-core performance-cluster platform for closed examples. -/
def sample_platform : Platform :=
  { g_cluster_present := true, lp_cluster := false,
    online := [true, true, false, false],
    qos_min_online_cpus := 1, qos_max_online_cpus := 4, cpu_clk_rate := 1000000 }

/-- An environment of the bargainer for closed examples: the initial module
parameters, no cap in force, every speed and power value valid, and a hotplug
actuator that succeeds and stamps the time 2000000000. -/
def sample_bthp_env : bthp_env :=
  { tun := {},
    caps := { qos_min := 0, qos_max := 1700000, no_edp_limit := 0,
              edp_limit := 0, cpu_user_cap := 0 },
    tegra_throttle_governor_speed := fun s => s,
    freq_table := some sample_freq_table,
    policy_qos_min_freq := [51000, 51000, 51000, 51000],
    policy_qos_max_freq := [1700000, 1700000, 1700000, 1700000],
    iboost_floor_freq := 0,
    iboost_floor_time := 0,
    platform := sample_platform,
    smp_processor_id := 0,
    ktime_min_speed := 1050000000,
    ktime_oc := 1050000,
    ktime_hotplug_failed := 1050000000,
    can_do_bthp := true,
    bthp_cpu_num_catchup := true,
    valid_bargain_speed := fun _ => true,
    p2pconv := fun s _ => s,
    get_perf_votes := fun _ => 0,
    cpu_nr_running := fun _ => 1,
    tracked_tasks_nr := fun _ => 1,
    lb_prophet_up := fun _ => (false, 0, 0),
    lb_prophet_down := fun _ _ => (false, 0, 0),
    bthp_supported_min_speed := 340000,
    valid_power_diff := fun _ => true,
    valid_max_power := 4294967295,
    valid_power_value := fun _ => true,
    g2lp_bottom_freq := 340000,
    bthp_do_hotplug := fun _ _ _ t _ =>
      { ok := true, last_time := 2000000000, decision_cpu_speed := t } }

/-- The static variables 50 ms after a hotplug at time 1000000000, with the
admission flag taken by core 0. -/
def sample_bthp_state : bthp_state :=
  { kicker := { kicking := 1, kick_cpu := 0, last_kick_time := 1050000000,
                last_hotplug_time := 1000000000 },
    target_cpu_speed := [1000000, 1000000, 0, 0] }

/-- The local `help_ratio` of `_adjust__one_core_up` (cpu-tegra.c:1355):
`(min_tradable_cc * 100) / total_cc` in `unsigned long` arithmetic. -/
def core_up_help_ratio (e : bthp_env) (params : bthp_params) : Nat :=
  ((e.lb_prophet_up params.cpu).2.2 * 100) % 4294967296 / (e.lb_prophet_up params.cpu).2.1

/-- The candidate speed of `_adjust__one_core_up` once clamped to the policy
limits (cpu-tegra.c:1361-1405), before it is snapped to the table. -/
def core_up_clamped (e : bthp_env) (st : bthp_state) (params : bthp_params) : Nat :=
  let help_ratio : Nat := core_up_help_ratio e params
  let base : Nat := u32 (params.orig_speed + params.diff_speed)
  let ov : Nat := arr e.tun.bthp_mp_overhead (params.active_cpus - 1)
  let perfguarded_speed : Nat :=
    (base * u32 (100 - (help_ratio : Int))) % 4294967296 / 100
  let perfguarded_speed : Nat :=
    (perfguarded_speed * ((100 + ov) % 4294967296)) % 4294967296 / 100
  let perfguarded_speed : Nat :=
    if perfguarded_speed ≠ 0 then perfguarded_speed else e.bthp_supported_min_speed
  let offload_speed : Nat := (base * help_ratio) % 4294967296 / 100
  let offload_speed : Nat :=
    (offload_speed * ((100 + ov) % 4294967296)) % 4294967296 / 100
  let perfguarded_speed : Nat := max perfguarded_speed offload_speed
  let perfguarded_speed : Nat :=
    big_two_mp_adjustment e st params.cpu perfguarded_speed BTHP_CPU_UP 0
      params.cpu params.active_cpus
  let perfguarded_speed : Nat :=
    if params.qos_min_freq ≠ 0 ∧ perfguarded_speed < params.qos_min_freq then
      params.qos_min_freq
    else perfguarded_speed
  if params.qos_max_freq ≠ 0 ∧ perfguarded_speed > params.qos_max_freq then
    params.qos_max_freq
  else perfguarded_speed

/-- The candidate speed of `_adjust__one_core_up` once snapped to the
frequency table (cpu-tegra.c:1408). -/
def core_up_snapped (e : bthp_env) (st : bthp_state) (params : bthp_params) : Nat :=
  _cpu_target_freq e.freq_table (core_up_clamped e st params) CPUFREQ_RELATION_L

/-- The `params` of `_do_trade_bargain` once the core-up and the core-down
evaluation have run (cpu-tegra.c:1840-1860): they carry the decision
selected. -/
def bargain_selected (e : bthp_env) (st : bthp_state) (prev_speed next_speed : Nat)
    (prefer_up_or_down : Int) : bthp_params :=
  bargain_core_down e st
    (bargain_core_up e st (bargain_align_min e (bargain_prepare e prev_speed next_speed))
      prefer_up_or_down)
    prefer_up_or_down

/-- What `bthp_do_hotplug` hands back when `_do_trade_bargain` calls it for the
decision selected (cpu-tegra.c:1872). -/
def bargain_actuation (e : bthp_env) (st : bthp_state) (prev_speed next_speed : Nat)
    (prefer_up_or_down : Int) : hotplug_outcome :=
  e.bthp_do_hotplug
    (bargain_selected e st prev_speed next_speed prefer_up_or_down).best_hotplug_decision
    (bargain_selected e st prev_speed next_speed prefer_up_or_down).dest_core
    (bargain_relax e st).kicker.last_hotplug_time
    (bargain_selected e st prev_speed next_speed prefer_up_or_down).best_target_speed
    (arr (bargain_relax e st).target_cpu_speed
      (bargain_selected e st prev_speed next_speed prefer_up_or_down).cpu)

/-- The call `c` is one of the two opportunistic calls of the `nothing_bargain`
block (cpu-tegra.c:1976 and 2001): `bthp_do_hotplug` with direction `CPU_DOWN`,
made when `next_speed <= g2lp_bottom_freq()` and either more than one core is
active and the bargain is not performance-critical, or one core is active and
the destination core is 0. -/
def opportunistic_down (e : bthp_env) (active_cpus : Int) (perf_critical : Bool)
    (next_speed : Nat) : BthpCall → Prop
  | BthpCall.bthp_cpu_num_catchup => False
  | BthpCall.bthp_do_hotplug core_num_diff dest_core _ =>
    core_num_diff = BTHP_CPU_DOWN ∧ next_speed ≤ e.g2lp_bottom_freq ∧
      ((active_cpus > 1 ∧ perf_critical = false) ∨ (active_cpus = 1 ∧ dest_core = 0))

/-- The performance `perf` of the candidate with fewer cores as the
specification inflates it: multiplied by `(100 + bthp_mp_overhead[k]) / 100`,
in 32-bit unsigned arithmetic with integer division, once for each `k` from
`lo - 1` up to `hi - 2`, where `lo` is the lower and `hi` the higher core
count. -/
def mp_inflate (ov : List Nat) (perf lo hi : Nat) : Nat :=
  (List.range' (lo - 1) (hi - lo)).foldl
    (fun p k => (p * ((100 + ov.getD k 0) % 4294967296)) % 4294967296 / 100) perf

/-- The comparison `better_perf(sA, nA, sB, nB)` as the specification words
it: false when a core count is outside `[1, NR_CPUS]`; otherwise the raw
performances `speed * core-count` (32-bit unsigned) are compared after the one
of the candidate with fewer cores has been inflated, and A wins when its
performance strictly exceeds that of B. -/
def better_perf_spec (tun : bthp_tunables) (sA : Nat) (nA : Int) (sB : Nat) (nB : Int) :
    Bool :=
  if 1 ≤ nA ∧ nA ≤ NR_CPUS ∧ 1 ≤ nB ∧ nB ≤ NR_CPUS then
    if nA < nB then
      decide (mp_inflate tun.bthp_mp_overhead ((sA * nA.toNat) % 4294967296)
        nA.toNat nB.toNat > (sB * nB.toNat) % 4294967296)
    else
      decide ((sA * nA.toNat) % 4294967296 >
        mp_inflate tun.bthp_mp_overhead ((sB * nB.toNat) % 4294967296)
          nB.toNat nA.toNat)
  else
    false

/-- The flag `perf_critical_on(cpu, votes)` as the specification words it:
`v != 0` and `v > floor(nr_running / 2) + perf_critical_elevator`, where
`v = votes + (newcomers >> new_comer_as_perf_crit_factor)` and `newcomers` is
`nr_running - tracked_tasks` when `nr_running > tracked_tasks`, else 0. -/
def perf_critical_spec (nr_running tracked_tasks factor elevator : Nat) (votes : Int) :
    Bool :=
  let newcomers : Nat := if nr_running > tracked_tasks then nr_running - tracked_tasks else 0
  let v : Int := votes + ((newcomers >>> factor : Nat) : Int)
  decide (v ≠ 0 ∧ v > ((nr_running / 2 + elevator : Nat) : Int))

/-- The environment `sample_bthp_env` with two performance votes on each core
and half of the compute-capacity units tradable to a new core. -/
def critical_env : bthp_env :=
  { sample_bthp_env with
    get_perf_votes := fun _ => 2,
    lb_prophet_up := fun _ => (true, 100, 50) }

/-- The environment `critical_env` with a hotplug actuator that fails and
leaves `*last_time` and `*decision_cpu_speed_loc` as they were. -/
def failing_hotplug_env : bthp_env :=
  { critical_env with
    bthp_do_hotplug := fun _ _ l _ s =>
      { ok := false, last_time := l, decision_cpu_speed := s } }

/-- The environment `sample_bthp_env` with no votes, two runnable tasks on
each core of which none is tracked, `new_comer_as_perf_crit_factor` set to 0,
and 1 of 1000 compute-capacity units tradable to a new core. -/
def newcomer_env : bthp_env :=
  { sample_bthp_env with
    tun := { new_comer_as_perf_crit_factor := 0 },
    cpu_nr_running := fun _ => 2,
    tracked_tasks_nr := fun _ => 0,
    lb_prophet_up := fun _ => (true, 1000, 1) }

/-- The environment `sample_bthp_env` with two online cores requested as the
minimum (`pm_qos_request(PM_QOS_MIN_ONLINE_CPUS) = 2`). -/
def floor_env : bthp_env :=
  { sample_bthp_env with
    platform := { sample_platform with qos_min_online_cpus := 2 } }

/-- The environment `sample_bthp_env` with no speed a valid bargain speed. -/
def invalid_speed_env : bthp_env :=
  { sample_bthp_env with valid_bargain_speed := fun _ => false }

/-- The environment `invalid_speed_env` with overclock enabled, two votes on
each core, the QoS maximum at 1600000 kHz below the policy maximum of
1700000 kHz, and the clock of `resolve_perf_low_by_oc` at 60 s. -/
def oc_env : bthp_env :=
  { invalid_speed_env with
    tun := { oc_disabled := false },
    caps := { qos_min := 0, qos_max := 1600000, no_edp_limit := 0,
              edp_limit := 0, cpu_user_cap := 0 },
    get_perf_votes := fun _ => 2,
    ktime_oc := 60000000 }

/-! ## Definitions: the EDP limits (cpu-tegra.c) -/

/-- One row of the table `cpu_edp_limits` (`struct tegra_edp_limits`), with the
members cpu-tegra.c reads: the temperature of the zone and the frequency
limits by number of online cores, plain and overclocked. -/
structure tegra_edp_limits where
  temperature : Int
  freq_limits : List Nat
  freq_limits_oc : List Nat
  deriving DecidableEq

/-- The static variables of the EDP code (cpu-tegra.c:376-384) and the module
parameter `enable_oc`; a pointer is `none` while it is `NULL`. -/
structure EdpState where
  cpu_edp_limits : Option (List tegra_edp_limits)
  cpu_edp_limits_size : Int
  system_edp_limits : Option (List Nat)
  system_edp_alarm : Bool
  edp_thermal_index : Int
  edp_cpumask : List Bool
  edp_limit : Nat
  enable_oc : Int
  deriving DecidableEq

/-- A read `cpu_edp_limits[i]` with an `int` index; a read outside the table,
undefined in C, gives a row of zeros. -/
def edp_row (tbl : List tegra_edp_limits) (i : Int) : tegra_edp_limits :=
  if i < 0 then { temperature := 0, freq_limits := [], freq_limits_oc := [] }
  else tbl.getD i.toNat { temperature := 0, freq_limits := [], freq_limits_oc := [] }

/-- The value `limit` of `edp_predict_limit` before the system cap is applied
(cpu-tegra.c:393-406): 0 without a table, otherwise the limit of the current
thermal zone for `cpus` cores, from `freq_limits_oc` when `enable_oc` is set;
`none` when `BUG_ON(edp_thermal_index >= cpu_edp_limits_size)` fires. -/
def edp_zone_limit (s : EdpState) (cpus : Nat) : Option Nat :=
  match s.cpu_edp_limits with
  | none => some 0
  | some tbl =>
    if s.edp_thermal_index ≥ s.cpu_edp_limits_size then none
    else if s.enable_oc ≠ 0 then
      some (arr (edp_row tbl s.edp_thermal_index).freq_limits_oc ((cpus : Int) - 1))
    else
      some (arr (edp_row tbl s.edp_thermal_index).freq_limits ((cpus : Int) - 1))

/-- The function `edp_predict_limit` of cpu-tegra.c:391; `none` when one of
its two `BUG_ON` fires. -/
def edp_predict_limit (s : EdpState) (cpus : Nat) : Option Nat :=
  if cpus = 0 then none
  else
    match edp_zone_limit s cpus with
    | none => none
    | some limit =>
      match s.system_edp_limits with
      | some sys =>
        if s.system_edp_alarm then some (min limit (arr sys ((cpus : Int) - 1)))
        else some limit
      | none => some limit

/-- The `for` loop of `tegra_edp_update_thermal_zone` (cpu-tegra.c:462) with
`left` iterations to go, at index `i`, where `index` is the value the local
`index` holds: the value of `index` when the loop is left. -/
def thermal_zone_loop (tbl : List tegra_edp_limits) (temperature : Int) :
    Nat → Nat → Int → Int
  | 0, _, index => index
  | left + 1, i, index =>
    if temperature ≥ (edp_row tbl i).temperature ∧
        temperature < (edp_row tbl ((i : Int) + 1)).temperature then
      (i : Int) + 1
    else
      thermal_zone_loop tbl temperature left (i + 1) index

/-- The value `tegra_edp_update_thermal_zone` computes for `index`
(cpu-tegra.c:457-469) from a table of `nlimits` rows. -/
def thermal_zone_index (tbl : List tegra_edp_limits) (nlimits : Int)
    (temperature : Int) : Int :=
  if temperature < (edp_row tbl 0).temperature then 0
  else thermal_zone_loop tbl temperature (nlimits - 1).toNat 0 (nlimits - 1)

/-- The function `tegra_edp_update_thermal_zone` of cpu-tegra.c:443: the value
returned and the value stored in `edp_thermal_index` (`none` when nothing is
stored).  The calls that follow the store (cpu-tegra.c:476-481) refresh the
DVFS table, `edp_limit` and the speed cap, and do not write
`edp_thermal_index`. -/
def tegra_edp_update_thermal_zone (s : EdpState) (temperature : Int) :
    Int × Option Int :=
  match s.cpu_edp_limits with
  | none => (-EINVAL, none)
  | some tbl => (0, some (thermal_zone_index tbl s.cpu_edp_limits_size temperature))

/-- A table of three thermal zones with the temperatures 20, 50 and 80. -/
def sample_edp_limits : List tegra_edp_limits :=
  [{ temperature := 20, freq_limits := [1700000, 1600000, 1500000, 1400000],
     freq_limits_oc := [1800000, 1700000, 1600000, 1500000] },
   { temperature := 50, freq_limits := [1500000, 1400000, 1300000, 1200000],
     freq_limits_oc := [1600000, 1500000, 1400000, 1300000] },
   { temperature := 80, freq_limits := [1300000, 1200000, 1100000, 1000000],
     freq_limits_oc := [1400000, 1300000, 1200000, 1100000] }]

/-- The EDP statics with the table `sample_edp_limits`, the zone 1, two cores
in the mask, a system table and the alarm as given. -/
def sample_edp_state (alarm : Bool) : EdpState :=
  { cpu_edp_limits := some sample_edp_limits,
    cpu_edp_limits_size := 3,
    system_edp_limits := some [1200000, 1100000, 1000000, 900000],
    system_edp_alarm := alarm,
    edp_thermal_index := 1,
    edp_cpumask := [true, true, false, false],
    edp_limit := 0,
    enable_oc := 0 }

/-! ## Definitions: applying the resolved speed (cpu-tegra.c) -/

/-- What `tegra_getspeed` and `tegra_update_cpu_speed` get from the clock
framework and the memory-bus scaling: whether the static `cpu_clk` is set,
`clk_round_rate(cpu_clk, rate)` as the `unsigned long` it is stored in, the
value `tegra_update_mselect_rate(khz)` returns, `tegra_emc_to_cpu_ratio(khz)`,
the value `clk_set_rate(emc_clk, rate)` returns, and for
`clk_set_rate(cpu_clk, rate)` issued while the clock runs at `current` the
value returned together with the rate the clock has afterwards. -/
structure ClockEnv where
  cpu_clk : Bool
  clk_round_rate : Nat → Nat
  tegra_update_mselect_rate : Nat → Int
  tegra_emc_to_cpu_ratio : Nat → Nat
  emc_set_rate : Nat → Int
  cpu_set_rate : Nat → Nat → Int × Nat

/-- The calls `tegra_update_cpu_speed` makes, in program order:
`tegra_update_mselect_rate(khz)`, `clk_set_rate(emc_clk, rate)`,
`cpufreq_notify_transition(&freqs, state)` for the core `cpu` with `freqs.old`
and `freqs.new` (`post` tells `CPUFREQ_POSTCHANGE` from `CPUFREQ_PRECHANGE`),
and `clk_set_rate(cpu_clk, rate)`. -/
inductive ClkCall where
  | tegra_update_mselect_rate (khz : Nat)
  | clk_set_rate_emc (rate : Nat)
  | cpufreq_notify_transition (cpu old new : Nat) (post : Bool)
  | clk_set_rate_cpu (rate : Nat)
  deriving DecidableEq

/-- The macro `IS_ERR_VALUE(x)` of linux/err.h on the 32-bit target:
`x >= (unsigned long)-MAX_ERRNO`. -/
def IS_ERR_VALUE (x : Nat) : Bool := decide (x ≥ 4294967296 - 4095)

/-- The function `tegra_getspeed` of cpu-tegra.c:707, where `clk_rate` is
`clk_get_rate(cpu_clk)`. -/
def tegra_getspeed (c : ClockEnv) (clk_rate : Nat) (cpu : Nat) : Nat :=
  if cpu ≥ CONFIG_NR_CPUS ∨ !c.cpu_clk then 0
  else clk_rate / 1000

/-- The value `tegra_update_cpu_speed(rate)` gives `freqs.new`
(cpu-tegra.c:732-736): the rounded rate in kHz, or `rate` itself when
`clk_round_rate` fails. -/
def rounded_khz (c : ClockEnv) (rate : Nat) : Nat :=
  if !IS_ERR_VALUE (c.clk_round_rate ((rate * 1000) % 4294967296)) then
    c.clk_round_rate ((rate * 1000) % 4294967296) / 1000
  else rate

/-- The calls `cpufreq_notify_transition(&freqs, state)` of one
`for_each_online_cpu` loop of `tegra_update_cpu_speed`. -/
def notify_transitions (p : Platform) (old new : Nat) (post : Bool) : List ClkCall :=
  ((List.range nr_cpu_ids).filter (cpu_online p)).map
    (fun cpu => ClkCall.cpufreq_notify_transition cpu old new post)

/-- The function `tegra_update_cpu_speed` of cpu-tegra.c:718 in the build with
`CONFIG_TEGRA_CPUQUIET`: the value returned, the rate `cpu_clk` has afterwards
and the calls made. -/
def tegra_update_cpu_speed (c : ClockEnv) (in_earlysuspend : Bool) (p : Platform)
    (clk_rate : Nat) (rate : Nat) : Int × Nat × List ClkCall :=
  if in_earlysuspend then
    (0, clk_rate, [])
  else
    let old : Nat := tegra_getspeed c clk_rate 0
    let new : Nat := rounded_khz c rate
    if old = new then
      (0, clk_rate, [])
    else
      let up : List ClkCall :=
        if old < new then
          [ClkCall.tegra_update_mselect_rate new,
           ClkCall.clk_set_rate_emc (c.tegra_emc_to_cpu_ratio new)]
        else []
      if old < new ∧ c.tegra_update_mselect_rate new ≠ 0 then
        (c.tegra_update_mselect_rate new, clk_rate,
          [ClkCall.tegra_update_mselect_rate new])
      else if old < new ∧ c.emc_set_rate (c.tegra_emc_to_cpu_ratio new) ≠ 0 then
        (c.emc_set_rate (c.tegra_emc_to_cpu_ratio new), clk_rate, up)
      else
        let done := c.cpu_set_rate clk_rate ((new * 1000) % 4294967296)
        let calls : List ClkCall :=
          up ++ notify_transitions p old new false ++
            [ClkCall.clk_set_rate_cpu ((new * 1000) % 4294967296)]
        if done.1 ≠ 0 then
          (done.1, done.2, calls)
        else
          (0, done.2,
            calls ++ notify_transitions p old new true ++
              (if old > new then
                [ClkCall.clk_set_rate_emc (c.tegra_emc_to_cpu_ratio new),
                 ClkCall.tegra_update_mselect_rate new]
               else []))

/-- The function `tegra_cpu_highest_speed` of cpu-tegra.c:851: the pair of the
locals `policy_max` and `rate` is folded over the online cores. -/
def tegra_cpu_highest_speed (force_policy_max : Bool) (policy_max_speed : List Nat)
    (p : Platform) (target_cpu_speed : List Nat) : Nat :=
  let r : Nat × Nat :=
    (List.range nr_cpu_ids).foldl
      (fun (acc : Nat × Nat) (i : Nat) =>
        if cpu_online p i then
          ((if force_policy_max then min acc.1 (policy_max_speed.getD i 0) else acc.1),
           max acc.2 (target_cpu_speed.getD i 0))
        else acc)
      (ULONG_MAX, 0)
  min r.2 r.1

/-- What `tegra_cpu_set_speed_cap` and `tegra_suspended_target` read and do not
write: the environment of the bargainer (caps, thermal throttle, platform,
calling core, ...), the clock framework, the statics `in_earlysuspend`,
`is_suspended`, `force_policy_max` and `policy_max_speed`, the values of
`is_bthp_en()` and `on_plugging()`, and the clock reading `now` of
cpu-tegra.c:2153. -/
structure SpeedEnv where
  bthp : bthp_env
  clk : ClockEnv
  in_earlysuspend : Bool
  is_suspended : Bool
  force_policy_max : Bool
  policy_max_speed : List Nat
  is_bthp_en : Bool
  on_plugging : Bool
  now : Nat

/-- What `tegra_cpu_set_speed_cap` writes: the rate of `cpu_clk`, the statics
of the bargainer (`bthp_kicker`, `target_cpu_speed`) and the statics of
cpuquiet.c. -/
structure SpeedState where
  clk_rate : Nat
  bthp : bthp_state
  cpq : Cpuquiet
  deriving DecidableEq

/-- What a call of `tegra_cpu_set_speed_cap` leaves: the value returned, the
value stored through `speed_cap` when that pointer is set (`none` when the
store is not reached), the static variables, and the calls made to the
hotplug actuators, to the clock framework and by cpuquiet.c. -/
structure speed_cap_result where
  ret : Int
  speed_cap : Option Nat
  state : SpeedState
  bthp_calls : List BthpCall
  clk_calls : List ClkCall
  cpq_calls : List Call
  deriving DecidableEq

/-- The speed `tegra_cpu_set_speed_cap` resolves before any cap or bargain
(cpu-tegra.c:2104-2129): the highest target of the online cores, raised to
`cpu_get_min_speed(0)`; this is the local `speed_wocap`. -/
def speed_wocap (e : SpeedEnv) (st : SpeedState) : Nat :=
  max (tegra_cpu_highest_speed e.force_policy_max e.policy_max_speed e.bthp.platform
    st.bthp.target_cpu_speed) (cpu_get_min_speed e.bthp)

/-- The local `forced_kick` of `tegra_cpu_set_speed_cap` when the admission
test of cpu-tegra.c:2168 reads it, `new_speed` being the capped speed. -/
def forced_kick (e : SpeedEnv) (st : SpeedState) (new_speed : Nat) : Bool :=
  (decide (tegra_cpu_highest_speed e.force_policy_max e.policy_max_speed
      e.bthp.platform st.bthp.target_cpu_speed < cpu_get_min_speed e.bthp) &&
    decide (e.bthp.smp_processor_id = 0)) ||
  (decide (e.bthp.smp_processor_id = 0) &&
    decide (num_online_cpus e.bthp.platform > 1) &&
    decide (new_speed < e.bthp.g2lp_bottom_freq))

/-- The bargaining step of `tegra_cpu_set_speed_cap` (cpu-tegra.c:2153-2199),
entered on the performance cluster with bargaining enabled: the speed
`new_speed` holds afterwards, the statics of the bargainer and the actuator
calls made. -/
def speed_cap_bargain (e : SpeedEnv) (st : SpeedState) (new_speed : Nat) :
    bargain_result :=
  if (arr st.bthp.target_cpu_speed e.bthp.smp_processor_id ≥ speed_wocap e st ∨
      forced_kick e st new_speed) ∧ !e.on_plugging then
    let r := bargain_round_step st.bthp
      { env := e.bthp, cpu := e.bthp.smp_processor_id, now := e.now,
        prev_speed := tegra_getspeed e.clk st.clk_rate 0, next_speed := new_speed,
        prefer_up_or_down := BTHP_DO_NOTHING }
    { r with ret := if r.ret < new_speed then new_speed else r.ret }
  else
    { ret := new_speed, state := st.bthp, calls := [] }

/-- The speed `tegra_cpu_set_speed_cap` resolves (cpu-tegra.c:2139-2199), past
the two suspend tests: the capped `speed_wocap`, bargained on the performance
cluster when bargaining is enabled; with it the statics of the bargainer and
the actuator calls made. -/
def speed_cap_resolve (e : SpeedEnv) (st : SpeedState) : bargain_result :=
  let new_speed : Nat :=
    get_scaled_freq e.bthp.tegra_throttle_governor_speed e.bthp.caps (speed_wocap e st)
  if e.is_bthp_en ∧ !e.bthp.platform.lp_cluster then
    speed_cap_bargain e st new_speed
  else
    { ret := new_speed, state := st.bthp, calls := [] }

/-- The function `tegra_cpu_set_speed_cap` of cpu-tegra.c:2101
(`CONFIG_BEST_TRADE_HOTPLUG` build).  The notifications of
`tegra_update_cpu_speed` read the online mask as it was on entry. -/
def tegra_cpu_set_speed_cap (e : SpeedEnv) (st : SpeedState) : speed_cap_result :=
  let curr_speed : Nat := tegra_getspeed e.clk st.clk_rate 0
  if e.in_earlysuspend then
    { ret := 0, speed_cap := none, state := st, bthp_calls := [], clk_calls := [],
      cpq_calls := [] }
  else if e.is_suspended then
    { ret := -EBUSY, speed_cap := none, state := st, bthp_calls := [], clk_calls := [],
      cpq_calls := [] }
  else
    let b := speed_cap_resolve e st
    if e.is_bthp_en ∧ !e.bthp.platform.lp_cluster then
      if curr_speed = b.ret then
        { ret := 0, speed_cap := some b.ret,
          state := { st with bthp := b.state },
          bthp_calls := b.calls, clk_calls := [], cpq_calls := [] }
      else
        let u := tegra_update_cpu_speed e.clk e.in_earlysuspend e.bthp.platform
          st.clk_rate b.ret
        { ret := u.1, speed_cap := some b.ret,
          state := { st with clk_rate := u.2.1, bthp := b.state },
          bthp_calls := b.calls, clk_calls := u.2.2, cpq_calls := [] }
    else if curr_speed = b.ret then
      { ret := 0, speed_cap := some b.ret, state := st, bthp_calls := [],
        clk_calls := [], cpq_calls := [] }
    else
      let u := tegra_update_cpu_speed e.clk e.in_earlysuspend e.bthp.platform
        st.clk_rate b.ret
      let g := tegra_auto_hotplug_governor e.bthp.platform st.cpq b.ret false
      { ret := u.1, speed_cap := some b.ret,
        state := { clk_rate := u.2.1, bthp := st.bthp, cpq := g.1 },
        bthp_calls := [], clk_calls := u.2.2, cpq_calls := g.2 }

/-- The function `tegra_suspended_target` of cpu-tegra.c:2226: the value
returned, the rate `cpu_clk` has afterwards and the calls made. -/
def tegra_suspended_target (e : SpeedEnv) (clk_rate : Nat) (target_freq : Nat) :
    Int × Nat × List ClkCall :=
  if !e.is_suspended then
    (-EBUSY, clk_rate, [])
  else
    tegra_update_cpu_speed e.clk e.in_earlysuspend e.bthp.platform clk_rate
      (edp_governor_speed e.bthp.caps (e.bthp.tegra_throttle_governor_speed target_freq))

/-- A clock that rounds to whole kHz, never fails and runs at the rate set. -/
def sample_clock : ClockEnv :=
  { cpu_clk := true,
    clk_round_rate := fun r => r,
    tegra_update_mselect_rate := fun _ => 0,
    tegra_emc_to_cpu_ratio := fun khz => khz * 100,
    emc_set_rate := fun _ => 0,
    cpu_set_rate := fun _ r => (0, r) }

/-- The environment `sample_bthp_env` with one performance vote on each core
and a vote factor of 10 percent. -/
def vote_env : bthp_env :=
  { sample_bthp_env with
    tun := { perfvote_factor := 10 },
    get_perf_votes := fun _ => 1 }

/-- An environment of `tegra_cpu_set_speed_cap` at the time `now`: bargaining
enabled on the performance cluster with `vote_env`, the clock `sample_clock`,
not suspended. -/
def sample_speed_env (now : Nat) : SpeedEnv :=
  { bthp := vote_env,
    clk := sample_clock,
    in_earlysuspend := false,
    is_suspended := false,
    force_policy_max := false,
    policy_max_speed := [1700000, 1700000, 1700000, 1700000],
    is_bthp_en := true,
    on_plugging := false,
    now := now }

/-- The static variables with the clock at 340000 kHz, both online cores
asking for 1000000 kHz, the admission flag free and the last hotplug at time
1000000000. -/
def sample_speed_state : SpeedState :=
  { clk_rate := 340000000,
    bthp := { kicker := { last_hotplug_time := 1000000000 },
              target_cpu_speed := [1000000, 1000000, 0, 0] },
    cpq := {} }

/-- The path a call `tegra_cpu_set_speed_cap(NULL)` takes, as far as the
static variables of cpuquiet.c can tell: it reaches
`tegra_auto_hotplug_governor(new_speed, false)` at cpu-tegra.c:2222 exactly
when it passes the two suspend tests, does not take the bargaining path and
resolves a speed other than the current one. -/
def speed_cap_path (e : SpeedEnv) (st : SpeedState) : SpeedCapPath :=
  if e.in_earlysuspend ∨ e.is_suspended ∨
      (e.is_bthp_en ∧ !e.bthp.platform.lp_cluster) ∨
      tegra_getspeed e.clk st.clk_rate 0 = (speed_cap_resolve e st).ret then
    SpeedCapPath.returns_early
  else
    SpeedCapPath.calls_governor (speed_cap_resolve e st).ret

/-- An environment of `tegra_cpu_set_speed_cap` on the low-power cluster with
one core online, as `tegra_cpuquiet_work_func` leaves it after a switch to the
low-power clock. -/
def lp_speed_env : SpeedEnv :=
  { sample_speed_env 1050000000 with
    bthp := { sample_bthp_env with
      platform := { g_cluster_present := true, lp_cluster := true,
                    online := [true, false, false, false], qos_min_online_cpus := 0,
                    qos_max_online_cpus := 4, cpu_clk_rate := 340000000 } } }

/-- The static variables with the clock at 340000 kHz, core 0 asking for
204000 kHz and cpuquiet.c in the state `SWITCH_TO_LP`. -/
def lp_speed_state : SpeedState :=
  { clk_rate := 340000000,
    bthp := { kicker := {}, target_cpu_speed := [204000, 0, 0, 0] },
    cpq := { cpq_state := CpqState.TEGRA_CPQ_SWITCH_TO_LP } }

/-- Loop invariant of `_cpu_target_freq` under `CPUFREQ_RELATION_L` for the
local `suboptimal`, for the entries `pre` walked so far: either `suboptimal`
is still unset and every valid entry seen reaches the target `t`, or
`suboptimal` names the largest valid entry seen that is below `t`. -/
def suboptimal_inv_L (t : Nat) (pre : List Nat) (sub : cpufreq_frequency_table) :
    Prop :=
  (sub.index = UINT_MAX ∧ sub.frequency = 0 ∧
      ∀ f ∈ pre, f ≠ CPUFREQ_ENTRY_INVALID → t ≤ f) ∨
  (sub.index < pre.length ∧ pre.getD sub.index 0 = sub.frequency ∧
      sub.frequency ∈ pre ∧ sub.frequency ≠ CPUFREQ_ENTRY_INVALID ∧
      sub.frequency < t ∧
      ∀ f ∈ pre, f ≠ CPUFREQ_ENTRY_INVALID → f < t → f ≤ sub.frequency)

/-- Loop invariant of `_cpu_target_freq` under `CPUFREQ_RELATION_H` for the
local `suboptimal`, for the entries `pre` walked so far: either `suboptimal`
is still unset and no valid entry seen is above the target `t`, or
`suboptimal` names the smallest valid entry seen that is above `t`. -/
def suboptimal_inv_H (t : Nat) (pre : List Nat) (sub : cpufreq_frequency_table) :
    Prop :=
  (sub.index = UINT_MAX ∧ sub.frequency = UINT_MAX ∧
      ∀ f ∈ pre, f ≠ CPUFREQ_ENTRY_INVALID → f ≤ t) ∨
  (sub.index < pre.length ∧ pre.getD sub.index 0 = sub.frequency ∧
      sub.frequency ∈ pre ∧ sub.frequency ≠ CPUFREQ_ENTRY_INVALID ∧
      t < sub.frequency ∧
      ∀ f ∈ pre, f ≠ CPUFREQ_ENTRY_INVALID → t < f → sub.frequency ≤ f)

/-- The environment `sample_bthp_env` with three cores online, one performance
vote and four tracked runnable tasks on each core (so that the bargain is not
performance-critical), a quarter of the compute-capacity units tradable to a
new core, all units of the slowest core movable to the calling core, and a
power model that depends on the number of cores only: 2000 for four cores,
2900 for two, 3000 otherwise. -/
def trade_env : bthp_env :=
  { sample_bthp_env with
    platform := { sample_platform with online := [true, true, true, false] },
    get_perf_votes := fun _ => 1,
    cpu_nr_running := fun _ => 4,
    tracked_tasks_nr := fun _ => 4,
    lb_prophet_up := fun _ => (true, 100, 25),
    lb_prophet_down := fun _ _ => (true, 100, 100),
    p2pconv := fun _ n => if n = 4 then 2000 else if n = 2 then 2900 else 3000 }

/-- The static variables one second after a hotplug at time 1000000000, with
the admission flag taken by core 0 and the targets 1000000, 1000000 and
600000 kHz on the three online cores. -/
def trade_state : bthp_state :=
  { kicker := { kicking := 1, kick_cpu := 0, last_kick_time := 2000000000,
                last_hotplug_time := 1000000000 },
    target_cpu_speed := [1000000, 1000000, 600000, 0] }

/-- The candidate `scaled_freq` that the loop of `perf_votes_scaling` computes
for `target_num_factors = k` (cpu-tegra.c:1709):
`(base_freq * (100 + k * perfvote_factor)) / 100` in 32-bit unsigned
arithmetic. -/
def vote_scaled (e : bthp_env) (base_freq : Nat) (k : Nat) : Nat :=
  (base_freq * u32 (100 + u32 ((k : Int) * e.tun.perfvote_factor))) % 4294967296 / 100

/-- The environment `vote_env` with the policy maximum of every core at
1600000 kHz, the highest entry of the sample table. -/
def vote_cap_env : bthp_env :=
  { vote_env with
    policy_qos_max_freq := [1600000, 1600000, 1600000, 1600000] }

/-- The static variables of `trade_state` for two cores that both ask for
1600000 kHz. -/
def vote_cap_state : bthp_state :=
  { trade_state with target_cpu_speed := [1600000, 1600000, 0, 0] }

/-- The arguments of one call of `resolve_perf_low_by_oc`: what it reads, its
`params` and the value of `*oc_speed` on entry. -/
structure oc_call where
  env : bthp_env
  params : bthp_params
  oc_speed : Nat

/-- A sequence of calls of `resolve_perf_low_by_oc`, one after the other: the
`bthp_kicker` left. -/
def oc_rounds : bthp_kicker → List oc_call → bthp_kicker
  | k, [] => k
  | k, c :: cs => oc_rounds (resolve_perf_low_by_oc c.env k c.params c.oc_speed).2.1 cs

/-- What one call of `update_core_config` gets from its environment: whether
`mutex_trylock(&hotplug_lock)` succeeds, the value `clk_set_parent` returns
and the value `cpu_up` or `cpu_down` returns. -/
structure CoreConfigOracle where
  trylock : Bool
  clk_set_parent_ret : Int
  hotplug_ret : Int
  deriving DecidableEq

/-- The function `update_core_config` of cpuquiet.c:162: the value returned,
the platform afterwards and the calls made.  The locals `nr_cpus`, `max_cpus`
and `min_cpus` are read on entry; `max_cpus` and `min_cpus` lie within
`[1, CONFIG_NR_CPUS]`, so that the comparisons of the `unsigned int nr_cpus`
with these `int` are comparisons of natural numbers. -/
def update_core_config (o : CoreConfigOracle) (p : Platform) (s : Cpuquiet)
    (cpunumber : Nat) (up : Bool) : Int × Platform × List Call :=
  let nr_cpus : Nat := num_online_cpus p
  let max_cpus : Nat := tegra_cpq_max_cpus p s
  let min_cpus : Nat := tegra_cpq_min_cpus p s
  if s.cpq_state = CpqState.TEGRA_CPQ_DISABLED ∨ cpunumber ≥ nr_cpu_ids then
    (-EINVAL, p, [])
  else if !o.trylock then
    (-EBUSY, p, [])
  else if up then
    if p.lp_cluster ∧ !s.screen_on then
      (-EBUSY, p, [])
    else
      let g : Int × Platform × List Call :=
        if p.lp_cluster then tegra_cpuquiet_force_gmode o.clk_set_parent_ret p s
        else (0, p, [])
      if nr_cpus < max_cpus then
        (o.hotplug_ret, hotplugged g.2.1 cpunumber true (decide (o.hotplug_ret = 0)),
          g.2.2 ++ [Call.cpu_up cpunumber])
      else
        (-EINVAL, g.2.1, g.2.2)
  else
    if nr_cpus > 1 ∧ nr_cpus > min_cpus then
      (o.hotplug_ret, hotplugged p cpunumber false (decide (o.hotplug_ret = 0)),
        [Call.cpu_down cpunumber])
    else
      (-EINVAL, p, [])

/-- The kernel helper `cpumask_weight(mask)`: the number of set bits. -/
def cpumask_weight (mask : List Bool) : Nat :=
  mask.count true

/-- The `for` loop of `edp_update_limit` (cpu-tegra.c:420, table-rounded
build), started at index `i` on the entries `freq_table[i], freq_table[i+1],
...`: the value of `i` when the loop is left, at the end marker (the end of the
list stands for it when the list carries no marker) or at the first entry
above `limit`. -/
def edp_limit_loop (limit : Nat) : List Nat → Nat → Nat
  | [], i => i
  | freq :: rest, i =>
    if freq = CPUFREQ_TABLE_END then i
    else if freq > limit then i
    else edp_limit_loop limit rest (i + 1)

/-- The function `edp_update_limit` of cpu-tegra.c:413 (build without
`CONFIG_TEGRA_EDP_EXACT_FREQ`): the EDP statics with the new `edp_limit`;
`none` when a `BUG_ON` fires, in `edp_predict_limit` or the one on `i == 0`,
or when `freq_table` is `NULL`. -/
def edp_update_limit (freq_table : Option (List Nat)) (s : EdpState) : Option EdpState :=
  match edp_predict_limit s (cpumask_weight s.edp_cpumask) with
  | none => none
  | some limit =>
    match freq_table with
    | none => none
    | some tbl =>
      if edp_limit_loop limit tbl 0 = 0 then none
      else some { s with edp_limit := tbl.getD (edp_limit_loop limit tbl 0 - 1) 0 }

/-- The hotplug events `tegra_cpu_edp_notify` tells apart: `CPU_UP_PREPARE`,
`CPU_DEAD`, and any other event, for which it does nothing. -/
inductive CpuEvent where
  | CPU_UP_PREPARE
  | CPU_DEAD
  | other
  deriving DecidableEq

/-- What `tegra_cpu_edp_notify` does, in program order: the writes
`cpu_set(cpu, edp_cpumask)` and `cpu_clear(cpu, edp_cpumask)`, and the calls
`edp_update_limit()`, `tegra_cpu_set_speed_cap(NULL)` and
`tegra_cpu_dvfs_alter(edp_thermal_index, &edp_cpumask, before_clk_update,
event)`; a call carries the `edp_cpumask` in force when it is made, and the
speed-cap call the `edp_limit` in force as well. -/
inductive EdpCall where
  | cpu_set (cpu : Nat)
  | cpu_clear (cpu : Nat)
  | edp_update_limit (edp_cpumask : List Bool)
  | tegra_cpu_set_speed_cap (edp_cpumask : List Bool) (edp_limit : Nat)
  | tegra_cpu_dvfs_alter (edp_thermal_index : Int) (edp_cpumask : List Bool)
      (before_clk_update : Bool) (event : CpuEvent)
  deriving DecidableEq

/-- What a call of `tegra_cpu_edp_notify` leaves: the value of `ret` that is
handed to `notifier_from_errno`, the EDP statics, the statics
`tegra_cpu_set_speed_cap` writes, and what was done, in program order. -/
structure edp_notify_result where
  ret : Int
  edp : EdpState
  speed : SpeedState
  calls : List EdpCall
  deriving DecidableEq

/-- The environment of `tegra_cpu_set_speed_cap` when the static `edp_limit`
holds the value of the EDP statics `s`. -/
def speed_env_with_limit (e : SpeedEnv) (s : EdpState) : SpeedEnv :=
  { e with bthp := { e.bthp with caps := { e.bthp.caps with edp_limit := s.edp_limit } } }

/-- The `CPU_UP_PREPARE` case of `tegra_cpu_edp_notify` (cpu-tegra.c:556-583)
once the first `edp_update_limit()` has left the EDP statics `s2`: the speed
cap is recomputed when the EDP limit is below the current speed, the DVFS
table is altered when that did not fail, and on failure the core is cleared
from the mask and the limit computed again. -/
def edp_notify_up (e : SpeedEnv) (dvfs_alter : Int → List Bool → Bool → CpuEvent → Int)
    (s2 : EdpState) (st : SpeedState) (cpu : Nat) (calls : List EdpCall) :
    Option edp_notify_result :=
  let cpu_speed : Nat := tegra_getspeed e.clk st.clk_rate 0
  let new_speed : Nat := edp_governor_speed (speed_env_with_limit e s2).bthp.caps cpu_speed
  let capped : Bool := decide (new_speed < cpu_speed)
  let r := tegra_cpu_set_speed_cap (speed_env_with_limit e s2) st
  let ret : Int := if capped then r.ret else 0
  let st1 : SpeedState := if capped then r.state else st
  let calls1 : List EdpCall :=
    calls ++
      (if capped then [EdpCall.tegra_cpu_set_speed_cap s2.edp_cpumask s2.edp_limit]
       else [])
  let ret2 : Int :=
    if ret = 0 then
      dvfs_alter s2.edp_thermal_index s2.edp_cpumask false CpuEvent.CPU_UP_PREPARE
    else ret
  let calls2 : List EdpCall :=
    calls1 ++
      (if ret = 0 then
        [EdpCall.tegra_cpu_dvfs_alter s2.edp_thermal_index s2.edp_cpumask false
          CpuEvent.CPU_UP_PREPARE]
       else [])
  if ret2 ≠ 0 then
    match edp_update_limit e.bthp.freq_table
        { s2 with edp_cpumask := s2.edp_cpumask.set cpu false } with
    | none => none
    | some s4 =>
      some { ret := ret2, edp := s4, speed := st1,
             calls := calls2 ++
               [EdpCall.cpu_clear cpu,
                EdpCall.edp_update_limit (s2.edp_cpumask.set cpu false)] }
  else
    some { ret := ret2, edp := s2, speed := st1, calls := calls2 }

/-- The function `tegra_cpu_edp_notify` of cpu-tegra.c:548, notified of
`event` for the core `cpu`; `dvfs_alter` gives the value
`tegra_cpu_dvfs_alter` returns for its arguments.  The result is `none` when a
`BUG_ON` of `edp_update_limit` fires. -/
def tegra_cpu_edp_notify (e : SpeedEnv)
    (dvfs_alter : Int → List Bool → Bool → CpuEvent → Int)
    (s : EdpState) (st : SpeedState) (event : CpuEvent) (cpu : Nat) :
    Option edp_notify_result :=
  match event with
  | CpuEvent.CPU_UP_PREPARE =>
    match edp_update_limit e.bthp.freq_table
        { s with edp_cpumask := s.edp_cpumask.set cpu true } with
    | none => none
    | some s2 =>
      edp_notify_up e dvfs_alter s2 st cpu
        [EdpCall.cpu_set cpu, EdpCall.edp_update_limit (s.edp_cpumask.set cpu true)]
  | CpuEvent.CPU_DEAD =>
    match edp_update_limit e.bthp.freq_table
        { s with edp_cpumask := s.edp_cpumask.set cpu false } with
    | none => none
    | some s2 =>
      some { ret := 0, edp := s2,
             speed := (tegra_cpu_set_speed_cap (speed_env_with_limit e s2) st).state,
             calls :=
               [EdpCall.cpu_clear cpu,
                EdpCall.tegra_cpu_dvfs_alter s.edp_thermal_index
                  (s.edp_cpumask.set cpu false) true CpuEvent.CPU_DEAD,
                EdpCall.edp_update_limit (s.edp_cpumask.set cpu false),
                EdpCall.tegra_cpu_set_speed_cap s2.edp_cpumask s2.edp_limit] }
  | CpuEvent.other =>
    some { ret := 0, edp := s, speed := st, calls := [] }

/-- The place of the first write `cpu_clear(cpu, edp_cpumask)` in a list of
`EdpCall`, and the length of the list when there is none. -/
def first_cpu_clear (cpu : Nat) (calls : List EdpCall) : Nat :=
  calls.indexOf (EdpCall.cpu_clear cpu)

/-- The place of the first call `tegra_cpu_set_speed_cap(NULL)` in a list of
`EdpCall`, and the length of the list when there is none. -/
def first_speed_cap (calls : List EdpCall) : Nat :=
  calls.findIdx (fun c =>
    match c with
    | EdpCall.tegra_cpu_set_speed_cap _ _ => true
    | _ => false)

/-! ## Theorems: the capping pipeline -/

/-- C1: for every requested frequency, every throttle governor and every
setting of the QoS, thermal and EDP caps, a non-zero user cap `cpu_user_cap`
bounds the result of `get_scaled_freq` from above. -/
theorem C1_user_cap_is_ceiling (throttle : Nat → Nat) (c : Caps) (R : Nat)
    (h : c.cpu_user_cap ≠ 0) :
    get_scaled_freq throttle c R ≤ c.cpu_user_cap := by
  simp only [get_scaled_freq, user_cap_speed]
  split_ifs <;> omega

/-- Witness of C1: request 1300000 kHz under a user cap of 1000000 kHz. -/
theorem C1_user_cap_is_ceiling_witness :
    (1000000 ≠ 0) ∧
    get_scaled_freq (fun f => f)
      { qos_min := 0, qos_max := 4294967295, no_edp_limit := 0, edp_limit := 0,
        cpu_user_cap := 1000000 } 1300000 ≤ 1000000 :=
  ⟨by decide,
   C1_user_cap_is_ceiling (fun f => f)
      { qos_min := 0, qos_max := 4294967295, no_edp_limit := 0, edp_limit := 0,
        cpu_user_cap := 1000000 } 1300000 (by decide)⟩

/-- C2, as stated, fails: with EDP limiting enabled and a non-zero EDP limit
of 500 kHz, a request of 2000 kHz with no other cap active resolves to
2000 kHz, because an EDP result below 1000 kHz is not taken. -/
theorem C2_counterexample :
    (0 : Nat) = 0 ∧ (500 : Nat) ≠ 0 ∧
    get_scaled_freq (fun f => f)
      { qos_min := 0, qos_max := 4294967295, no_edp_limit := 0, edp_limit := 500,
        cpu_user_cap := 0 } 2000 = 2000 ∧
    ¬ (get_scaled_freq (fun f => f)
      { qos_min := 0, qos_max := 4294967295, no_edp_limit := 0, edp_limit := 500,
        cpu_user_cap := 0 } 2000 ≤ 500) := by
  decide

/-- C2, amended: for every requested frequency, if EDP limiting is enabled
(`no_edp_limit = 0`) and the EDP limit is at least 1000 kHz, the result of
`get_scaled_freq` is at most `edp_limit`, whatever the other caps. -/
theorem C2_edp_limit_is_ceiling (throttle : Nat → Nat) (c : Caps) (R : Nat)
    (hen : c.no_edp_limit = 0) (hlim : 1000 ≤ c.edp_limit) :
    get_scaled_freq throttle c R ≤ c.edp_limit := by
  simp only [get_scaled_freq, user_cap_speed, edp_governor_speed]
  split_ifs <;> omega

/-- Witness of the amended C2: request 1600000 kHz under an EDP limit of
1300000 kHz. -/
theorem C2_edp_limit_is_ceiling_witness :
    (0 : Nat) = 0 ∧ 1000 ≤ 1300000 ∧
    get_scaled_freq (fun f => f)
      { qos_min := 0, qos_max := 4294967295, no_edp_limit := 0,
        edp_limit := 1300000, cpu_user_cap := 0 } 1600000 ≤ 1300000 :=
  ⟨rfl, by decide,
   C2_edp_limit_is_ceiling (fun f => f)
      { qos_min := 0, qos_max := 4294967295, no_edp_limit := 0,
        edp_limit := 1300000, cpu_user_cap := 0 } 1600000 rfl (by decide)⟩

/-- C3, as stated, fails: with the conflicting bounds `qos_min = 1150000` and
`qos_max = 475000`, a request of 204000 kHz leaves the QoS stage as
1150000 kHz, which is not `qos_max` and lies above the QoS ceiling. -/
theorem C3_counterexample :
    (1150000 : Nat) > 475000 ∧
    pmqos_cap_speed
      { qos_min := 1150000, qos_max := 475000, no_edp_limit := 0,
        edp_limit := 0, cpu_user_cap := 0 } 204000 = 1150000 ∧
    pmqos_cap_speed
      { qos_min := 1150000, qos_max := 475000, no_edp_limit := 0,
        edp_limit := 0, cpu_user_cap := 0 } 204000 ≠ 475000 := by
  decide

/-- C3, amended: when the QoS bounds conflict (`qos_min > qos_max`), the QoS
stage returns `qos_max` for every request above `qos_max` and `qos_min` for
every request at or below `qos_max`. -/
theorem C3_conflicting_qos_bounds (c : Caps) (R : Nat)
    (h : c.qos_min > c.qos_max) :
    (R > c.qos_max → pmqos_cap_speed c R = c.qos_max) ∧
    (R ≤ c.qos_max → pmqos_cap_speed c R = c.qos_min) := by
  simp only [pmqos_cap_speed]
  constructor <;> intro hR <;> split_ifs <;> omega

/-- Witness of the amended C3: bounds 1150000 over 475000, request 204000. -/
theorem C3_conflicting_qos_bounds_witness :
    (1150000 : Nat) > 475000 ∧
    ((204000 : Nat) ≤ 475000 →
      pmqos_cap_speed
        { qos_min := 1150000, qos_max := 475000, no_edp_limit := 0,
          edp_limit := 0, cpu_user_cap := 0 } 204000 = 1150000) :=
  ⟨by decide,
   (C3_conflicting_qos_bounds
      { qos_min := 1150000, qos_max := 475000, no_edp_limit := 0,
        edp_limit := 0, cpu_user_cap := 0 } 204000 (by decide)).2⟩

/-- C4, as stated, fails: `get_scaled_freq` does not snap to the table.  On
the sample table a request of 1300000 kHz (a table entry) under a QoS ceiling
of 1250000 kHz resolves to 1250000 kHz, and a request of 1234567 kHz with no
cap active resolves to 1234567 kHz; neither is a table entry or 0. -/
theorem C4_counterexample :
    valid_entry sample_freq_table 1300000 ∧
    get_scaled_freq (fun f => f)
      { qos_min := 0, qos_max := 1250000, no_edp_limit := 0, edp_limit := 0,
        cpu_user_cap := 0 } 1300000 = 1250000 ∧
    ¬ (valid_entry sample_freq_table 1250000 ∨ (1250000 : Nat) = 0) ∧
    get_scaled_freq (fun f => f)
      { qos_min := 0, qos_max := 4294967295, no_edp_limit := 0, edp_limit := 0,
        cpu_user_cap := 0 } 1234567 = 1234567 ∧
    ¬ (valid_entry sample_freq_table 1234567 ∨ (1234567 : Nat) = 0) := by
  decide

/-- C4, amended: `get_scaled_freq` only passes on the request or one of the
cap values, so if the request, the QoS bounds, the EDP limit and the user cap
are each a table entry or 0, and the throttle governor maps such values to
such values, then the resolved frequency is a table entry or 0. -/
theorem C4_resolved_in_table (tbl : List Nat) (throttle : Nat → Nat)
    (c : Caps) (R : Nat)
    (hR : table_or_sentinel tbl R)
    (hmin : table_or_sentinel tbl c.qos_min)
    (hmax : table_or_sentinel tbl c.qos_max)
    (hedp : table_or_sentinel tbl c.edp_limit)
    (huser : table_or_sentinel tbl c.cpu_user_cap)
    (hthr : ∀ f, table_or_sentinel tbl f → table_or_sentinel tbl (throttle f)) :
    table_or_sentinel tbl (get_scaled_freq throttle c R) := by
  have hq : table_or_sentinel tbl (pmqos_cap_speed c R) := by
    simp only [pmqos_cap_speed]
    split_ifs <;> assumption
  have ht := hthr _ hq
  simp only [get_scaled_freq, user_cap_speed, edp_governor_speed]
  split_ifs <;> assumption

/-- Witness of the amended C4: on the sample table, a request of 1300000 kHz
under a QoS ceiling of 1200000 kHz and a user cap of 1000000 kHz. -/
theorem C4_resolved_in_table_witness :
    table_or_sentinel sample_freq_table
      (get_scaled_freq (fun f => f)
        { qos_min := 0, qos_max := 1200000, no_edp_limit := 0, edp_limit := 0,
          cpu_user_cap := 1000000 } 1300000) :=
  C4_resolved_in_table sample_freq_table (fun f => f)
    { qos_min := 0, qos_max := 1200000, no_edp_limit := 0, edp_limit := 0,
      cpu_user_cap := 1000000 } 1300000
    (by decide) (by decide) (by decide) (by decide) (by decide)
    (fun _ h => h)

/-- C5: monotonicity in the user cap.  For every request, every throttle
governor and all non-zero user caps `c1 ≤ c2`, with every other cap held
fixed, the result of `get_scaled_freq` under `c1` is at most the result
under `c2`. -/
theorem C5_user_cap_monotone (throttle : Nat → Nat) (c : Caps) (R c1 c2 : Nat)
    (h1 : c1 ≠ 0) (h2 : c2 ≠ 0) (h12 : c1 ≤ c2) :
    get_scaled_freq throttle { c with cpu_user_cap := c1 } R ≤
      get_scaled_freq throttle { c with cpu_user_cap := c2 } R := by
  simp only [get_scaled_freq, user_cap_speed, edp_governor_speed, pmqos_cap_speed]
  split_ifs <;> omega

/-- Witness of C5: user caps 1000000 and 1200000 on a request of 1300000. -/
theorem C5_user_cap_monotone_witness :
    (1000000 ≠ 0) ∧ (1200000 ≠ 0) ∧ (1000000 ≤ 1200000) ∧
    get_scaled_freq (fun f => f)
      { ({ qos_min := 0, qos_max := 4294967295, no_edp_limit := 0,
           edp_limit := 0, cpu_user_cap := 0 } : Caps) with
        cpu_user_cap := 1000000 } 1300000 ≤
    get_scaled_freq (fun f => f)
      { ({ qos_min := 0, qos_max := 4294967295, no_edp_limit := 0,
           edp_limit := 0, cpu_user_cap := 0 } : Caps) with
        cpu_user_cap := 1200000 } 1300000 :=
  ⟨by decide, by decide, by decide,
   C5_user_cap_monotone (fun f => f)
     { qos_min := 0, qos_max := 4294967295, no_edp_limit := 0,
       edp_limit := 0, cpu_user_cap := 0 } 1300000 1000000 1200000
     (by decide) (by decide) (by decide)⟩

/-- C6: when `qos_min ≤ qos_max` the QoS stage is an exact clamp: it returns
`qos_min` for a request below `qos_min`, `qos_max` for a request above
`qos_max`, and the request itself otherwise. -/
theorem C6_qos_exact_clamp (c : Caps) (R : Nat) (h : c.qos_min ≤ c.qos_max) :
    (R < c.qos_min → pmqos_cap_speed c R = c.qos_min) ∧
    (R > c.qos_max → pmqos_cap_speed c R = c.qos_max) ∧
    (c.qos_min ≤ R → R ≤ c.qos_max → pmqos_cap_speed c R = R) := by
  simp only [pmqos_cap_speed]
  refine ⟨?_, ?_, ?_⟩ <;> intros <;> split_ifs <;> omega

/-- Witness of C6: bounds 340000 and 1150000, request 204000. -/
theorem C6_qos_exact_clamp_witness :
    (340000 ≤ 1150000) ∧
    ((204000 : Nat) < 340000 →
      pmqos_cap_speed
        { qos_min := 340000, qos_max := 1150000, no_edp_limit := 0,
          edp_limit := 0, cpu_user_cap := 0 } 204000 = 340000) :=
  ⟨by decide,
   (C6_qos_exact_clamp
      { qos_min := 340000, qos_max := 1150000, no_edp_limit := 0,
        edp_limit := 0, cpu_user_cap := 0 } 204000 (by decide)).1⟩

/-! ## Theorems: snapping to the frequency table -/

theorem getD_snoc_last (pre : List Nat) (freq : Nat) :
    (pre ++ [freq]).getD pre.length 0 = freq := by
  rw [List.getD_append_right _ _ _ _ (le_refl _)]
  simp

theorem getD_snoc_lt (pre : List Nat) (freq i : Nat) (h : i < pre.length) :
    (pre ++ [freq]).getD i 0 = pre.getD i 0 :=
  List.getD_append _ _ _ _ h

theorem optimal_inv_L_step (t freq : Nat) (pre : List Nat) (v : target_locals)
    (hf : freq ≤ UINT_MAX) (h : optimal_inv_L t pre v.optimal) :
    optimal_inv_L t (pre ++ [freq])
      (target_freq_body t CPUFREQ_RELATION_L pre.length freq v).optimal := by
  have keep : (freq = CPUFREQ_ENTRY_INVALID ∨ freq < t ∨ v.optimal.frequency < freq) →
      optimal_inv_L t (pre ++ [freq]) v.optimal := by
    intro hc
    rcases h with ⟨hi, hfr, hall⟩ | ⟨hi, hget, hmem, hne, hle, hall⟩
    · left
      refine ⟨hi, hfr, ?_⟩
      intro f hfm hfne
      rcases List.mem_append.1 hfm with hp | hl
      · exact hall f hp hfne
      · have : f = freq := by simpa using hl
        subst this
        rcases hc with hc | hc | hc
        · exact absurd hc hfne
        · exact hc
        · omega
    · right
      refine ⟨by simp; omega, ?_, List.mem_append_left _ hmem, hne, hle, ?_⟩
      · rw [getD_snoc_lt _ _ _ hi]; exact hget
      · intro f hfm hfne htf
        rcases List.mem_append.1 hfm with hp | hl
        · exact hall f hp hfne htf
        · have : f = freq := by simpa using hl
          subst this
          rcases hc with hc | hc | hc
          · exact absurd hc hfne
          · omega
          · omega
  unfold target_freq_body
  by_cases hinv : freq = CPUFREQ_ENTRY_INVALID
  · simp only [hinv, if_true]
    exact keep (Or.inl hinv) |> fun k => by simpa [hinv] using k
  · simp only [hinv, if_false, CPUFREQ_RELATION_L, CPUFREQ_RELATION_H]
    simp only [show ¬ ((0 : Nat) = 1) by decide, if_false, if_true]
    by_cases ht : freq ≥ t
    · simp only [ht, if_true]
      by_cases hb : freq ≤ v.optimal.frequency
      · simp only [hb, if_true]
        right
        refine ⟨by simp, getD_snoc_last _ _, by simp, hinv, ht, ?_⟩
        intro f hfm hfne htf
        rcases List.mem_append.1 hfm with hp | hl
        · rcases h with ⟨_, _, hall⟩ | ⟨_, _, _, _, _, hall⟩
          · have := hall f hp hfne
            exact absurd htf (by omega)
          · have := hall f hp hfne htf
            exact le_trans hb this
        · have : f = freq := by simpa using hl
          subst this
          exact le_refl _
      · simp only [hb, if_false]
        exact keep (Or.inr (Or.inr (by omega)))
    · simp only [ht, if_false]
      have k := keep (Or.inr (Or.inl (by omega)))
      split_ifs <;> exact k



theorem optimal_inv_H_step (t freq : Nat) (pre : List Nat) (v : target_locals)
    (h : optimal_inv_H t pre v.optimal) :
    optimal_inv_H t (pre ++ [freq])
      (target_freq_body t CPUFREQ_RELATION_H pre.length freq v).optimal := by
  have keep : (freq = CPUFREQ_ENTRY_INVALID ∨ t < freq ∨ freq < v.optimal.frequency) →
      optimal_inv_H t (pre ++ [freq]) v.optimal := by
    intro hc
    rcases h with ⟨hi, hfr, hall⟩ | ⟨hi, hget, hmem, hne, hle, hall⟩
    · left
      refine ⟨hi, hfr, ?_⟩
      intro f hfm hfne
      rcases List.mem_append.1 hfm with hp | hl
      · exact hall f hp hfne
      · have : f = freq := by simpa using hl
        subst this
        rcases hc with hc | hc | hc
        · exact absurd hc hfne
        · exact hc
        · omega
    · right
      refine ⟨by simp; omega, ?_, List.mem_append_left _ hmem, hne, hle, ?_⟩
      · rw [getD_snoc_lt _ _ _ hi]; exact hget
      · intro f hfm hfne htf
        rcases List.mem_append.1 hfm with hp | hl
        · exact hall f hp hfne htf
        · have : f = freq := by simpa using hl
          subst this
          rcases hc with hc | hc | hc
          · exact absurd hc hfne
          · omega
          · omega
  unfold target_freq_body
  by_cases hinv : freq = CPUFREQ_ENTRY_INVALID
  · simp only [hinv, if_true]
    exact keep (Or.inl hinv) |> fun k => by simpa [hinv] using k
  · simp only [hinv, if_false, CPUFREQ_RELATION_H, if_true]
    by_cases ht : freq ≤ t
    · simp only [ht, if_true]
      by_cases hb : freq ≥ v.optimal.frequency
      · simp only [hb, if_true]
        right
        refine ⟨by simp, getD_snoc_last _ _, by simp, hinv, ht, ?_⟩
        intro f hfm hfne htf
        rcases List.mem_append.1 hfm with hp | hl
        · rcases h with ⟨_, _, hall⟩ | ⟨_, _, _, _, _, hall⟩
          · have := hall f hp hfne
            exact absurd htf (by omega)
          · have := hall f hp hfne htf
            exact le_trans this hb
        · have : f = freq := by simpa using hl
          subst this
          exact le_refl _
      · simp only [hb, if_false]
        exact keep (Or.inr (Or.inr (by omega)))
    · simp only [ht, if_false]
      have k := keep (Or.inr (Or.inl (by omega)))
      split_ifs <;> exact k

theorem table_entries_cons_end (l : List Nat) :
    table_entries (CPUFREQ_TABLE_END :: l) = [] := by
  simp [table_entries]

theorem table_entries_cons (freq : Nat) (l : List Nat)
    (h : freq ≠ CPUFREQ_TABLE_END) :
    table_entries (freq :: l) = freq :: table_entries l := by
  simp [table_entries, h]

theorem target_freq_loop_inv (t rel : Nat) (B : Nat → Prop)
    (Inv : List Nat → target_locals → Prop)
    (hstep : ∀ pre freq v, B freq → Inv pre v →
      Inv (pre ++ [freq]) (target_freq_body t rel pre.length freq v)) :
    ∀ (rest pre : List Nat) (v : target_locals),
      (∀ f ∈ table_entries rest, B f) → Inv pre v →
      (target_freq_loop t rel rest pre.length v).2 =
          pre.length + (table_entries rest).length ∧
        Inv (pre ++ table_entries rest)
          (target_freq_loop t rel rest pre.length v).1 := by
  intro rest
  induction rest with
  | nil =>
    intro pre v _ hv
    simpa [target_freq_loop, table_entries] using hv
  | cons freq rest ih =>
    intro pre v hb hv
    by_cases he : freq = CPUFREQ_TABLE_END
    · subst he
      simpa [target_freq_loop, table_entries_cons_end] using hv
    · rw [table_entries_cons _ _ he] at hb ⊢
      have hf : B freq := hb freq (List.mem_cons_self _ _)
      have hrest : ∀ f ∈ table_entries rest, B f :=
        fun f hfm => hb f (List.mem_cons_of_mem _ hfm)
      have h1 := ih (pre ++ [freq]) (target_freq_body t rel pre.length freq v)
        hrest (hstep pre freq v hf hv)
      simp only [List.length_append, List.length_singleton, List.append_assoc,
        List.singleton_append] at h1
      simp only [target_freq_loop, he, if_false, List.length_cons]
      refine ⟨?_, h1.2⟩
      rw [h1.1]
      omega

theorem table_entries_le (tbl : List Nat) :
    (table_entries tbl).length ≤ tbl.length := by
  have h := congrArg List.length
    (List.takeWhile_append_dropWhile (fun f => decide (f ≠ CPUFREQ_TABLE_END)) tbl)
  rw [List.length_append] at h
  unfold table_entries
  omega

theorem table_entries_mem (tbl : List Nat) (f : Nat) (h : f ∈ table_entries tbl) :
    f ∈ tbl := by
  have h1 := List.takeWhile_append_dropWhile
    (fun f => decide (f ≠ CPUFREQ_TABLE_END)) tbl
  rw [← h1]
  exact List.mem_append_left _ h

theorem table_entries_getD (tbl : List Nat) (i : Nat)
    (h : i < (table_entries tbl).length) :
    tbl.getD i 0 = (table_entries tbl).getD i 0 := by
  have h1 := List.takeWhile_append_dropWhile
    (fun f => decide (f ≠ CPUFREQ_TABLE_END)) tbl
  conv_lhs => rw [← h1]
  exact List.getD_append _ _ _ _ h



theorem cpu_target_freq_eq_L (tbl : List Nat) (t : Nat) :
    _cpu_target_freq (some tbl) t CPUFREQ_RELATION_L =
      if (target_freq_loop t CPUFREQ_RELATION_L tbl 0
            { optimal := { index := UINT_MAX, frequency := UINT_MAX },
              suboptimal := { index := UINT_MAX, frequency := 0 } }).1.optimal.index >
          (target_freq_loop t CPUFREQ_RELATION_L tbl 0
            { optimal := { index := UINT_MAX, frequency := UINT_MAX },
              suboptimal := { index := UINT_MAX, frequency := 0 } }).2 then
        if (target_freq_loop t CPUFREQ_RELATION_L tbl 0
            { optimal := { index := UINT_MAX, frequency := UINT_MAX },
              suboptimal := { index := UINT_MAX, frequency := 0 } }).1.suboptimal.index >
          (target_freq_loop t CPUFREQ_RELATION_L tbl 0
            { optimal := { index := UINT_MAX, frequency := UINT_MAX },
              suboptimal := { index := UINT_MAX, frequency := 0 } }).2 then 0
        else tbl.getD (target_freq_loop t CPUFREQ_RELATION_L tbl 0
            { optimal := { index := UINT_MAX, frequency := UINT_MAX },
              suboptimal := { index := UINT_MAX, frequency := 0 } }).1.suboptimal.index 0
      else tbl.getD (target_freq_loop t CPUFREQ_RELATION_L tbl 0
            { optimal := { index := UINT_MAX, frequency := UINT_MAX },
              suboptimal := { index := UINT_MAX, frequency := 0 } }).1.optimal.index 0 :=
  rfl

theorem cpu_target_freq_eq_H (tbl : List Nat) (t : Nat) :
    _cpu_target_freq (some tbl) t CPUFREQ_RELATION_H =
      if (target_freq_loop t CPUFREQ_RELATION_H tbl 0
            { optimal := { index := UINT_MAX, frequency := 0 },
              suboptimal := { index := UINT_MAX, frequency := UINT_MAX } }).1.optimal.index >
          (target_freq_loop t CPUFREQ_RELATION_H tbl 0
            { optimal := { index := UINT_MAX, frequency := 0 },
              suboptimal := { index := UINT_MAX, frequency := UINT_MAX } }).2 then
        if (target_freq_loop t CPUFREQ_RELATION_H tbl 0
            { optimal := { index := UINT_MAX, frequency := 0 },
              suboptimal := { index := UINT_MAX, frequency := UINT_MAX } }).1.suboptimal.index >
          (target_freq_loop t CPUFREQ_RELATION_H tbl 0
            { optimal := { index := UINT_MAX, frequency := 0 },
              suboptimal := { index := UINT_MAX, frequency := UINT_MAX } }).2 then 0
        else tbl.getD (target_freq_loop t CPUFREQ_RELATION_H tbl 0
            { optimal := { index := UINT_MAX, frequency := 0 },
              suboptimal := { index := UINT_MAX, frequency := UINT_MAX } }).1.suboptimal.index 0
      else tbl.getD (target_freq_loop t CPUFREQ_RELATION_H tbl 0
            { optimal := { index := UINT_MAX, frequency := 0 },
              suboptimal := { index := UINT_MAX, frequency := UINT_MAX } }).1.optimal.index 0 :=
  rfl

theorem cpu_target_freq_L (tbl : List Nat) (t : Nat)
    (hfit : ∀ f ∈ tbl, f ≤ UINT_MAX)
    (hex : ∃ f, valid_entry tbl f ∧ t ≤ f) :
    valid_entry tbl (_cpu_target_freq (some tbl) t CPUFREQ_RELATION_L) ∧
    t ≤ _cpu_target_freq (some tbl) t CPUFREQ_RELATION_L ∧
    ∀ f, valid_entry tbl f → t ≤ f →
      _cpu_target_freq (some tbl) t CPUFREQ_RELATION_L ≤ f := by
  have h := target_freq_loop_inv t CPUFREQ_RELATION_L (fun f => f ≤ UINT_MAX)
    (fun pre v => optimal_inv_L t pre v.optimal)
    (fun pre freq v hf hv => optimal_inv_L_step t freq pre v hf hv)
    tbl []
    { optimal := { index := UINT_MAX, frequency := UINT_MAX },
      suboptimal := { index := UINT_MAX, frequency := 0 } }
    (fun f hf => hfit f (table_entries_mem tbl f hf))
    (Or.inl ⟨rfl, rfl, by simp⟩)
  simp only [List.length_nil, Nat.zero_add, List.nil_append] at h
  obtain ⟨hlen, hinv⟩ := h
  rw [cpu_target_freq_eq_L, hlen]
  rcases hinv with ⟨_, _, hall⟩ | ⟨hi, hget, hmem, hne, hle, hall⟩
  · obtain ⟨f, hf, htf⟩ := hex
    have := hall f hf.1 hf.2
    omega
  · rw [if_neg (by omega), table_entries_getD tbl _ hi, hget]
    exact ⟨⟨hmem, hne⟩, hle, fun f hf htf => hall f hf.1 hf.2 htf⟩

theorem cpu_target_freq_H (tbl : List Nat) (t : Nat)
    (hex : ∃ f, valid_entry tbl f ∧ f ≤ t) :
    valid_entry tbl (_cpu_target_freq (some tbl) t CPUFREQ_RELATION_H) ∧
    _cpu_target_freq (some tbl) t CPUFREQ_RELATION_H ≤ t ∧
    ∀ f, valid_entry tbl f → f ≤ t →
      f ≤ _cpu_target_freq (some tbl) t CPUFREQ_RELATION_H := by
  have h := target_freq_loop_inv t CPUFREQ_RELATION_H (fun _ => True)
    (fun pre v => optimal_inv_H t pre v.optimal)
    (fun pre freq v _ hv => optimal_inv_H_step t freq pre v hv)
    tbl []
    { optimal := { index := UINT_MAX, frequency := 0 },
      suboptimal := { index := UINT_MAX, frequency := UINT_MAX } }
    (fun _ _ => trivial)
    (Or.inl ⟨rfl, rfl, by simp⟩)
  simp only [List.length_nil, Nat.zero_add, List.nil_append] at h
  obtain ⟨hlen, hinv⟩ := h
  rw [cpu_target_freq_eq_H, hlen]
  rcases hinv with ⟨_, _, hall⟩ | ⟨hi, hget, hmem, hne, hle, hall⟩
  · obtain ⟨f, hf, htf⟩ := hex
    have := hall f hf.1 hf.2
    omega
  · rw [if_neg (by omega), table_entries_getD tbl _ hi, hget]
    exact ⟨⟨hmem, hne⟩, hle, fun f hf htf => hall f hf.1 hf.2 htf⟩



theorem target_freq_body_invalid (t rel i : Nat) (v : target_locals) :
    target_freq_body t rel i CPUFREQ_ENTRY_INVALID v = v := by
  simp [target_freq_body]

theorem cpu_target_freq_no_valid (tbl : List Nat) (t rel : Nat)
    (hlen : tbl.length < UINT_MAX) (hnv : ∀ f, ¬ valid_entry tbl f) :
    _cpu_target_freq (some tbl) t rel = 0 := by
  have hall : ∀ f ∈ table_entries tbl, f = CPUFREQ_ENTRY_INVALID := by
    intro f hf
    by_contra hne
    exact hnv f ⟨hf, hne⟩
  have h := target_freq_loop_inv t rel (fun _ => True)
    (fun pre v => (∀ f ∈ pre, f = CPUFREQ_ENTRY_INVALID) →
      v = { optimal :=
              { index := UINT_MAX,
                frequency := if rel = CPUFREQ_RELATION_L then UINT_MAX else 0 },
            suboptimal :=
              { index := UINT_MAX,
                frequency := if rel = CPUFREQ_RELATION_H then UINT_MAX else 0 } })
    (by
      intro pre freq v _ hv hpre
      have hf : freq = CPUFREQ_ENTRY_INVALID :=
        hpre freq (List.mem_append_right _ (List.mem_singleton_self _))
      rw [hf, target_freq_body_invalid]
      exact hv (fun f hfm => hpre f (List.mem_append_left _ hfm)))
    tbl []
    { optimal :=
        { index := UINT_MAX,
          frequency := if rel = CPUFREQ_RELATION_L then UINT_MAX else 0 },
      suboptimal :=
        { index := UINT_MAX,
          frequency := if rel = CPUFREQ_RELATION_H then UINT_MAX else 0 } }
    (fun _ _ => trivial) (fun _ => rfl)
  simp only [List.length_nil, Nat.zero_add, List.nil_append] at h
  obtain ⟨hi, hv⟩ := h
  have hv := hv hall
  have hle := table_entries_le tbl
  simp only [_cpu_target_freq]
  rw [hi, hv]
  simp only
  rw [if_pos (by omega), if_pos (by omega)]

/-- C7: for every frequency table of `unsigned int` entries and every target
`t`, `_cpu_target_freq` under `CPUFREQ_RELATION_L` returns the smallest valid
table entry at or above `t` whenever one exists, under `CPUFREQ_RELATION_H`
it returns the largest valid table entry at or below `t` whenever one exists,
and a target that is itself a valid table entry is returned unchanged under
both relations. -/
theorem C7_snap_to_table (tbl : List Nat) (t : Nat)
    (hfit : ∀ f ∈ tbl, f ≤ UINT_MAX) :
    ((∃ f, valid_entry tbl f ∧ t ≤ f) →
      valid_entry tbl (_cpu_target_freq (some tbl) t CPUFREQ_RELATION_L) ∧
      t ≤ _cpu_target_freq (some tbl) t CPUFREQ_RELATION_L ∧
      ∀ f, valid_entry tbl f → t ≤ f →
        _cpu_target_freq (some tbl) t CPUFREQ_RELATION_L ≤ f) ∧
    ((∃ f, valid_entry tbl f ∧ f ≤ t) →
      valid_entry tbl (_cpu_target_freq (some tbl) t CPUFREQ_RELATION_H) ∧
      _cpu_target_freq (some tbl) t CPUFREQ_RELATION_H ≤ t ∧
      ∀ f, valid_entry tbl f → f ≤ t →
        f ≤ _cpu_target_freq (some tbl) t CPUFREQ_RELATION_H) ∧
    (valid_entry tbl t →
      _cpu_target_freq (some tbl) t CPUFREQ_RELATION_L = t ∧
      _cpu_target_freq (some tbl) t CPUFREQ_RELATION_H = t) := by
  refine ⟨cpu_target_freq_L tbl t hfit, cpu_target_freq_H tbl t, ?_⟩
  intro ht
  have hL := cpu_target_freq_L tbl t hfit ⟨t, ht, le_refl t⟩
  have hH := cpu_target_freq_H tbl t ⟨t, ht, le_refl t⟩
  exact ⟨le_antisymm (hL.2.2 t ht (le_refl t)) hL.2.1,
    le_antisymm hH.2.1 (hH.2.2 t ht (le_refl t))⟩

/-- Witness of C7: on the sample table the target 1300000 kHz, itself an
entry, is returned unchanged under both relations. -/
theorem C7_snap_to_table_witness :
    (∀ f ∈ sample_freq_table, f ≤ UINT_MAX) ∧
    valid_entry sample_freq_table 1300000 ∧
    _cpu_target_freq (some sample_freq_table) 1300000 CPUFREQ_RELATION_L = 1300000 ∧
    _cpu_target_freq (some sample_freq_table) 1300000 CPUFREQ_RELATION_H = 1300000 :=
  ⟨by decide, by decide,
   (C7_snap_to_table sample_freq_table 1300000 (by decide)).2.2 (by decide)⟩

/-- C8: `_cpu_target_freq` returns the sentinel 0, for every target and every
relation, when the frequency table is not set yet, and when the table (of
fewer than `~0` entries) has no valid entry before its end marker: it is
empty or holds only `CPUFREQ_ENTRY_INVALID` entries. -/
theorem C8_snap_unavailable (t rel : Nat) :
    _cpu_target_freq none t rel = 0 ∧
    ∀ tbl : List Nat, tbl.length < UINT_MAX → (∀ f, ¬ valid_entry tbl f) →
      _cpu_target_freq (some tbl) t rel = 0 :=
  ⟨rfl, fun tbl hlen hnv => cpu_target_freq_no_valid tbl t rel hlen hnv⟩

/-- Witness of C8: a table holding two invalid entries and the end marker,
target 1300000 kHz, relation `CPUFREQ_RELATION_L`. -/
theorem C8_snap_unavailable_witness :
    [CPUFREQ_ENTRY_INVALID, CPUFREQ_ENTRY_INVALID, CPUFREQ_TABLE_END].length
      < UINT_MAX ∧
    (∀ f ∈ table_entries
        [CPUFREQ_ENTRY_INVALID, CPUFREQ_ENTRY_INVALID, CPUFREQ_TABLE_END],
      f = CPUFREQ_ENTRY_INVALID) ∧
    _cpu_target_freq
      (some [CPUFREQ_ENTRY_INVALID, CPUFREQ_ENTRY_INVALID, CPUFREQ_TABLE_END])
      1300000 CPUFREQ_RELATION_L = 0 :=
  ⟨by decide, by decide,
   (C8_snap_unavailable 1300000 CPUFREQ_RELATION_L).2
     [CPUFREQ_ENTRY_INVALID, CPUFREQ_ENTRY_INVALID, CPUFREQ_TABLE_END]
     (by decide)
     (fun f hf => hf.2 ((by decide :
        ∀ f ∈ table_entries
          [CPUFREQ_ENTRY_INVALID, CPUFREQ_ENTRY_INVALID, CPUFREQ_TABLE_END],
        f = CPUFREQ_ENTRY_INVALID) f hf.1))⟩

/-! ## Theorems: the cluster-switch state machine -/

theorem lp_possible_one_online (p : Platform) (s : Cpuquiet)
    (h : lp_possible p s = true) : num_online_cpus p = 1 := by
  simp only [lp_possible, Bool.and_eq_true, decide_eq_true_eq] at h
  exact h.2

theorem lp_possible_frame (p : Platform) (s : Cpuquiet) (st : CpqState)
    (b : Bool) :
    lp_possible p { s with cpq_state := st, is_suspended := b } = lp_possible p s :=
  rfl

theorem governor_cases (p : Platform) (s : Cpuquiet) (cpu_freq : Nat)
    (suspend : Bool) :
    tegra_auto_hotplug_governor p s cpu_freq suspend = (s, []) ∨
    tegra_auto_hotplug_governor p s cpu_freq suspend =
      ({ s with cpq_state := CpqState.TEGRA_CPQ_IDLE, is_suspended := suspend }, []) ∨
    tegra_auto_hotplug_governor p s cpu_freq suspend =
      ({ s with cpq_state := CpqState.TEGRA_CPQ_SWITCH_TO_G, is_suspended := suspend },
        [Call.queue_delayed_work s.lp_up_delay]) ∨
    (lp_possible p s = true ∧
      tegra_auto_hotplug_governor p s cpu_freq suspend =
        ({ s with cpq_state := CpqState.TEGRA_CPQ_SWITCH_TO_LP, is_suspended := suspend },
          [Call.queue_delayed_work s.lp_down_delay])) := by
  unfold tegra_auto_hotplug_governor
  simp only [lp_possible_frame]
  cases p.g_cluster_present <;> simp
  by_cases hd : s.cpq_state = CpqState.TEGRA_CPQ_DISABLED <;> simp [hd]
  cases suspend <;> simp
  cases hq : lp_possible p s <;> cases p.lp_cluster <;> cases s.no_lp <;>
    by_cases hf : s.idle_top_freq < cpu_freq <;> simp [hf]

theorem governor_calls_queue_only (p : Platform) (s : Cpuquiet) (cpu_freq : Nat)
    (suspend : Bool) :
    Call.clk_set_parent_lp ∉ (tegra_auto_hotplug_governor p s cpu_freq suspend).2 := by
  rcases governor_cases p s cpu_freq suspend with h | h | h | ⟨_, h⟩ <;>
    rw [h] <;> simp

theorem speed_cap_call_no_lp_parent (path : SpeedCapPath) (p : Platform)
    (s : Cpuquiet) :
    Call.clk_set_parent_lp ∉ (speed_cap_call path p s).2 := by
  cases path with
  | returns_early => simp [speed_cap_call]
  | calls_governor f =>
    simp only [speed_cap_call, List.mem_cons, not_or]
    exact ⟨by simp, governor_calls_queue_only p s f false⟩

theorem switch_clk_to_gmode_no_lp_parent (p : Platform) (s : Cpuquiet) :
    Call.clk_set_parent_lp ∉ switch_clk_to_gmode p s := by
  unfold switch_clk_to_gmode
  split_ifs <;> simp

/-- C9: cluster-switch safety.  Whenever more than one core is online,
`tegra_auto_hotplug_governor` never sets the state to `SWITCH_TO_LP` (its
result carries that state only when it returned at a guard without writing
anything) and queues no switch to the low-power cluster (it queues nothing,
or it sets `SWITCH_TO_G` and queues with `lp_up_delay`), and
`tegra_cpuquiet_work_func` never calls `clk_set_parent(cpu_clk, cpu_lp_clk)`,
whatever its environment returns. -/
theorem C9_cluster_switch_safety (p : Platform) (s : Cpuquiet)
    (h : 1 < num_online_cpus p) :
    (∀ (cpu_freq : Nat) (suspend : Bool),
      ((tegra_auto_hotplug_governor p s cpu_freq suspend).1.cpq_state =
          CpqState.TEGRA_CPQ_SWITCH_TO_LP →
        tegra_auto_hotplug_governor p s cpu_freq suspend = (s, [])) ∧
      ((tegra_auto_hotplug_governor p s cpu_freq suspend).2 = [] ∨
        ((tegra_auto_hotplug_governor p s cpu_freq suspend).1.cpq_state =
            CpqState.TEGRA_CPQ_SWITCH_TO_G ∧
          (tegra_auto_hotplug_governor p s cpu_freq suspend).2 =
            [Call.queue_delayed_work s.lp_up_delay]))) ∧
    (∀ o : WorkOracle,
      Call.clk_set_parent_lp ∉ (tegra_cpuquiet_work_func o p s).2) := by
  have hlp : lp_possible p s = false := by
    cases hq : lp_possible p s with
    | false => rfl
    | true =>
      have := lp_possible_one_online p s hq
      omega
  constructor
  · intro cpu_freq suspend
    rcases governor_cases p s cpu_freq suspend with h1 | h1 | h1 | ⟨hq, _⟩
    · exact ⟨fun _ => h1, Or.inl (by rw [h1])⟩
    · rw [h1]
      exact ⟨fun hc => by simp at hc, Or.inl rfl⟩
    · rw [h1]
      exact ⟨fun hc => by simp at hc, Or.inr ⟨rfl, rfl⟩⟩
    · rw [hlp] at hq
      exact absurd hq (by decide)
  · intro o
    unfold tegra_cpuquiet_work_func
    cases o.trylock
    · simp
    · simp only [Bool.not_true, Bool.false_eq_true, if_false, hlp]
      cases s.cpq_state with
      | TEGRA_CPQ_DISABLED => simp
      | TEGRA_CPQ_IDLE => simp
      | TEGRA_CPQ_SWITCH_TO_LP => simp
      | TEGRA_CPQ_SWITCH_TO_G =>
        simp only
        split_ifs
        · simp only [List.mem_append, not_or]
          exact ⟨switch_clk_to_gmode_no_lp_parent p s,
            speed_cap_call_no_lp_parent _ _ _⟩
        · exact switch_clk_to_gmode_no_lp_parent p s
        · simp

/-- C10: for an enabled controller (state not `DISABLED`) with the performance
cluster present and `suspend = false`, if the CPU is on the low-power cluster
and `cpu_freq > idle_top_freq` or `no_lp` is set, then
`tegra_auto_hotplug_governor` sets the state to `SWITCH_TO_G` and queues the
deferred work with delay `lp_up_delay`, whose default is 80 ms. -/
theorem C10_switch_to_performance (p : Platform) (s : Cpuquiet) (cpu_freq : Nat)
    (hen : s.cpq_state ≠ CpqState.TEGRA_CPQ_DISABLED)
    (hg : p.g_cluster_present = true) (hlp : p.lp_cluster = true)
    (hcond : cpu_freq > s.idle_top_freq ∨ s.no_lp = true) :
    (tegra_auto_hotplug_governor p s cpu_freq false).1.cpq_state =
        CpqState.TEGRA_CPQ_SWITCH_TO_G ∧
    (tegra_auto_hotplug_governor p s cpu_freq false).2 =
        [Call.queue_delayed_work s.lp_up_delay] ∧
    ({} : Cpuquiet).lp_up_delay = 80 := by
  unfold tegra_auto_hotplug_governor
  have hc : (decide (cpu_freq > s.idle_top_freq) || s.no_lp) = true := by
    rcases hcond with h | h <;> simp [h]
  simp [hen, hg, hlp, hc]
  rfl

/-- Witness of C9: two cores online on the performance cluster, a pending
`SWITCH_TO_LP`, request 200000 kHz; neither the governor nor the worker moves
towards the low-power cluster. -/
theorem C9_cluster_switch_safety_witness :
    1 < num_online_cpus
      { g_cluster_present := true, lp_cluster := false,
        online := [true, true, false, false], qos_min_online_cpus := 0,
        qos_max_online_cpus := 4, cpu_clk_rate := 204000000 } ∧
    Call.clk_set_parent_lp ∉
      (tegra_cpuquiet_work_func
        { trylock := true, clk_set_parent_ret := 0, now_ms := 1000,
          speed_cap := SpeedCapPath.calls_governor 200000 }
        { g_cluster_present := true, lp_cluster := false,
          online := [true, true, false, false], qos_min_online_cpus := 0,
          qos_max_online_cpus := 4, cpu_clk_rate := 204000000 }
        { cpq_state := CpqState.TEGRA_CPQ_SWITCH_TO_LP }).2 :=
  ⟨by decide,
   (C9_cluster_switch_safety
      { g_cluster_present := true, lp_cluster := false,
        online := [true, true, false, false], qos_min_online_cpus := 0,
        qos_max_online_cpus := 4, cpu_clk_rate := 204000000 }
      { cpq_state := CpqState.TEGRA_CPQ_SWITCH_TO_LP } (by decide)).2
      { trylock := true, clk_set_parent_ret := 0, now_ms := 1000,
        speed_cap := SpeedCapPath.calls_governor 200000 }⟩

/-- Witness of C10: on the low-power cluster with `idle_top_freq = 475000` and
the default delays, a request of 1000000 kHz gives `SWITCH_TO_G`, queued with
80 ms. -/
theorem C10_switch_to_performance_witness :
    ({} : Cpuquiet).cpq_state ≠ CpqState.TEGRA_CPQ_DISABLED ∧
    ({} : Cpuquiet).idle_top_freq = 475000 ∧
    (1000000 : Nat) > 475000 ∧
    (tegra_auto_hotplug_governor
      { g_cluster_present := true, lp_cluster := true,
        online := [true, false, false, false], qos_min_online_cpus := 0,
        qos_max_online_cpus := 4, cpu_clk_rate := 300000000 }
      {} 1000000 false).1.cpq_state = CpqState.TEGRA_CPQ_SWITCH_TO_G ∧
    (tegra_auto_hotplug_governor
      { g_cluster_present := true, lp_cluster := true,
        online := [true, false, false, false], qos_min_online_cpus := 0,
        qos_max_online_cpus := 4, cpu_clk_rate := 300000000 }
      {} 1000000 false).2 = [Call.queue_delayed_work 80] :=
  ⟨by decide, rfl, by decide,
   (C10_switch_to_performance
      { g_cluster_present := true, lp_cluster := true,
        online := [true, false, false, false], qos_min_online_cpus := 0,
        qos_max_online_cpus := 4, cpu_clk_rate := 300000000 }
      {} 1000000 (by decide) rfl rfl (Or.inl (by decide))).1,
   (C10_switch_to_performance
      { g_cluster_present := true, lp_cluster := true,
        online := [true, false, false, false], qos_min_online_cpus := 0,
        qos_max_online_cpus := 4, cpu_clk_rate := 300000000 }
      {} 1000000 (by decide) rfl rfl (Or.inl (by decide))).2.1⟩

/-! ## Theorems: the core-count controller -/

theorem lp_possible_iff (p : Platform) (s : Cpuquiet) :
    lp_possible p s = true ↔
      (p.lp_cluster = false ∧ s.no_lp = false ∧ tegra_cpq_min_cpus p s < 2 ∧
        num_online_cpus p = 1) := by
  simp only [lp_possible, Bool.and_eq_true, Bool.not_eq_true', decide_eq_true_eq,
    decide_eq_false_iff_not, not_le, ge_iff_le]
  tauto

theorem governor_running (p : Platform) (s : Cpuquiet) (cpu_freq : Nat)
    (hen : s.cpq_state ≠ CpqState.TEGRA_CPQ_DISABLED)
    (hg : p.g_cluster_present = true) :
    tegra_auto_hotplug_governor p s cpu_freq false =
      if p.lp_cluster = true ∧ (cpu_freq > s.idle_top_freq ∨ s.no_lp = true) then
        ({ s with cpq_state := CpqState.TEGRA_CPQ_SWITCH_TO_G, is_suspended := false },
          [Call.queue_delayed_work s.lp_up_delay])
      else if cpu_freq ≤ s.idle_top_freq ∧ lp_possible p s = true then
        ({ s with cpq_state := CpqState.TEGRA_CPQ_SWITCH_TO_LP, is_suspended := false },
          [Call.queue_delayed_work s.lp_down_delay])
      else
        ({ s with cpq_state := CpqState.TEGRA_CPQ_IDLE, is_suspended := false }, []) := by
  unfold tegra_auto_hotplug_governor
  simp [lp_possible_frame, hg, hen]

/-- C11: for an enabled controller with the performance cluster present and
`suspend = false`, `tegra_auto_hotplug_governor` sets the state to
`SWITCH_TO_LP` exactly when `cpu_freq ≤ idle_top_freq` and `lp_possible()`
holds (not on the low-power cluster, `no_lp` clear, fewer than two cores
required, exactly one core online), and then queues the work with delay
`lp_down_delay`, whose default is 800 ms; when neither this nor the
switch-to-performance condition holds, the state becomes `IDLE` and nothing
is queued. -/
theorem C11_switch_to_low_power (p : Platform) (s : Cpuquiet) (cpu_freq : Nat)
    (hen : s.cpq_state ≠ CpqState.TEGRA_CPQ_DISABLED)
    (hg : p.g_cluster_present = true) :
    ((tegra_auto_hotplug_governor p s cpu_freq false).1.cpq_state =
        CpqState.TEGRA_CPQ_SWITCH_TO_LP ↔
      (cpu_freq ≤ s.idle_top_freq ∧ lp_possible p s = true)) ∧
    (cpu_freq ≤ s.idle_top_freq ∧ lp_possible p s = true →
      (tegra_auto_hotplug_governor p s cpu_freq false).2 =
        [Call.queue_delayed_work s.lp_down_delay]) ∧
    (lp_possible p s = true ↔
      (p.lp_cluster = false ∧ s.no_lp = false ∧ tegra_cpq_min_cpus p s < 2 ∧
        num_online_cpus p = 1)) ∧
    (¬ (cpu_freq ≤ s.idle_top_freq ∧ lp_possible p s = true) →
      ¬ (p.lp_cluster = true ∧ (cpu_freq > s.idle_top_freq ∨ s.no_lp = true)) →
      (tegra_auto_hotplug_governor p s cpu_freq false).1.cpq_state =
          CpqState.TEGRA_CPQ_IDLE ∧
        (tegra_auto_hotplug_governor p s cpu_freq false).2 = []) ∧
    ({} : Cpuquiet).lp_down_delay = 800 := by
  have hexcl : lp_possible p s = true → ¬ (p.lp_cluster = true) := by
    intro h
    simp [((lp_possible_iff p s).1 h).1]
  rw [governor_running p s cpu_freq hen hg]
  refine ⟨?_, ?_, lp_possible_iff p s, ?_, rfl⟩
  · constructor
    · intro h
      by_contra hc
      rw [if_neg hc] at h
      split_ifs at h
    · intro h
      rw [if_neg (fun hc => hexcl h.2 hc.1), if_pos h]
  · intro h
    rw [if_neg (fun hc => hexcl h.2 hc.1), if_pos h]
  · intro h1 h2
    rw [if_neg h2, if_neg h1]
    exact ⟨rfl, rfl⟩

/-- C12: when `tegra_auto_hotplug_governor` is called with `suspend = true`
on an enabled controller, then for every frequency and either cluster the
state afterwards is `IDLE` and no deferred work is queued; and when the state
is `DISABLED` the call changes neither the static variables nor the queue.
The enabled case is stated for the states the code can be in: without a
performance cluster the governor never writes `cpq_state`, which therefore
still holds `IDLE` (see `governor_keeps_inert`). -/
theorem C12_suspend_records_idle (p : Platform) (s : Cpuquiet) :
    (s.cpq_state ≠ CpqState.TEGRA_CPQ_DISABLED →
      (p.g_cluster_present = false → s.cpq_state = CpqState.TEGRA_CPQ_IDLE) →
      ∀ cpu_freq : Nat,
        (tegra_auto_hotplug_governor p s cpu_freq true).1.cpq_state =
            CpqState.TEGRA_CPQ_IDLE ∧
          (tegra_auto_hotplug_governor p s cpu_freq true).2 = []) ∧
    (s.cpq_state = CpqState.TEGRA_CPQ_DISABLED →
      ∀ (cpu_freq : Nat) (suspend : Bool),
        tegra_auto_hotplug_governor p s cpu_freq suspend = (s, [])) := by
  constructor
  · intro hen hinv cpu_freq
    unfold tegra_auto_hotplug_governor
    cases hg : p.g_cluster_present
    · simp [hinv hg]
    · simp [hen]
  · intro hd cpu_freq suspend
    unfold tegra_auto_hotplug_governor
    simp [hd]

theorem governor_keeps_inert (p : Platform) (s : Cpuquiet) (cpu_freq : Nat)
    (suspend : Bool) (hg : p.g_cluster_present = false) :
    tegra_auto_hotplug_governor p s cpu_freq suspend = (s, []) := by
  unfold tegra_auto_hotplug_governor
  simp [hg]

/-- C15: for all local settings and QoS requests, `tegra_cpq_min_cpus()` is
`max(qos_min_cpus, min_cpus)` clamped to `[1, CONFIG_NR_CPUS]` and
`tegra_cpq_max_cpus()` is `min(qos_max_cpus, max_cpus)` clamped to
`[1, CONFIG_NR_CPUS]`; both therefore lie in `[1, CONFIG_NR_CPUS]`. -/
theorem C15_core_bounds (p : Platform) (s : Cpuquiet) :
    tegra_cpq_min_cpus p s =
        min (max (max p.qos_min_online_cpus s.min_cpus) 1) CONFIG_NR_CPUS ∧
    tegra_cpq_max_cpus p s =
        min (max (min p.qos_max_online_cpus s.max_cpus) 1) CONFIG_NR_CPUS ∧
    1 ≤ tegra_cpq_min_cpus p s ∧ tegra_cpq_min_cpus p s ≤ CONFIG_NR_CPUS ∧
    1 ≤ tegra_cpq_max_cpus p s ∧ tegra_cpq_max_cpus p s ≤ CONFIG_NR_CPUS := by
  simp only [tegra_cpq_min_cpus, tegra_cpq_max_cpus, num_cpu_check, CONFIG_NR_CPUS]
  refine ⟨?_, ?_, ?_, ?_, ?_, ?_⟩ <;> split_ifs <;> omega

/-- C16: `best_core_to_turn_up` returns `nr_cpu_ids` exactly when cores 1, 2
and 3 are all online; otherwise it returns a core in 1..3 that is offline and
above which every core up to 3 is online (the highest-numbered offline core);
it never returns core 0. -/
theorem C16_best_core_to_turn_up (p : Platform) :
    (best_core_to_turn_up p = nr_cpu_ids ↔
      (cpu_online p 1 = true ∧ cpu_online p 2 = true ∧ cpu_online p 3 = true)) ∧
    (best_core_to_turn_up p ≠ nr_cpu_ids →
      1 ≤ best_core_to_turn_up p ∧ best_core_to_turn_up p ≤ 3 ∧
      cpu_online p (best_core_to_turn_up p) = false ∧
      ∀ j, best_core_to_turn_up p < j → j ≤ 3 → cpu_online p j = true) ∧
    best_core_to_turn_up p ≠ 0 := by
  unfold best_core_to_turn_up
  simp only [nr_cpu_ids, CONFIG_NR_CPUS]
  cases h3 : cpu_online p 3 <;> cases h2 : cpu_online p 2 <;>
    cases h1 : cpu_online p 1 <;> simp <;>
    refine ⟨by assumption, fun j hj1 hj2 => ?_⟩ <;>
    interval_cases j <;> assumption


theorem cpumask_next_zero_eq (mask : List Bool) :
    cpumask_next 0 mask =
      if mask.getD 1 false = true then 1
      else if mask.getD 2 false = true then 2
      else if mask.getD 3 false = true then 3
      else 4 := by
  unfold cpumask_next
  simp only [nr_cpu_ids, CONFIG_NR_CPUS]
  have hr : List.range 4 = [0, 1, 2, 3] := by decide
  rw [hr]
  simp only [List.getD_eq_getElem?_getD]
  cases h1 : mask[1]?.getD false <;> cases h2 : mask[2]?.getD false <;>
    cases h3 : mask[3]?.getD false <;>
    simp [List.find?, h1, h2, h3]

theorem cpumask_next_zero_spec (mask : List Bool) :
    cpumask_next 0 mask ≤ nr_cpu_ids ∧
    (cpumask_next 0 mask < nr_cpu_ids →
      0 < cpumask_next 0 mask ∧ mask.getD (cpumask_next 0 mask) false = true ∧
      ∀ j, 0 < j → j < cpumask_next 0 mask → mask.getD j false = false) := by
  rw [cpumask_next_zero_eq]
  simp only [nr_cpu_ids, CONFIG_NR_CPUS]
  split_ifs with h1 h2 h3
  · exact ⟨by omega, fun _ => ⟨by omega, h1, fun j hj1 hj2 => by omega⟩⟩
  · refine ⟨by omega, fun _ => ⟨by omega, h2, fun j hj1 hj2 => ?_⟩⟩
    have hj : j = 1 := by omega
    subst hj
    simpa using h1
  · refine ⟨by omega, fun _ => ⟨by omega, h3, fun j hj1 hj2 => ?_⟩⟩
    have hj : j = 1 ∨ j = 2 := by omega
    rcases hj with hj | hj <;> subst hj
    · simpa using h1
    · simpa using h2
  · exact ⟨le_refl _, fun h => absurd h (by omega)⟩

theorem best_core_range (p : Platform) (h : best_core_to_turn_up p < nr_cpu_ids) :
    1 ≤ best_core_to_turn_up p ∧ best_core_to_turn_up p ≤ 3 := by
  unfold best_core_to_turn_up at h ⊢
  simp only [nr_cpu_ids, CONFIG_NR_CPUS] at h ⊢
  split_ifs at h ⊢ <;> omega

theorem min_max_loop_targets (ok : Nat → Nat → Bool) (up : Bool) :
    ∀ (count : Nat) (p : Platform) (cs : List Call),
      (∀ c ∈ cs, ∀ n, hotplug_target c = some n → 1 ≤ n ∧ n ≤ 3) →
      ∀ c ∈ (min_max_loop ok up count p cs).2,
        ∀ n, hotplug_target c = some n → 1 ≤ n ∧ n ≤ 3 := by
  intro count
  induction count with
  | zero =>
    intro p cs hcs
    simpa [min_max_loop] using hcs
  | succ count ih =>
    intro p cs hcs
    unfold min_max_loop
    cases up
    · simp only [Bool.false_eq_true, if_false]
      by_cases hlt : cpumask_next 0 p.online < nr_cpu_ids
      · rw [if_pos hlt]
        apply ih
        intro c hc n hn
        rcases List.mem_append.1 hc with h | h
        · exact hcs c h n hn
        · have hce : c = Call.cpu_down (cpumask_next 0 p.online) := by simpa using h
          subst hce
          simp only [hotplug_target, Option.some.injEq] at hn
          have hs := (cpumask_next_zero_spec p.online).2 hlt
          simp only [nr_cpu_ids, CONFIG_NR_CPUS] at hlt
          omega
      · rw [if_neg hlt]
        exact hcs
    · simp only [if_true]
      by_cases hlt : best_core_to_turn_up p < nr_cpu_ids
      · rw [if_pos hlt]
        apply ih
        intro c hc n hn
        rcases List.mem_append.1 hc with h | h
        · exact hcs c h n hn
        · have hce : c = Call.cpu_up (best_core_to_turn_up p) := by simpa using h
          subst hce
          simp only [hotplug_target, Option.some.injEq] at hn
          have hs := best_core_range p hlt
          omega
      · rw [if_neg hlt]
        exact hcs

theorem slowest_fold_nonzero (p : Platform) (tcs : List Nat) :
    ∀ (l : List Nat) (acc : Nat × Nat), acc.1 ≠ 0 →
      (l.foldl
        (fun (acc : Nat × Nat) (i : Nat) =>
          if cpu_online p i then
            if decide (i > 0) && decide (acc.2 > tcs.getD i 0) then
              (i, tcs.getD i 0)
            else acc
          else acc) acc).1 ≠ 0 := by
  intro l
  induction l with
  | nil => intro acc h; simpa using h
  | cons i l ih =>
    intro acc h
    simp only [List.foldl_cons]
    apply ih
    split_ifs with h1 h2
    · simp only [Bool.and_eq_true, decide_eq_true_eq] at h2
      simp only
      omega
    · exact h
    · exact h

theorem switch_clk_to_gmode_no_hotplug (p : Platform) (s : Cpuquiet) :
    ∀ c ∈ switch_clk_to_gmode p s, hotplug_target c = none := by
  intro c hc
  unfold switch_clk_to_gmode at hc
  split_ifs at hc
  · simp only [List.cons_append, List.nil_append, List.mem_cons, List.mem_singleton,
      List.not_mem_nil, or_false] at hc
    rcases hc with h | h <;> subst h <;> rfl
  · simp only [List.nil_append, List.mem_singleton] at hc
    subst hc
    rfl

theorem force_gmode_no_hotplug (clk_ret : Int) (p : Platform) (s : Cpuquiet) :
    ∀ c ∈ (tegra_cpuquiet_force_gmode clk_ret p s).2.2, hotplug_target c = none := by
  intro c hc
  unfold tegra_cpuquiet_force_gmode at hc
  split_ifs at hc <;> first
    | exact switch_clk_to_gmode_no_hotplug p s c hc
    | simp at hc

theorem cpu_core_state_body_targets (ok : Nat → Bool) (clk_ret : Nat → Int)
    (s : Cpuquiet) (acc : Platform × List Call) (i : Nat) (hi : i ≤ 2)
    (hacc : ∀ c ∈ acc.2, ∀ n, hotplug_target c = some n → 1 ≤ n ∧ n ≤ 3) :
    ∀ c ∈ (cpu_core_state_body ok clk_ret s acc i).2,
      ∀ n, hotplug_target c = some n → 1 ≤ n ∧ n ≤ 3 := by
  intro c hc n hn
  unfold cpu_core_state_body at hc
  simp only at hc
  split_ifs at hc
  · rcases List.mem_append.1 hc with h | h
    · exact hacc c h n hn
    · have hce : c = Call.cpu_down (i + 1) := by simpa using h
      subst hce
      simp only [hotplug_target, Option.some.injEq] at hn
      omega
  · simp only [List.append_assoc, List.mem_append] at hc
    rcases hc with h | h | h
    · exact hacc c h n hn
    · have := force_gmode_no_hotplug _ _ _ c h
      rw [this] at hn
      exact absurd hn (by simp)
    · have hce : c = Call.cpu_up (i + 1) := by simpa using h
      subst hce
      simp only [hotplug_target, Option.some.injEq] at hn
      omega
  · simp only [List.append_assoc, List.mem_append] at hc
    rcases hc with h | h | h
    · exact hacc c h n hn
    · simp at h
    · have hce : c = Call.cpu_up (i + 1) := by simpa using h
      subst hce
      simp only [hotplug_target, Option.some.injEq] at hn
      omega
  · exact hacc c hc n hn

/-- C17: core 0 is never selected for offlining.  A reducing iteration of
`min_max_constraints_workfunc` calls `cpu_down` on `cpumask_next(0, online)`,
the lowest-numbered online core with id above 0, and every hotplug call of
that function names a core in 1..3; `tegra_get_slowest_cpu_n` never returns
0, for every online mask and all target speeds; and every hotplug call of
`cpu_core_state_workfunc` names a core in 1..3. -/
theorem C17_core_zero_stays (p : Platform) (s : Cpuquiet) :
    (∀ (ok : Nat → Nat → Bool) (count : Nat) (cs : List Call),
      cpumask_next 0 p.online < nr_cpu_ids →
      min_max_loop ok false (count + 1) p cs =
        min_max_loop ok false count
          (hotplugged p (cpumask_next 0 p.online) false
            (ok (count + 1) (cpumask_next 0 p.online)))
          (cs ++ [Call.cpu_down (cpumask_next 0 p.online)]) ∧
      0 < cpumask_next 0 p.online ∧
      cpu_online p (cpumask_next 0 p.online) = true ∧
      ∀ j, 0 < j → j < cpumask_next 0 p.online → cpu_online p j = false) ∧
    (∀ (ok : Nat → Nat → Bool),
      ∀ c ∈ (min_max_constraints_workfunc ok p s).2,
        ∀ n, hotplug_target c = some n → 1 ≤ n ∧ n ≤ 3) ∧
    (∀ target_cpu_speed : List Nat,
      tegra_get_slowest_cpu_n p target_cpu_speed ≠ 0) ∧
    (∀ (ok : Nat → Bool) (clk_ret : Nat → Int),
      ∀ c ∈ (cpu_core_state_workfunc ok clk_ret p s).2,
        ∀ n, hotplug_target c = some n → 1 ≤ n ∧ n ≤ 3) := by
  refine ⟨?_, ?_, ?_, ?_⟩
  · intro ok count cs hlt
    refine ⟨?_, (cpumask_next_zero_spec p.online).2 hlt⟩
    conv_lhs => unfold min_max_loop
    simp [hlt]
  · intro ok
    unfold min_max_constraints_workfunc
    simp only
    split_ifs <;> first
      | exact min_max_loop_targets ok _ _ p [] (by simp)
      | simp
  · intro tcs
    unfold tegra_get_slowest_cpu_n
    exact slowest_fold_nonzero p tcs _ _ (by decide)
  · intro ok clk_ret
    unfold cpu_core_state_workfunc
    simp only [List.foldl_cons, List.foldl_nil]
    apply cpu_core_state_body_targets _ _ _ _ 2 (by omega)
    apply cpu_core_state_body_targets _ _ _ _ 1 (by omega)
    apply cpu_core_state_body_targets _ _ _ _ 0 (by omega)
    simp


theorem min_max_workfunc_eq (ok : Nat → Nat → Bool) (g lp : Bool) (online : List Bool)
    (q1 q2 r : Nat) (s : Cpuquiet) (m M : Nat)
    (hm : tegra_cpq_min_cpus ⟨g, lp, online, q1, q2, r⟩ s = m)
    (hM : tegra_cpq_max_cpus ⟨g, lp, online, q1, q2, r⟩ s = M)
    (hen : s.cpq_state ≠ CpqState.TEGRA_CPQ_DISABLED) (hlp : lp = false) :
    min_max_constraints_workfunc ok ⟨g, lp, online, q1, q2, r⟩ s =
      min_max_loop ok
        (if ((online.count true : Nat) : Int) < (m : Int) then true else false)
        (if ((online.count true : Nat) : Int) < (m : Int) then
            (m : Int) - (online.count true : Nat)
          else if ((online.count true : Nat) : Int) > (M : Int) ∧ (M : Int) ≥ (m : Int) then
            ((online.count true : Nat) : Int) - (M : Int)
          else -1).toNat
        ⟨g, lp, online, q1, q2, r⟩ [] := by
  subst hlp hm hM
  unfold min_max_constraints_workfunc
  simp only [hen, num_online_cpus, if_false, Bool.false_eq_true]
  split_ifs <;> rfl

/-- C14: core-count invariant.  When the controller is enabled, the CPU is on
the performance cluster, `tegra_cpq_min_cpus() ≤ tegra_cpq_max_cpus()`, every
`cpu_up`/`cpu_down` succeeds and core 0 is online in the four-core mask, the
number of online cores after `min_max_constraints_workfunc` lies within
`[tegra_cpq_min_cpus(), tegra_cpq_max_cpus()]`. -/
theorem C14_core_count_invariant (ok : Nat → Nat → Bool) (p : Platform)
    (s : Cpuquiet)
    (hen : s.cpq_state ≠ CpqState.TEGRA_CPQ_DISABLED)
    (hg : p.lp_cluster = false)
    (hlen : p.online.length = nr_cpu_ids)
    (h0 : cpu_online p 0 = true)
    (hmM : tegra_cpq_min_cpus p s ≤ tegra_cpq_max_cpus p s)
    (hok : ∀ count cpu, ok count cpu = true) :
    tegra_cpq_min_cpus p s ≤
        num_online_cpus (min_max_constraints_workfunc ok p s).1 ∧
    num_online_cpus (min_max_constraints_workfunc ok p s).1 ≤
        tegra_cpq_max_cpus p s := by
  obtain ⟨g, lp, online, q1, q2, r⟩ := p
  have hb := C15_core_bounds ⟨g, lp, online, q1, q2, r⟩ s
  simp only [CONFIG_NR_CPUS] at hb
  obtain ⟨-, -, hm1, hm4, hM1, hM4⟩ := hb
  simp only at hg hlen
  rw [min_max_workfunc_eq ok g lp online q1 q2 r s _ _ rfl rfl hen hg]
  generalize tegra_cpq_min_cpus ⟨g, lp, online, q1, q2, r⟩ s = m at *
  generalize tegra_cpq_max_cpus ⟨g, lp, online, q1, q2, r⟩ s = M at *
  simp only [nr_cpu_ids, CONFIG_NR_CPUS] at hlen
  match online, hlen, h0 with
  | [a, b, c, d], _, h0 =>
    simp only [cpu_online, List.getD_cons_zero] at h0
    subst h0
    have hmc : m = 1 ∨ m = 2 ∨ m = 3 ∨ m = 4 := by omega
    have hMc : M = 1 ∨ M = 2 ∨ M = 3 ∨ M = 4 := by omega
    rcases hmc with rfl | rfl | rfl | rfl <;>
      rcases hMc with rfl | rfl | rfl | rfl <;>
      first
        | omega
        | (cases b <;> cases c <;> cases d <;>
            simp [min_max_loop, best_core_to_turn_up, cpu_online, hotplugged, hok,
              num_online_cpus, nr_cpu_ids, CONFIG_NR_CPUS, cpumask_next_zero_eq])


/-- C18, as stated, fails: in manual hotplug mode a write of the out-of-range
value 9 to `min_cpus` is rejected with `-EINVAL`, not `-EBUSY`, because the
range check comes first. -/
theorem C18_counterexample :
    ({ manual_hotplug := true } : Cpuquiet).manual_hotplug = true ∧
    (store_min_cpus { clk_set_parent_ret := 0, speed_cap := SpeedCapPath.returns_early }
      { g_cluster_present := true, lp_cluster := false,
        online := [true, false, false, false], qos_min_online_cpus := 0,
        qos_max_online_cpus := 4, cpu_clk_rate := 204000000 }
      { manual_hotplug := true } (some 9) 2).1 = -EINVAL ∧
    (store_min_cpus { clk_set_parent_ret := 0, speed_cap := SpeedCapPath.returns_early }
      { g_cluster_present := true, lp_cluster := false,
        online := [true, false, false, false], qos_min_online_cpus := 0,
        qos_max_online_cpus := 4, cpu_clk_rate := 204000000 }
      { manual_hotplug := true } (some 9) 2).1 ≠ -EBUSY := by
  decide

/-- C18, amended: while manual hotplug mode is enabled, `min_cpus_notify` and
`max_cpus_notify` return without any call or change for every notified value,
and `store_min_cpus`/`store_max_cpus` leave all static variables unchanged,
make no call, and fail with `-EBUSY` for a well-formed value in
`1..CONFIG_NR_CPUS` and with `-EINVAL` for any other input. -/
theorem C18_manual_mode_suspends_controller (p : Platform) (s : Cpuquiet)
    (hman : s.manual_hotplug = true) :
    (∀ (o : ChangeOracle) (n : Nat), min_cpus_notify o p s n = (NOTIFY_OK, s, [])) ∧
    (∀ n : Nat, max_cpus_notify p s n = (NOTIFY_OK, s, [])) ∧
    (∀ (o : ChangeOracle) (parsed : Option Nat) (count : Nat),
      store_min_cpus o p s parsed count =
        ((if ∃ n, parsed = some n ∧ 1 ≤ n ∧ n ≤ CONFIG_NR_CPUS then -EBUSY
          else -EINVAL), s, [])) ∧
    (∀ (parsed : Option Nat) (count : Nat),
      store_max_cpus p s parsed count =
        ((if ∃ n, parsed = some n ∧ 1 ≤ n ∧ n ≤ CONFIG_NR_CPUS then -EBUSY
          else -EINVAL), s, [])) := by
  refine ⟨?_, ?_, ?_, ?_⟩
  · intro o n
    unfold min_cpus_notify
    split_ifs <;> rfl
  · intro n
    unfold max_cpus_notify
    split_ifs <;> rfl
  · intro o parsed count
    cases parsed with
    | none => simp [store_min_cpus]
    | some n =>
      unfold store_min_cpus
      simp only
      by_cases hn : n < 1 ∨ n > CONFIG_NR_CPUS
      · rw [if_pos hn, if_neg]
        rintro ⟨m, hm, h1, h2⟩
        cases hm
        omega
      · rw [if_neg hn, if_pos hman, if_pos]
        exact ⟨n, rfl, by omega, by omega⟩
  · intro parsed count
    cases parsed with
    | none => simp [store_max_cpus]
    | some n =>
      unfold store_max_cpus
      simp only
      by_cases hn : n < 1 ∨ n > CONFIG_NR_CPUS
      · rw [if_pos hn, if_neg]
        rintro ⟨m, hm, h1, h2⟩
        cases hm
        omega
      · rw [if_neg hn, if_pos hman, if_pos]
        exact ⟨n, rfl, by omega, by omega⟩

theorem governor_calls_form (p : Platform) (s : Cpuquiet) (cpu_freq : Nat)
    (suspend : Bool) :
    ∀ c ∈ (tegra_auto_hotplug_governor p s cpu_freq suspend).2,
      ∃ d, c = Call.queue_delayed_work d := by
  intro c hc
  rcases governor_cases p s cpu_freq suspend with h | h | h | ⟨_, h⟩ <;>
    rw [h] at hc <;> simp at hc <;> exact ⟨_, hc⟩

theorem speed_cap_call_no_parent (path : SpeedCapPath) (p : Platform)
    (s : Cpuquiet) :
    Call.clk_set_parent_g ∉ (speed_cap_call path p s).2 ∧
    Call.clk_set_parent_lp ∉ (speed_cap_call path p s).2 := by
  cases path with
  | returns_early => simp [speed_cap_call]
  | calls_governor f =>
    simp only [speed_cap_call, List.mem_cons, not_or]
    refine ⟨⟨by simp, fun h => ?_⟩, ⟨by simp, fun h => ?_⟩⟩
    · obtain ⟨d, hd⟩ := governor_calls_form p s f false _ h
      exact absurd hd (by simp)
    · obtain ⟨d, hd⟩ := governor_calls_form p s f false _ h
      exact absurd hd (by simp)

theorem switch_clk_to_gmode_no_lp (p : Platform) (s : Cpuquiet) :
    Call.clk_set_parent_lp ∉ switch_clk_to_gmode p s := by
  unfold switch_clk_to_gmode
  split_ifs <;> simp

/-- C13, as stated, fails: with one core online on the performance cluster and
state `SWITCH_TO_LP`, the worker switches to the low-power clock and then calls
`tegra_cpu_set_speed_cap(NULL)`; when that call applies a new speed of
204000 kHz it runs `tegra_auto_hotplug_governor`, which leaves `cpq_state` at
`IDLE`. -/
theorem C13_counterexample :
    ({ cpq_state := CpqState.TEGRA_CPQ_SWITCH_TO_LP } : Cpuquiet).cpq_state =
      CpqState.TEGRA_CPQ_SWITCH_TO_LP ∧
    (tegra_cpuquiet_work_func
      { trylock := true, clk_set_parent_ret := 0, now_ms := 1000,
        speed_cap := SpeedCapPath.calls_governor 204000 }
      { g_cluster_present := true, lp_cluster := false,
        online := [true, false, false, false], qos_min_online_cpus := 0,
        qos_max_online_cpus := 4, cpu_clk_rate := 340000000 }
      { cpq_state := CpqState.TEGRA_CPQ_SWITCH_TO_LP }).1.cpq_state =
      CpqState.TEGRA_CPQ_IDLE := by
  decide

/-- C13, amended: `tegra_cpuquiet_work_func` calls
`clk_set_parent(cpu_clk, cpu_g_clk)` only in state `SWITCH_TO_G` with the CPU
still on the low-power cluster, and `clk_set_parent(cpu_clk, cpu_lp_clk)` only
in state `SWITCH_TO_LP` with `lp_possible()` true at execution time; in `IDLE`
or `DISABLED` it does nothing; and `cpq_state` is unchanged on every path
except after a successful clock switch whose nested
`tegra_cpu_set_speed_cap(NULL)` reaches `tegra_auto_hotplug_governor`. -/
theorem C13_worker_revalidates (o : WorkOracle) (p : Platform) (s : Cpuquiet) :
    (Call.clk_set_parent_g ∈ (tegra_cpuquiet_work_func o p s).2 →
      s.cpq_state = CpqState.TEGRA_CPQ_SWITCH_TO_G ∧ p.lp_cluster = true) ∧
    (Call.clk_set_parent_lp ∈ (tegra_cpuquiet_work_func o p s).2 →
      s.cpq_state = CpqState.TEGRA_CPQ_SWITCH_TO_LP ∧ lp_possible p s = true) ∧
    (s.cpq_state = CpqState.TEGRA_CPQ_IDLE ∨
        s.cpq_state = CpqState.TEGRA_CPQ_DISABLED →
      tegra_cpuquiet_work_func o p s = (s, [])) ∧
    ((tegra_cpuquiet_work_func o p s).1.cpq_state ≠ s.cpq_state →
      o.trylock = true ∧ o.clk_set_parent_ret = 0 ∧
      (Call.clk_set_parent_g ∈ (tegra_cpuquiet_work_func o p s).2 ∨
        Call.clk_set_parent_lp ∈ (tegra_cpuquiet_work_func o p s).2) ∧
      ∃ new_speed, o.speed_cap = SpeedCapPath.calls_governor new_speed) := by
  have hsc : ∀ (q : Platform),
      (speed_cap_call o.speed_cap q s).1.cpq_state ≠ s.cpq_state →
      ∃ new_speed, o.speed_cap = SpeedCapPath.calls_governor new_speed := by
    intro q hq
    cases hp : o.speed_cap with
    | returns_early =>
      rw [hp] at hq
      exact absurd rfl hq
    | calls_governor f => exact ⟨f, rfl⟩
  unfold tegra_cpuquiet_work_func
  cases ht : o.trylock
  · simp
  · simp only [Bool.not_true, Bool.false_eq_true, if_false]
    cases hst : s.cpq_state with
    | TEGRA_CPQ_DISABLED => simp [hst]
    | TEGRA_CPQ_IDLE => simp [hst]
    | TEGRA_CPQ_SWITCH_TO_G =>
      simp only
      cases hl : p.lp_cluster
      · simp [hst]
      · simp only [if_true]
        by_cases hr : o.clk_set_parent_ret = 0
        · simp only [hr, if_true]
          have h1 := speed_cap_call_no_parent o.speed_cap { p with lp_cluster := false } s
          refine ⟨fun _ => ⟨trivial, trivial⟩, ?_, by simp, ?_⟩
          · intro h
            rcases List.mem_append.1 h with h | h
            · exact absurd h (switch_clk_to_gmode_no_lp p s)
            · exact absurd h h1.2
          · intro h
            rw [← hst] at h
            refine ⟨trivial, trivial, Or.inl ?_, hsc _ h⟩
            simp [switch_clk_to_gmode]
        · simp only [hr, if_false]
          refine ⟨fun _ => ⟨trivial, trivial⟩, ?_, by simp, ?_⟩
          · intro h
            exact absurd h (switch_clk_to_gmode_no_lp p s)
          · intro h
            exact absurd hst h
    | TEGRA_CPQ_SWITCH_TO_LP =>
      simp only
      cases hq : lp_possible p s
      · simp [hst]
      · simp only [if_true]
        by_cases hr : o.clk_set_parent_ret = 0
        · simp only [hr, if_true]
          have h1 := speed_cap_call_no_parent o.speed_cap { p with lp_cluster := true } s
          refine ⟨?_, fun _ => ⟨trivial, trivial⟩, by simp, ?_⟩
          · intro h
            rcases List.mem_append.1 h with h | h
            · simp [switch_clk_to_lpmode] at h
            · exact absurd h h1.1
          · intro h
            rw [← hst] at h
            refine ⟨trivial, trivial, Or.inr ?_, hsc _ h⟩
            simp [switch_clk_to_lpmode]
        · simp only [hr, if_false]
          refine ⟨?_, fun _ => ⟨trivial, trivial⟩, by simp, ?_⟩
          · intro h
            simp [switch_clk_to_lpmode] at h
          · intro h
            exact absurd hst h

/-- Witness of C11: one core online on the performance cluster, one core
required, request 200000 kHz: `SWITCH_TO_LP`, queued with 800 ms. -/
theorem C11_switch_to_low_power_witness :
    ({} : Cpuquiet).cpq_state ≠ CpqState.TEGRA_CPQ_DISABLED ∧
    (tegra_auto_hotplug_governor
      { g_cluster_present := true, lp_cluster := false,
        online := [true, false, false, false], qos_min_online_cpus := 0,
        qos_max_online_cpus := 4, cpu_clk_rate := 340000000 }
      {} 200000 false).1.cpq_state = CpqState.TEGRA_CPQ_SWITCH_TO_LP ∧
    (tegra_auto_hotplug_governor
      { g_cluster_present := true, lp_cluster := false,
        online := [true, false, false, false], qos_min_online_cpus := 0,
        qos_max_online_cpus := 4, cpu_clk_rate := 340000000 }
      {} 200000 false).2 = [Call.queue_delayed_work 800] :=
  ⟨by decide,
   (C11_switch_to_low_power
      { g_cluster_present := true, lp_cluster := false,
        online := [true, false, false, false], qos_min_online_cpus := 0,
        qos_max_online_cpus := 4, cpu_clk_rate := 340000000 }
      {} 200000 (by decide) rfl).1.2 (by decide),
   (C11_switch_to_low_power
      { g_cluster_present := true, lp_cluster := false,
        online := [true, false, false, false], qos_min_online_cpus := 0,
        qos_max_online_cpus := 4, cpu_clk_rate := 340000000 }
      {} 200000 (by decide) rfl).2.1 (by decide)⟩

/-- Witness of C12: on the low-power cluster in state `SWITCH_TO_G`, a call
with `suspend = true` at 1000000 kHz leaves `IDLE` and queues nothing. -/
theorem C12_suspend_records_idle_witness :
    ({ cpq_state := CpqState.TEGRA_CPQ_SWITCH_TO_G } : Cpuquiet).cpq_state ≠
      CpqState.TEGRA_CPQ_DISABLED ∧
    (tegra_auto_hotplug_governor
      { g_cluster_present := true, lp_cluster := true,
        online := [true, false, false, false], qos_min_online_cpus := 0,
        qos_max_online_cpus := 4, cpu_clk_rate := 340000000 }
      { cpq_state := CpqState.TEGRA_CPQ_SWITCH_TO_G } 1000000 true).1.cpq_state =
      CpqState.TEGRA_CPQ_IDLE ∧
    (tegra_auto_hotplug_governor
      { g_cluster_present := true, lp_cluster := true,
        online := [true, false, false, false], qos_min_online_cpus := 0,
        qos_max_online_cpus := 4, cpu_clk_rate := 340000000 }
      { cpq_state := CpqState.TEGRA_CPQ_SWITCH_TO_G } 1000000 true).2 = [] :=
  ⟨by decide,
   (C12_suspend_records_idle
      { g_cluster_present := true, lp_cluster := true,
        online := [true, false, false, false], qos_min_online_cpus := 0,
        qos_max_online_cpus := 4, cpu_clk_rate := 340000000 }
      { cpq_state := CpqState.TEGRA_CPQ_SWITCH_TO_G }).1 (by decide)
      (fun h => absurd h (by decide)) 1000000⟩

/-- Witness of C13: a failed switch to the low-power clock in state
`SWITCH_TO_LP` is made after re-validation and leaves `cpq_state`. -/
theorem C13_worker_revalidates_witness :
    Call.clk_set_parent_lp ∈
      (tegra_cpuquiet_work_func
        { trylock := true, clk_set_parent_ret := -22, now_ms := 1000,
          speed_cap := SpeedCapPath.returns_early }
        { g_cluster_present := true, lp_cluster := false,
          online := [true, false, false, false], qos_min_online_cpus := 0,
          qos_max_online_cpus := 4, cpu_clk_rate := 340000000 }
        { cpq_state := CpqState.TEGRA_CPQ_SWITCH_TO_LP }).2 ∧
    lp_possible
      { g_cluster_present := true, lp_cluster := false,
        online := [true, false, false, false], qos_min_online_cpus := 0,
        qos_max_online_cpus := 4, cpu_clk_rate := 340000000 }
      { cpq_state := CpqState.TEGRA_CPQ_SWITCH_TO_LP } = true :=
  ⟨by decide,
   ((C13_worker_revalidates
      { trylock := true, clk_set_parent_ret := -22, now_ms := 1000,
        speed_cap := SpeedCapPath.returns_early }
      { g_cluster_present := true, lp_cluster := false,
        online := [true, false, false, false], qos_min_online_cpus := 0,
        qos_max_online_cpus := 4, cpu_clk_rate := 340000000 }
      { cpq_state := CpqState.TEGRA_CPQ_SWITCH_TO_LP }).2.1 (by decide)).2⟩

/-- Witness of C14: one core online and three required; the worker brings
cores 3 and 2 up. -/
theorem C14_core_count_invariant_witness :
    tegra_cpq_min_cpus
        { g_cluster_present := true, lp_cluster := false,
          online := [true, false, false, false], qos_min_online_cpus := 0,
          qos_max_online_cpus := 4, cpu_clk_rate := 340000000 }
        { min_cpus := 3 } ≤
      num_online_cpus
        (min_max_constraints_workfunc (fun _ _ => true)
          { g_cluster_present := true, lp_cluster := false,
            online := [true, false, false, false], qos_min_online_cpus := 0,
            qos_max_online_cpus := 4, cpu_clk_rate := 340000000 }
          { min_cpus := 3 }).1 ∧
    num_online_cpus
        (min_max_constraints_workfunc (fun _ _ => true)
          { g_cluster_present := true, lp_cluster := false,
            online := [true, false, false, false], qos_min_online_cpus := 0,
            qos_max_online_cpus := 4, cpu_clk_rate := 340000000 }
          { min_cpus := 3 }).1 ≤
      tegra_cpq_max_cpus
        { g_cluster_present := true, lp_cluster := false,
          online := [true, false, false, false], qos_min_online_cpus := 0,
          qos_max_online_cpus := 4, cpu_clk_rate := 340000000 }
        { min_cpus := 3 } :=
  C14_core_count_invariant (fun _ _ => true)
    { g_cluster_present := true, lp_cluster := false,
      online := [true, false, false, false], qos_min_online_cpus := 0,
      qos_max_online_cpus := 4, cpu_clk_rate := 340000000 }
    { min_cpus := 3 } (by decide) rfl rfl rfl (by decide) (fun _ _ => rfl)

/-- Witness of C16: with cores 0 and 3 online the core to turn up is 2. -/
theorem C16_best_core_to_turn_up_witness :
    best_core_to_turn_up
      { g_cluster_present := true, lp_cluster := false,
        online := [true, false, false, true], qos_min_online_cpus := 0,
        qos_max_online_cpus := 4, cpu_clk_rate := 340000000 } = 2 ∧
    cpu_online
      { g_cluster_present := true, lp_cluster := false,
        online := [true, false, false, true], qos_min_online_cpus := 0,
        qos_max_online_cpus := 4, cpu_clk_rate := 340000000 }
      (best_core_to_turn_up
        { g_cluster_present := true, lp_cluster := false,
          online := [true, false, false, true], qos_min_online_cpus := 0,
          qos_max_online_cpus := 4, cpu_clk_rate := 340000000 }) = false :=
  ⟨by decide,
   ((C16_best_core_to_turn_up
      { g_cluster_present := true, lp_cluster := false,
        online := [true, false, false, true], qos_min_online_cpus := 0,
        qos_max_online_cpus := 4, cpu_clk_rate := 340000000 }).2.1
      (by decide)).2.2.1⟩

/-- Witness of C17: with cores 0, 2 and 3 online the core offlined first is
core 2. -/
theorem C17_core_zero_stays_witness :
    cpumask_next 0 [true, false, true, true] = 2 ∧
    0 < cpumask_next 0
      ({ g_cluster_present := true, lp_cluster := false,
         online := [true, false, true, true], qos_min_online_cpus := 0,
         qos_max_online_cpus := 4, cpu_clk_rate := 340000000 } : Platform).online :=
  ⟨by decide,
   ((C17_core_zero_stays
      { g_cluster_present := true, lp_cluster := false,
        online := [true, false, true, true], qos_min_online_cpus := 0,
        qos_max_online_cpus := 4, cpu_clk_rate := 340000000 }
      {}).1 (fun _ _ => true) 0 [] (by decide)).2.1⟩

/-- Witness of the amended C18: in manual mode a write of 2 to `min_cpus`
fails with `-EBUSY`. -/
theorem C18_manual_mode_suspends_controller_witness :
    ({ manual_hotplug := true } : Cpuquiet).manual_hotplug = true ∧
    store_min_cpus { clk_set_parent_ret := 0, speed_cap := SpeedCapPath.returns_early }
      { g_cluster_present := true, lp_cluster := false,
        online := [true, false, false, false], qos_min_online_cpus := 0,
        qos_max_online_cpus := 4, cpu_clk_rate := 204000000 }
      { manual_hotplug := true } (some 2) 2 =
      (-EBUSY, { manual_hotplug := true }, []) :=
  ⟨rfl,
   ((C18_manual_mode_suspends_controller
      { g_cluster_present := true, lp_cluster := false,
        online := [true, false, false, false], qos_min_online_cpus := 0,
        qos_max_online_cpus := 4, cpu_clk_rate := 204000000 }
      { manual_hotplug := true } rfl).2.2.1
      { clk_set_parent_ret := 0, speed_cap := SpeedCapPath.returns_early }
      (some 2) 2).trans (by decide)⟩

/-! ## Theorems: the best-trade bargainer -/

/-- For clock readings below 2^63 the wrapping comparison `time_before64` is
the plain order. -/
theorem time_before64_eq_lt (a b : Nat) (ha : a < 9223372036854775808)
    (hb : b < 9223372036854775808) : time_before64 a b = decide (a < b) := by
  unfold time_before64 time_after64 s64
  congr 1
  apply propext
  constructor <;> intro h <;> omega

/-- The admission flag holds 0 or 1 after either `atomic_cmpxchg` the program
applies to it, if it did before. -/
theorem atomic_cmpxchg_flag (v : Int) (h : v = 0 ∨ v = 1) :
    (atomic_cmpxchg v 0 1 = 0 ∨ atomic_cmpxchg v 0 1 = 1) ∧
    atomic_cmpxchg v 1 0 = 0 := by
  unfold atomic_cmpxchg
  rcases h with h | h <;> simp [h]

/-- The overclock step writes neither `kicking` nor `last_hotplug_time`. -/
theorem resolve_perf_low_by_oc_frame (e : bthp_env) (k : bthp_kicker)
    (params : bthp_params) (oc_speed : Nat) :
    (resolve_perf_low_by_oc e k params oc_speed).2.1.kicking = k.kicking ∧
    (resolve_perf_low_by_oc e k params oc_speed).2.1.last_hotplug_time =
      k.last_hotplug_time := by
  unfold resolve_perf_low_by_oc
  simp only
  split_ifs <;> exact ⟨rfl, rfl⟩

/-- The overclock test writes neither `kicking` nor `last_hotplug_time`. -/
theorem bargain_oc_frame (e : bthp_env) (st : bthp_state) (params : bthp_params)
    (next_speed : Nat) :
    (bargain_oc e st params next_speed).2.1.kicking = st.kicker.kicking ∧
    (bargain_oc e st params next_speed).2.1.last_hotplug_time =
      st.kicker.last_hotplug_time := by
  unfold bargain_oc
  split_ifs
  · exact resolve_perf_low_by_oc_frame e st.kicker params next_speed
  · exact ⟨rfl, rfl⟩

/-- The opportunistic core-down of `nothing_bargain` ends in the
`atomic_cmpxchg` of `exit_bargain`. -/
theorem nothing_bargain_down_kicking (e : bthp_env) (st : bthp_state)
    (params : bthp_params) (next_speed : Nat) (calls : List BthpCall) :
    (nothing_bargain_down e st params next_speed calls).state.kicker.kicking =
      atomic_cmpxchg st.kicker.kicking 1 0 := by
  unfold nothing_bargain_down
  simp only
  split_ifs <;> rfl

/-- The label `nothing_bargain` ends in the `atomic_cmpxchg` of
`exit_bargain`. -/
theorem nothing_bargain_kicking (e : bthp_env) (st : bthp_state)
    (params : bthp_params) (prefer : Int) (next_speed scaled_speed : Nat)
    (calls : List BthpCall) :
    (nothing_bargain e st params prefer next_speed scaled_speed
      calls).state.kicker.kicking = atomic_cmpxchg st.kicker.kicking 1 0 := by
  have hr := (bargain_oc_frame e st params next_speed).1
  unfold nothing_bargain
  simp only
  split_ifs
  · simp only [exit_bargain, hr]
  · rw [nothing_bargain_down_kicking]
    simp only [hr]
  · rfl

/-- The vote-scaling step ends in the `atomic_cmpxchg` of `exit_bargain`. -/
theorem bargain_votes_kicking (e : bthp_env) (st : bthp_state)
    (params : bthp_params) (prefer : Int) (next_speed : Nat)
    (calls : List BthpCall) :
    (bargain_votes e st params prefer next_speed calls).state.kicker.kicking =
      atomic_cmpxchg st.kicker.kicking 1 0 := by
  unfold bargain_votes
  simp only
  split_ifs <;> rw [nothing_bargain_kicking]

/-- The hotplug step, whether the actuator is called, fails or succeeds, ends
in the `atomic_cmpxchg` of `exit_bargain`. -/
theorem bargain_hotplug_kicking (e : bthp_env) (st : bthp_state)
    (params : bthp_params) (prefer : Int) (next_speed : Nat) :
    (bargain_hotplug e st params prefer next_speed).state.kicker.kicking =
      atomic_cmpxchg st.kicker.kicking 1 0 := by
  unfold bargain_hotplug
  simp only
  split_ifs
  · rfl
  · rw [bargain_votes_kicking]
    rfl
  · rw [bargain_votes_kicking]

/-- The relaxation of the debounce does not write `kicking`. -/
theorem bargain_relax_kicking (e : bthp_env) (st : bthp_state) :
    (bargain_relax e st).kicker.kicking = st.kicker.kicking := by
  unfold bargain_relax
  split_ifs <;> rfl

/-- Every path of `_do_trade_bargain` applies `atomic_cmpxchg(&kicking, 1, 0)`
once to the flag it found and writes the flag nowhere else. -/
theorem do_trade_bargain_kicking (e : bthp_env) (st : bthp_state)
    (prev_speed next_speed : Nat) (prefer : Int) :
    (_do_trade_bargain e st prev_speed next_speed prefer).state.kicker.kicking =
      atomic_cmpxchg st.kicker.kicking 1 0 := by
  unfold _do_trade_bargain
  split_ifs
  · rfl
  · rfl
  · rw [nothing_bargain_kicking]
  · unfold bargain_trade
    rw [bargain_hotplug_kicking, bargain_relax_kicking]

/-- A call that passes the catch-up test and is stopped by the test of
cpu-tegra.c:1762 goes straight to `exit_bargain` with `next_speed`. -/
theorem do_trade_bargain_debounce (e : bthp_env) (st : bthp_state)
    (prev_speed next_speed : Nat) (prefer : Int)
    (hmin : ¬ s32 (num_online_cpus e.platform) < pm_qos_min_online_cpus e)
    (hgate : e.can_do_bthp = false ∨
      (st.kicker.last_hotplug_time ≠ 0 ∧
        time_before64 st.kicker.last_kick_time
          (u64 (st.kicker.last_hotplug_time +
            min e.tun.bthp_debounce_time_up e.tun.bthp_debounce_time_down)) = true)) :
    _do_trade_bargain e st prev_speed next_speed prefer =
      exit_bargain st { cpu := e.smp_processor_id,
                        active_cpus := s32 (num_online_cpus e.platform),
                        best_target_speed := next_speed } [] := by
  unfold _do_trade_bargain
  rw [if_neg hmin, if_pos]
  rcases hgate with h | h
  · left; simp [h]
  · right; exact h

/-- Rounds that all fall inside the debounce window of the same last hotplug
return their `next_speed`, call no actuator and leave `last_hotplug_time` and
`target_cpu_speed` as they were. -/
theorem bargain_rounds_debounce (rs : List bargain_round) :
    ∀ st : bthp_state, (∀ r ∈ rs, in_debounce st.kicker.last_hotplug_time r) →
      (bargain_rounds st rs).1 = rs.map (fun r => r.next_speed) ∧
      (bargain_rounds st rs).2.2 = [] ∧
      (bargain_rounds st rs).2.1.kicker.last_hotplug_time =
        st.kicker.last_hotplug_time ∧
      (bargain_rounds st rs).2.1.target_cpu_speed = st.target_cpu_speed := by
  induction rs with
  | nil => intro st _; exact ⟨rfl, rfl, rfl, rfl⟩
  | cons r rs ih =>
    intro st h
    have hr : in_debounce st.kicker.last_hotplug_time r := h r (List.mem_cons_self _ _)
    have hstep : (bargain_round_step st r).ret = r.next_speed ∧
        (bargain_round_step st r).calls = [] ∧
        (bargain_round_step st r).state.kicker.last_hotplug_time =
          st.kicker.last_hotplug_time ∧
        (bargain_round_step st r).state.target_cpu_speed = st.target_cpu_speed := by
      unfold bargain_round_step
      split_ifs
      · rw [do_trade_bargain_debounce r.env (kick st r.cpu r.now) _ _ _ hr.1 hr.2]
        exact ⟨rfl, rfl, rfl, rfl⟩
      · exact ⟨rfl, rfl, rfl, rfl⟩
    have ht := ih (bargain_round_step st r).state (by
      intro x hx
      rw [hstep.2.2.1]
      exact h x (List.mem_cons_of_mem _ hx))
    simp only [bargain_rounds, List.map_cons]
    rw [ht.1, ht.2.1, ht.2.2.1, ht.2.2.2, hstep.1, hstep.2.1, hstep.2.2.1, hstep.2.2.2]
    exact ⟨rfl, rfl, rfl, rfl⟩

/-- C19 (debounce): a call of `_do_trade_bargain` in which the online-core
count is not below the requested minimum, and in which `can_do_bthp()` is
false or `last_hotplug_time` is non-zero and the kick time is before
`last_hotplug_time + min(up_debounce, down_debounce)`, returns `next_speed`,
calls neither `bthp_do_hotplug` nor `bthp_cpu_num_catchup`, and leaves
`last_hotplug_time` and `target_cpu_speed` as they were; and any further
rounds `rs` of the callers that fall inside the window of that same
`last_hotplug_time` return their own `next_speed`, call no actuator, and leave
`last_hotplug_time` unchanged. -/
theorem C19_debounce (e : bthp_env) (st : bthp_state)
    (prev_speed next_speed : Nat) (prefer_up_or_down : Int) (rs : List bargain_round)
    (hmin : ¬ s32 (num_online_cpus e.platform) < pm_qos_min_online_cpus e)
    (hgate : e.can_do_bthp = false ∨
      (st.kicker.last_hotplug_time ≠ 0 ∧
        time_before64 st.kicker.last_kick_time
          (u64 (st.kicker.last_hotplug_time +
            min e.tun.bthp_debounce_time_up e.tun.bthp_debounce_time_down)) = true))
    (hrs : ∀ r ∈ rs, in_debounce st.kicker.last_hotplug_time r) :
    (_do_trade_bargain e st prev_speed next_speed prefer_up_or_down).ret = next_speed ∧
    (_do_trade_bargain e st prev_speed next_speed prefer_up_or_down).calls = [] ∧
    (_do_trade_bargain e st prev_speed next_speed
      prefer_up_or_down).state.kicker.last_hotplug_time = st.kicker.last_hotplug_time ∧
    (_do_trade_bargain e st prev_speed next_speed
      prefer_up_or_down).state.target_cpu_speed = st.target_cpu_speed ∧
    (bargain_rounds (_do_trade_bargain e st prev_speed next_speed
      prefer_up_or_down).state rs).1 = rs.map (fun r => r.next_speed) ∧
    (bargain_rounds (_do_trade_bargain e st prev_speed next_speed
      prefer_up_or_down).state rs).2.2 = [] ∧
    (bargain_rounds (_do_trade_bargain e st prev_speed next_speed
      prefer_up_or_down).state rs).2.1.kicker.last_hotplug_time =
        st.kicker.last_hotplug_time := by
  rw [do_trade_bargain_debounce e st prev_speed next_speed prefer_up_or_down hmin hgate]
  have h := bargain_rounds_debounce rs
    (exit_bargain st { cpu := e.smp_processor_id,
                       active_cpus := s32 (num_online_cpus e.platform),
                       best_target_speed := next_speed } []).state hrs
  exact ⟨rfl, rfl, rfl, rfl, h.1, h.2.1, h.2.2.1⟩

/-- C20 (admission flag): whatever the arguments and whatever the external
functions return, `_do_trade_bargain` leaves in `bthp_kicker.kicking` the
result of `atomic_cmpxchg(&kicking, 1, 0)` on the value it found, on every
path; so the flag, which holds 0 or 1 throughout the program, is 0 when the
function returns. -/
theorem C20_kicking_cleared (e : bthp_env) (st : bthp_state)
    (prev_speed next_speed : Nat) (prefer_up_or_down : Int)
    (hflag : st.kicker.kicking = 0 ∨ st.kicker.kicking = 1) :
    (_do_trade_bargain e st prev_speed next_speed
      prefer_up_or_down).state.kicker.kicking = atomic_cmpxchg st.kicker.kicking 1 0 ∧
    (_do_trade_bargain e st prev_speed next_speed
      prefer_up_or_down).state.kicker.kicking = 0 := by
  rw [do_trade_bargain_kicking]
  exact ⟨rfl, (atomic_cmpxchg_flag st.kicker.kicking hflag).2⟩

/-- Witness of C19: 50 ms after a hotplug, with debounce times of 70 ms and
100 ms, a call and two further rounds at 60 ms and just under 70 ms return the
requested speeds and call no actuator. -/
theorem C19_debounce_witness :
    (_do_trade_bargain sample_bthp_env sample_bthp_state 1000000 1200000 0).ret =
      1200000 ∧
    (_do_trade_bargain sample_bthp_env sample_bthp_state 1000000 1200000 0).calls = [] ∧
    (bargain_rounds (_do_trade_bargain sample_bthp_env sample_bthp_state 1000000
      1200000 0).state
      [{ env := sample_bthp_env, cpu := 0, now := 1060000000, prev_speed := 1200000,
         next_speed := 1300000, prefer_up_or_down := 0 },
       { env := sample_bthp_env, cpu := 1, now := 1069999999, prev_speed := 1300000,
         next_speed := 1400000, prefer_up_or_down := 0 }]).2.2 = [] := by
  have h := C19_debounce sample_bthp_env sample_bthp_state 1000000 1200000 0
    [{ env := sample_bthp_env, cpu := 0, now := 1060000000, prev_speed := 1200000,
       next_speed := 1300000, prefer_up_or_down := 0 },
     { env := sample_bthp_env, cpu := 1, now := 1069999999, prev_speed := 1300000,
       next_speed := 1400000, prefer_up_or_down := 0 }]
    (by decide)
    (Or.inr ⟨by decide, by decide⟩)
    (by
      intro r hr
      simp only [List.mem_cons, List.mem_singleton, List.not_mem_nil, or_false] at hr
      rcases hr with rfl | rfl
      · exact ⟨by decide, Or.inr ⟨by decide, by decide⟩⟩
      · exact ⟨by decide, Or.inr ⟨by decide, by decide⟩⟩)
  exact ⟨h.1, h.2.1, h.2.2.2.2.2.1⟩

/-- Witness of C20: a call made 200 ms after the last hotplug, past both
debounce times, with the flag taken, returns with the flag at 0. -/
theorem C20_kicking_cleared_witness :
    (kick sample_bthp_state 0 1200000000).kicker.kicking = 1 ∧
    (_do_trade_bargain sample_bthp_env (kick sample_bthp_state 0 1200000000)
      1000000 1200000 0).state.kicker.kicking = 0 :=
  ⟨rfl,
   (C20_kicking_cleared sample_bthp_env (kick sample_bthp_state 0 1200000000)
      1000000 1200000 0 (Or.inr rfl)).2⟩

/-! ## Theorems: the trade evaluation of the bargainer -/

/-- A read of an array with a non-negative index. -/
theorem arr_natCast (a : List Nat) (n : Nat) : arr a (n : Int) = a.getD n 0 := by
  unfold arr
  rw [if_neg (by omega)]
  simp

/-- A value below 2^32 is its own `unsigned int`. -/
theorem u32_of_lt (n : Nat) (h : n < 4294967296) : u32 (n : Int) = n := by
  unfold u32; omega

/-- The product `speed * cpus` of `better_perf` for a non-negative count. -/
theorem u32_mul_cpus (s : Nat) (n : Int) (h : 0 ≤ n) :
    u32 ((s : Int) * n) = (s * n.toNat) % 4294967296 := by
  obtain ⟨m, rfl⟩ := Int.eq_ofNat_of_zero_le h
  unfold u32
  simp only [Int.toNat_ofNat]
  have : ((s : Int) * (m : Int)) % 4294967296 = ((s * m % 4294967296 : Nat) : Int) := by
    push_cast
    rfl
  rw [this, Int.toNat_ofNat]

/-- The loop of `better_perf` when the first candidate has fewer cores: its
performance is inflated once for each index from `idx` on. -/
theorem better_perf_loop_fewer (ov : List Nat) (n : Nat) :
    ∀ (idx i_perf c_perf : Nat), idx + n < 4294967296 →
      better_perf_loop ov true n idx i_perf c_perf =
        ((List.range' idx n).foldl
          (fun p k => (p * ((100 + ov.getD k 0) % 4294967296)) % 4294967296 / 100) i_perf,
         c_perf) := by
  induction n with
  | zero => intro idx i c _; rfl
  | succ n ih =>
    intro idx i c h
    have h1 : (idx + 1) % 4294967296 = idx + 1 := Nat.mod_eq_of_lt (by omega)
    simp only [better_perf_loop, if_true, h1, List.range'_succ, List.foldl_cons]
    rw [ih (idx + 1) _ c (by omega), arr_natCast]

/-- The loop of `better_perf` when the first candidate has no fewer cores: the
performance of the competitor is inflated once for each index from `idx`
on. -/
theorem better_perf_loop_more (ov : List Nat) (n : Nat) :
    ∀ (idx i_perf c_perf : Nat), idx + n < 4294967296 →
      better_perf_loop ov false n idx i_perf c_perf =
        (i_perf,
         (List.range' idx n).foldl
          (fun p k => (p * ((100 + ov.getD k 0) % 4294967296)) % 4294967296 / 100) c_perf) := by
  induction n with
  | zero => intro idx i c _; rfl
  | succ n ih =>
    intro idx i c h
    have h1 : (idx + 1) % 4294967296 = idx + 1 := Nat.mod_eq_of_lt (by omega)
    simp only [better_perf_loop, Bool.false_eq_true, if_false, h1, List.range'_succ,
      List.foldl_cons]
    rw [ih (idx + 1) i _ (by omega), arr_natCast]

/-- One inflation step of `mp_inflate` is the plain
`perf * (100 + overhead) / 100` when the product fits 32 bits. -/
theorem mp_inflate_step_exact (p o : Nat) (h : p * (100 + o) < 4294967296) (hp : 0 < p) :
    (p * ((100 + o) % 4294967296)) % 4294967296 / 100 = p * (100 + o) / 100 := by
  have h1 : 100 + o < 4294967296 := by
    by_contra hc
    have : p * (100 + o) ≥ 1 * (100 + o) := Nat.mul_le_mul_right _ hp
    omega
  rw [Nat.mod_eq_of_lt h1, Nat.mod_eq_of_lt h]

/-- C29: for all speeds, all core counts and all overhead settings,
`better_perf(sA, nA, sB, nB)` is the comparison the specification words: false
when a core count is outside `[1, NR_CPUS]`, and otherwise true exactly when
the performance of A strictly exceeds that of B, the raw performance being
`speed * core-count` in 32-bit unsigned arithmetic and the candidate with
fewer cores having its performance multiplied by
`(100 + bthp_mp_overhead[k]) / 100` once for each `k` from the lower count
minus 1 up to the higher count minus 2. -/
theorem C29_better_perf (tun : bthp_tunables) (sA : Nat) (nA : Int) (sB : Nat) (nB : Int) :
    better_perf tun sA nA sB nB = better_perf_spec tun sA nA sB nB := by
  unfold better_perf better_perf_spec
  by_cases hr : 1 ≤ nA ∧ nA ≤ NR_CPUS ∧ 1 ≤ nB ∧ nB ≤ NR_CPUS
  · have hN : NR_CPUS = 4 := rfl
    rw [hN] at hr
    obtain ⟨a1, a2, b1, b2⟩ := hr
    have hg : ¬ (nA ≤ 0 ∨ nA > NR_CPUS ∨ nB ≤ 0 ∨ nB > NR_CPUS) := by
      rw [hN]; omega
    simp only [hN, a1, a2, b1, b2, and_self, if_true]
    rw [hN] at hg
    rw [if_neg hg]
    rw [u32_mul_cpus sA nA (by omega), u32_mul_cpus sB nB (by omega)]
    obtain ⟨a, rfl⟩ := Int.eq_ofNat_of_zero_le (show (0 : Int) ≤ nA by omega)
    obtain ⟨b, rfl⟩ := Int.eq_ofNat_of_zero_le (show (0 : Int) ≤ nB by omega)
    have ha1 : 1 ≤ a := by omega
    have ha2 : a ≤ 4 := by omega
    have hb1 : 1 ≤ b := by omega
    have hb2 : b ≤ 4 := by omega
    simp only [Int.toNat_ofNat]
    by_cases hlt : (a : Int) < (b : Int)
    · have hlt2 : a < b := by omega
      have e1 : u32 (((a : Int) - (b : Int)).natAbs : Int) = b - a := by
        unfold u32; omega
      have e2 : u32 ((a : Int) - 1) = a - 1 := by unfold u32; omega
      simp only [hlt, if_true, decide_True, e1, e2]
      rw [better_perf_loop_fewer _ _ _ _ _ (by omega)]
      rfl
    · have hlt2 : b ≤ a := by omega
      have e1 : u32 (((a : Int) - (b : Int)).natAbs : Int) = a - b := by
        unfold u32; omega
      have e2 : u32 ((b : Int) - 1) = b - 1 := by unfold u32; omega
      simp only [hlt, if_false, decide_False, e1, e2]
      rw [better_perf_loop_more _ _ _ _ _ (by omega)]
      rfl
  · rw [if_neg hr]
    have hN : NR_CPUS = 4 := rfl
    rw [hN] at hr
    have hg : (nA ≤ 0 ∨ nA > NR_CPUS ∨ nB ≤ 0 ∨ nB > NR_CPUS) := by
      rw [hN]; omega
    simp only [hg, if_true]

/-- C30: when the task counts fit an `unsigned int`, the votes are not
negative, the sum `v` of the votes and the counted newcomers fits an `int`, and
`floor(nr_running / 2) + perf_critical_elevator` fits an `unsigned int`,
`perf_critical_on(cpu, votes)` is true exactly when `v != 0` and
`v > floor(nr_running / 2) + perf_critical_elevator`; in particular it is
false when there are no votes and no counted newcomers. -/
theorem C30_perf_critical_on (e : bthp_env) (cpu : Int) (votes : Int)
    (hnr : e.cpu_nr_running cpu < 4294967296)
    (htr : e.tracked_tasks_nr cpu < 4294967296)
    (hv0 : 0 ≤ votes)
    (hv : votes + (((if e.cpu_nr_running cpu > e.tracked_tasks_nr cpu then
        e.cpu_nr_running cpu - e.tracked_tasks_nr cpu else 0) >>>
          e.tun.new_comer_as_perf_crit_factor : Nat) : Int) < 2147483648)
    (hel : e.cpu_nr_running cpu / 2 + e.tun.perf_critical_elevator < 4294967296) :
    perf_critical_on e cpu votes =
      perf_critical_spec (e.cpu_nr_running cpu) (e.tracked_tasks_nr cpu)
        e.tun.new_comer_as_perf_crit_factor e.tun.perf_critical_elevator votes ∧
    (votes = 0 →
      (if e.cpu_nr_running cpu > e.tracked_tasks_nr cpu then
        e.cpu_nr_running cpu - e.tracked_tasks_nr cpu else 0) >>>
          e.tun.new_comer_as_perf_crit_factor = 0 →
      perf_critical_on e cpu votes = false) := by
  have key : perf_critical_on e cpu votes =
      perf_critical_spec (e.cpu_nr_running cpu) (e.tracked_tasks_nr cpu)
        e.tun.new_comer_as_perf_crit_factor e.tun.perf_critical_elevator votes := by
    unfold perf_critical_on perf_critical_spec
    simp only [u32_of_lt _ hnr, u32_of_lt _ htr, ← Nat.shiftRight_eq_div_pow]
    simp only [Nat.shiftRight_eq_div_pow] at hv ⊢
    generalize (if e.cpu_nr_running cpu > e.tracked_tasks_nr cpu then
        e.cpu_nr_running cpu - e.tracked_tasks_nr cpu else 0) /
          2 ^ e.tun.new_comer_as_perf_crit_factor = nc at hv ⊢
    generalize e.cpu_nr_running cpu / 2 + e.tun.perf_critical_elevator = lim at hel ⊢
    have h1 : s32 (votes + (nc : Int)) = votes + nc := by unfold s32; omega
    have h2 : u32 (votes + (nc : Int)) = (votes + nc).toNat := by unfold u32; omega
    have h3 : lim % 4294967296 = lim := Nat.mod_eq_of_lt hel
    rw [h1, h2, h3]
    by_cases hz : votes + (nc : Int) = 0
    · simp [hz]
    · have : ((votes + (nc : Int)).toNat > lim) = (votes + (nc : Int) > (lim : Int)) := by
        apply propext; constructor <;> intro h <;> omega
      simp [hz, this]
  refine ⟨key, ?_⟩
  intro h0 hnc
  rw [key]
  unfold perf_critical_spec
  simp [h0, hnc]

/-- The function `_adjust__one_core_up` written with its candidate speed
`core_up_snapped` and its help ratio `core_up_help_ratio`. -/
theorem adjust_one_core_up_eq (e : bthp_env) (st : bthp_state) (params : bthp_params) :
    _adjust__one_core_up e st params =
      if !(e.lb_prophet_up params.cpu).1 ∨ best_core_to_turn_up e.platform ≥ nr_cpu_ids ∨
          (e.lb_prophet_up params.cpu).2.1 = 0 ∨ (e.lb_prophet_up params.cpu).2.2 = 0 ∨
          (e.lb_prophet_up params.cpu).2.1 < (e.lb_prophet_up params.cpu).2.2 then
        params
      else if core_up_help_ratio e params = 0 ∧ params.qos_perf_up_votes = 0 then
        params
      else if core_up_snapped e st params = 0 then
        params
      else if params.qos_perf_critical then
        { params with
          best_diff_power :=
            if e.valid_power_diff
                (s32 ((e.p2pconv (max (core_up_snapped e st params)
                  (u32 (params.orig_speed + params.diff_speed)))
                    (params.active_cpus + 1) : Int) - params.orig_power)) then
              s32 ((e.p2pconv (max (core_up_snapped e st params)
                (u32 (params.orig_speed + params.diff_speed)))
                  (params.active_cpus + 1) : Int) - params.orig_power)
            else s32 ((e.valid_max_power : Int) - params.orig_power),
          best_target_speed :=
            max (core_up_snapped e st params) (u32 (params.orig_speed + params.diff_speed)),
          best_hotplug_decision := BTHP_CPU_UP,
          dest_core := best_core_to_turn_up e.platform }
      else if !e.valid_power_diff
          (s32 ((e.p2pconv (core_up_snapped e st params) (params.active_cpus + 1) : Int) -
            params.orig_power)) then
        params
      else if params.qos_perf_up_votes > 0 ∧
          !better_perf e.tun (core_up_snapped e st params) (params.active_cpus + 1)
            params.best_target_speed
            (if params.best_hotplug_decision = BTHP_CPU_DOWN then params.active_cpus - 1
             else params.active_cpus) then
        params
      else if s32 ((e.p2pconv (core_up_snapped e st params) (params.active_cpus + 1) : Int) -
            params.orig_power) <
          (if params.qos_perf_up_votes > 0 then params.diff_power
           else params.best_diff_power) then
        { params with
          best_diff_power :=
            s32 ((e.p2pconv (core_up_snapped e st params) (params.active_cpus + 1) : Int) -
              params.orig_power),
          best_target_speed := core_up_snapped e st params,
          best_hotplug_decision := BTHP_CPU_UP,
          dest_core := best_core_to_turn_up e.platform }
      else
        params := by
  rfl

/-- C26, as stated, fails: with no votes, two untracked runnable tasks and
`new_comer_as_perf_crit_factor = 0` the bargain from 800000 kHz to 900000 kHz
on two cores is performance-critical, an offline core exists, `lb_prophet_up`
succeeds with `total_cc = 1000 >= min_tradable_cc = 1 > 0` and the snapped
candidate is non-zero; yet `_adjust__one_core_up` returns at the test
`!help_ratio && !params->qos.perf_up_votes` (cpu-tegra.c:1356) and leaves the
decision at `DO_NOTHING`. -/
theorem C26_counterexample :
    (bargain_prepare newcomer_env 800000 900000).qos_perf_critical = true ∧
    (bargain_prepare newcomer_env 800000 900000).active_cpus = 2 ∧
    best_core_to_turn_up newcomer_env.platform < nr_cpu_ids ∧
    (newcomer_env.lb_prophet_up (bargain_prepare newcomer_env 800000 900000).cpu).1 =
      true ∧
    0 < (newcomer_env.lb_prophet_up (bargain_prepare newcomer_env 800000 900000).cpu).2.2 ∧
    (newcomer_env.lb_prophet_up (bargain_prepare newcomer_env 800000 900000).cpu).2.2 ≤
      (newcomer_env.lb_prophet_up (bargain_prepare newcomer_env 800000 900000).cpu).2.1 ∧
    core_up_snapped newcomer_env sample_bthp_state
      (bargain_prepare newcomer_env 800000 900000) ≠ 0 ∧
    (_adjust__one_core_up newcomer_env sample_bthp_state
      (bargain_prepare newcomer_env 800000 900000)).best_hotplug_decision =
        BTHP_DO_NOTHING := by
  decide

/-- C26, amended: in `_adjust__one_core_up` with `qos.perf_critical` true, if
an offline core exists, `lb_prophet_up` succeeds with
`total_cc >= min_tradable_cc > 0`, the help ratio
`min_tradable_cc * 100 / total_cc` is non-zero or there is at least one vote,
and the snapped speed is non-zero, then for every value returned by the power
model the result is `best_hotplug_decision = CPU_UP`,
`dest_core = best_core_to_turn_up()` and
`best_target_speed = max(snapped candidate, orig_speed + diff_speed)`. -/
theorem C26_critical_core_up (e : bthp_env) (st : bthp_state) (params : bthp_params)
    (hcrit : params.qos_perf_critical = true)
    (hcore : best_core_to_turn_up e.platform < nr_cpu_ids)
    (hlb : (e.lb_prophet_up params.cpu).1 = true)
    (hmin : 0 < (e.lb_prophet_up params.cpu).2.2)
    (htot : (e.lb_prophet_up params.cpu).2.2 ≤ (e.lb_prophet_up params.cpu).2.1)
    (hhelp : core_up_help_ratio e params ≠ 0 ∨ params.qos_perf_up_votes ≠ 0)
    (hsnap : core_up_snapped e st params ≠ 0) :
    (_adjust__one_core_up e st params).best_hotplug_decision = BTHP_CPU_UP ∧
    (_adjust__one_core_up e st params).dest_core = best_core_to_turn_up e.platform ∧
    (_adjust__one_core_up e st params).best_target_speed =
      max (core_up_snapped e st params) (u32 (params.orig_speed + params.diff_speed)) := by
  rw [adjust_one_core_up_eq, if_neg, if_neg, if_neg hsnap, if_pos hcrit]
  · exact ⟨rfl, rfl, rfl⟩
  · intro h
    rcases hhelp with h1 | h1
    · exact h1 h.1
    · exact h1 h.2
  · rw [hlb]
    simp only [Bool.not_true, Bool.false_eq_true, false_or]
    omega

/-- C27: for every input with `qos.perf_critical` true,
`_adjust__one_core_down` returns its `params` unchanged, so
`best_hotplug_decision`, `best_target_speed`, `best_diff_power` and
`dest_core` are as before. -/
theorem C27_core_down_not_while_critical (e : bthp_env) (st : bthp_state)
    (params : bthp_params) (h : params.qos_perf_critical = true) :
    _adjust__one_core_down e st params = params ∧
    (_adjust__one_core_down e st params).best_hotplug_decision =
      params.best_hotplug_decision ∧
    (_adjust__one_core_down e st params).best_target_speed = params.best_target_speed ∧
    (_adjust__one_core_down e st params).best_diff_power = params.best_diff_power ∧
    (_adjust__one_core_down e st params).dest_core = params.dest_core := by
  have key : _adjust__one_core_down e st params = params := by
    unfold _adjust__one_core_down
    lift_lets
    intros
    split_ifs <;> first | rfl | simp_all
  rw [key]
  exact ⟨rfl, rfl, rfl, rfl, rfl⟩

/-- What `_adjust__one_core_up` leaves alone, and the only decision it can
record. -/
theorem adjust_one_core_up_frame (e : bthp_env) (st : bthp_state) (params : bthp_params) :
    (_adjust__one_core_up e st params).active_cpus = params.active_cpus ∧
    (_adjust__one_core_up e st params).cpu = params.cpu ∧
    (_adjust__one_core_up e st params).qos_min_cpus = params.qos_min_cpus ∧
    (_adjust__one_core_up e st params).qos_max_cpus = params.qos_max_cpus ∧
    (_adjust__one_core_up e st params).qos_perf_critical = params.qos_perf_critical ∧
    ((_adjust__one_core_up e st params).best_hotplug_decision =
        params.best_hotplug_decision ∨
      (_adjust__one_core_up e st params).best_hotplug_decision = BTHP_CPU_UP) := by
  rw [adjust_one_core_up_eq]
  split_ifs <;> simp

/-- What `_adjust__one_core_down` leaves alone, and the only decision it can
record. -/
theorem adjust_one_core_down_frame (e : bthp_env) (st : bthp_state)
    (params : bthp_params) :
    (_adjust__one_core_down e st params).active_cpus = params.active_cpus ∧
    (_adjust__one_core_down e st params).cpu = params.cpu ∧
    (_adjust__one_core_down e st params).qos_min_cpus = params.qos_min_cpus ∧
    (_adjust__one_core_down e st params).qos_max_cpus = params.qos_max_cpus ∧
    (_adjust__one_core_down e st params).qos_perf_critical = params.qos_perf_critical ∧
    ((_adjust__one_core_down e st params).best_hotplug_decision =
        params.best_hotplug_decision ∨
      (_adjust__one_core_down e st params).best_hotplug_decision = BTHP_CPU_DOWN) := by
  unfold _adjust__one_core_down
  lift_lets
  intros
  split_ifs <;> simp

/-- The core-up evaluation records `CPU_UP` only below the core-count
ceiling. -/
theorem bargain_core_up_frame (e : bthp_env) (st : bthp_state) (params : bthp_params)
    (prefer : Int) :
    (bargain_core_up e st params prefer).active_cpus = params.active_cpus ∧
    (bargain_core_up e st params prefer).cpu = params.cpu ∧
    (bargain_core_up e st params prefer).qos_min_cpus = params.qos_min_cpus ∧
    (bargain_core_up e st params prefer).qos_max_cpus = params.qos_max_cpus ∧
    (bargain_core_up e st params prefer).qos_perf_critical = params.qos_perf_critical ∧
    ((bargain_core_up e st params prefer).best_hotplug_decision =
        params.best_hotplug_decision ∨
      ((bargain_core_up e st params prefer).best_hotplug_decision = BTHP_CPU_UP ∧
        params.active_cpus < NR_CPUS ∧ params.active_cpus < params.qos_max_cpus)) := by
  unfold bargain_core_up
  split_ifs with h
  · have f := adjust_one_core_up_frame e st params
    refine ⟨f.1, f.2.1, f.2.2.1, f.2.2.2.1, f.2.2.2.2.1, ?_⟩
    rcases f.2.2.2.2.2 with h1 | h1
    · exact Or.inl h1
    · exact Or.inr ⟨h1, h.2.1, h.2.2.1⟩
  · exact ⟨rfl, rfl, rfl, rfl, rfl, Or.inl rfl⟩

/-- The core-down evaluation records `CPU_DOWN` only above the core-count
floor. -/
theorem bargain_core_down_frame (e : bthp_env) (st : bthp_state) (params : bthp_params)
    (prefer : Int) :
    (bargain_core_down e st params prefer).active_cpus = params.active_cpus ∧
    (bargain_core_down e st params prefer).cpu = params.cpu ∧
    (bargain_core_down e st params prefer).qos_min_cpus = params.qos_min_cpus ∧
    (bargain_core_down e st params prefer).qos_max_cpus = params.qos_max_cpus ∧
    (bargain_core_down e st params prefer).qos_perf_critical = params.qos_perf_critical ∧
    ((bargain_core_down e st params prefer).best_hotplug_decision =
        params.best_hotplug_decision ∨
      ((bargain_core_down e st params prefer).best_hotplug_decision = BTHP_CPU_DOWN ∧
        params.active_cpus > params.qos_min_cpus)) := by
  unfold bargain_core_down
  split_ifs with h
  · have f := adjust_one_core_down_frame e st params
    refine ⟨f.1, f.2.1, f.2.2.1, f.2.2.2.1, f.2.2.2.2.1, ?_⟩
    rcases f.2.2.2.2.2 with h1 | h1
    · exact Or.inl h1
    · exact Or.inr ⟨h1, h.2.2.1⟩
  · exact ⟨rfl, rfl, rfl, rfl, rfl, Or.inl rfl⟩

/-- The alignment of `qos.min_freq` writes nothing else. -/
theorem bargain_align_min_frame (e : bthp_env) (params : bthp_params) :
    (bargain_align_min e params).active_cpus = params.active_cpus ∧
    (bargain_align_min e params).cpu = params.cpu ∧
    (bargain_align_min e params).qos_min_cpus = params.qos_min_cpus ∧
    (bargain_align_min e params).qos_max_cpus = params.qos_max_cpus ∧
    (bargain_align_min e params).qos_perf_critical = params.qos_perf_critical ∧
    (bargain_align_min e params).best_hotplug_decision = params.best_hotplug_decision ∧
    (bargain_align_min e params).best_target_speed = params.best_target_speed := by
  unfold bargain_align_min
  split_ifs <;> exact ⟨rfl, rfl, rfl, rfl, rfl, rfl, rfl⟩

/-- The loop of `perf_votes_scaling` writes only `best_diff_power` and
`best_target_speed`. -/
theorem perf_votes_scaling_loop_frame (e : bthp_env) (params : bthp_params)
    (base_freq : Nat) (n : Nat) :
    ∀ scaled : Nat,
      (perf_votes_scaling_loop e params base_freq n scaled).2.active_cpus =
        params.active_cpus ∧
      (perf_votes_scaling_loop e params base_freq n scaled).2.cpu = params.cpu ∧
      (perf_votes_scaling_loop e params base_freq n scaled).2.qos_perf_critical =
        params.qos_perf_critical ∧
      (perf_votes_scaling_loop e params base_freq n scaled).2.best_hotplug_decision =
        params.best_hotplug_decision := by
  induction n with
  | zero => intro s; exact ⟨rfl, rfl, rfl, rfl⟩
  | succ n ih =>
    intro s
    unfold perf_votes_scaling_loop
    lift_lets
    intros
    split_ifs
    · exact ⟨rfl, rfl, rfl, rfl⟩
    · exact ⟨rfl, rfl, rfl, rfl⟩
    · exact ih _

/-- The function `perf_votes_scaling` writes only `best_diff_power` and
`best_target_speed`. -/
theorem perf_votes_scaling_frame (e : bthp_env) (params : bthp_params) :
    (perf_votes_scaling e params).2.active_cpus = params.active_cpus ∧
    (perf_votes_scaling e params).2.cpu = params.cpu ∧
    (perf_votes_scaling e params).2.qos_perf_critical = params.qos_perf_critical ∧
    (perf_votes_scaling e params).2.best_hotplug_decision =
      params.best_hotplug_decision :=
  perf_votes_scaling_loop_frame e params _ _ _

/-- The calls `exit_bargain` reports are those made before it. -/
theorem exit_bargain_calls (st : bthp_state) (params : bthp_params)
    (calls : List BthpCall) : (exit_bargain st params calls).calls = calls := rfl

/-- The value `exit_bargain` returns is `params.best_target_speed`. -/
theorem exit_bargain_ret (st : bthp_state) (params : bthp_params)
    (calls : List BthpCall) :
    (exit_bargain st params calls).ret = params.best_target_speed := rfl

/-- The two `else if` branches of the `nothing_bargain` block add at most an
opportunistic `CPU_DOWN` call. -/
theorem nothing_bargain_down_calls (e : bthp_env) (st : bthp_state)
    (params : bthp_params) (next_speed : Nat) (calls : List BthpCall) :
    ∀ c ∈ (nothing_bargain_down e st params next_speed calls).calls,
      c ∈ calls ∨
        opportunistic_down e params.active_cpus params.qos_perf_critical next_speed c := by
  intro c
  unfold nothing_bargain_down
  lift_lets
  intro target_down_core h1 h2 hc
  simp only [apply_ite bargain_result.calls, exit_bargain_calls] at hc
  split_ifs at hc with a b d
  · simp only [List.mem_append, List.mem_singleton] at hc
    rcases hc with hc | hc
    · exact Or.inl hc
    · right
      subst hc
      exact ⟨rfl, a.2, Or.inl ⟨a.1, by simpa using b.2⟩⟩
  · exact Or.inl hc
  · simp only [List.mem_append, List.mem_singleton] at hc
    rcases hc with hc | hc
    · exact Or.inl hc
    · right
      subst hc
      exact ⟨rfl, d.2, Or.inr ⟨d.1, rfl⟩⟩
  · exact Or.inl hc

/-- The two `else if` branches of the `nothing_bargain` block return
`next_speed` when `best_target_speed` holds it on entry. -/
theorem nothing_bargain_down_ret (e : bthp_env) (st : bthp_state)
    (params : bthp_params) (next_speed : Nat) (calls : List BthpCall)
    (h : params.best_target_speed = next_speed) :
    (nothing_bargain_down e st params next_speed calls).ret = next_speed := by
  unfold nothing_bargain_down
  lift_lets
  intro target_down_core h1 h2
  simp only [apply_ite bargain_result.ret, exit_bargain_ret,
    apply_ite bthp_params.best_target_speed, h, ite_self]

/-- The `nothing_bargain` block adds at most an opportunistic `CPU_DOWN` call,
and only when no decision was selected and no direction preferred. -/
theorem nothing_bargain_calls (e : bthp_env) (st : bthp_state)
    (params : bthp_params) (prefer : Int) (next_speed scaled_speed : Nat)
    (calls : List BthpCall) :
    ∀ c ∈ (nothing_bargain e st params prefer next_speed scaled_speed calls).calls,
      c ∈ calls ∨
        (prefer = BTHP_DO_NOTHING ∧ params.best_hotplug_decision = BTHP_DO_NOTHING ∧
          opportunistic_down e params.active_cpus params.qos_perf_critical next_speed c) := by
  intro c
  unfold nothing_bargain
  lift_lets
  intro oc hc
  split_ifs at hc with a b
  · exact Or.inl hc
  · rcases nothing_bargain_down_calls e _ params next_speed calls c hc with h | h
    · exact Or.inl h
    · exact Or.inr ⟨a.1, a.2.1, h⟩
  · exact Or.inl hc

/-- With overclock disabled the `nothing_bargain` block returns `next_speed`
when `best_target_speed` holds it on entry. -/
theorem nothing_bargain_ret (e : bthp_env) (st : bthp_state)
    (params : bthp_params) (prefer : Int) (next_speed scaled_speed : Nat)
    (calls : List BthpCall) (hoc : e.tun.oc_disabled = true)
    (h : params.best_target_speed = next_speed) :
    (nothing_bargain e st params prefer next_speed scaled_speed calls).ret =
      next_speed := by
  unfold nothing_bargain
  lift_lets
  intro oc
  have hoc1 : oc.1 = false := by
    show (bargain_oc e st params next_speed).1 = false
    unfold bargain_oc
    simp [hoc]
  split_ifs with a b
  · rw [hoc1] at b
    exact absurd b (by simp)
  · exact nothing_bargain_down_ret e _ params next_speed calls h
  · exact h

/-- The vote scaling and what follows it add at most an opportunistic
`CPU_DOWN` call. -/
theorem bargain_votes_calls (e : bthp_env) (st : bthp_state)
    (params : bthp_params) (prefer : Int) (next_speed : Nat) (calls : List BthpCall) :
    ∀ c ∈ (bargain_votes e st params prefer next_speed calls).calls,
      c ∈ calls ∨
        (prefer = BTHP_DO_NOTHING ∧ params.best_hotplug_decision = BTHP_DO_NOTHING ∧
          opportunistic_down e params.active_cpus params.qos_perf_critical next_speed c) := by
  intro c hc
  have f := perf_votes_scaling_frame e params
  unfold bargain_votes at hc
  simp only at hc
  split_ifs at hc
  all_goals
    have := nothing_bargain_calls e _ _ prefer next_speed _ calls c hc
    first
      | exact this
      | (simp only [f.1, f.2.2.1, f.2.2.2] at this; exact this)

/-- The calls of the hotplug step and what follows it: the call for the
decision selected, or an opportunistic `CPU_DOWN` call when none was. -/
theorem bargain_hotplug_calls (e : bthp_env) (st : bthp_state)
    (params : bthp_params) (prefer : Int) (next_speed : Nat) :
    ∀ c ∈ (bargain_hotplug e st params prefer next_speed).calls,
      (params.best_hotplug_decision ≠ BTHP_DO_NOTHING ∧
        c = BthpCall.bthp_do_hotplug params.best_hotplug_decision params.dest_core
          params.best_target_speed) ∨
      (prefer = BTHP_DO_NOTHING ∧ params.best_hotplug_decision = BTHP_DO_NOTHING ∧
        opportunistic_down e params.active_cpus params.qos_perf_critical next_speed c) := by
  intro c hc
  unfold bargain_hotplug at hc
  simp only at hc
  split_ifs at hc with a b
  · simp only [exit_bargain_calls, List.mem_singleton] at hc
    exact Or.inl ⟨a, hc⟩
  · rcases bargain_votes_calls e _ params prefer next_speed _ c hc with h1 | h1
    · simp only [List.mem_singleton] at h1
      exact Or.inl ⟨a, h1⟩
    · exact absurd h1.2.1 a
  · rcases bargain_votes_calls e _ params prefer next_speed _ c hc with h1 | h1
    · simp at h1
    · exact Or.inr h1

/-- A failed hotplug for a selected decision makes the hotplug step return
`next_speed`. -/
theorem bargain_hotplug_failed_ret (e : bthp_env) (st : bthp_state)
    (params : bthp_params) (prefer : Int) (next_speed : Nat)
    (hd : params.best_hotplug_decision ≠ BTHP_DO_NOTHING)
    (hf : (e.bthp_do_hotplug params.best_hotplug_decision params.dest_core
      st.kicker.last_hotplug_time params.best_target_speed
      (arr st.target_cpu_speed params.cpu)).ok = false) :
    (bargain_hotplug e st params prefer next_speed).ret = next_speed := by
  unfold bargain_hotplug
  simp only
  rw [if_pos hd, hf]
  rfl

/-- The calls of the trade evaluation, entered with no decision recorded. -/
theorem bargain_trade_calls (e : bthp_env) (st : bthp_state) (params : bthp_params)
    (prefer : Int) (next_speed : Nat)
    (h0 : params.best_hotplug_decision = BTHP_DO_NOTHING) :
    ∀ (d core : Int) (t : Nat),
      BthpCall.bthp_do_hotplug d core t ∈
          (bargain_trade e st params prefer next_speed).calls →
        (d = BTHP_CPU_UP ∧ params.active_cpus < NR_CPUS ∧
          params.active_cpus < params.qos_max_cpus) ∨
        (d = BTHP_CPU_DOWN ∧ params.active_cpus > params.qos_min_cpus) ∨
        (d = BTHP_CPU_DOWN ∧ prefer = BTHP_DO_NOTHING ∧
          next_speed ≤ e.g2lp_bottom_freq ∧
          ((params.active_cpus > 1 ∧ params.qos_perf_critical = false) ∨
            (params.active_cpus = 1 ∧ core = 0))) := by
  intro d core t hc
  unfold bargain_trade at hc
  have fu := bargain_core_up_frame e st params prefer
  have fd := bargain_core_down_frame e st (bargain_core_up e st params prefer) prefer
  rcases bargain_hotplug_calls e _ _ prefer next_speed _ hc with ⟨hne, heq⟩ | ⟨hp, _, hopp⟩
  · injection heq with hd _ _
    rcases fd.2.2.2.2.2 with h1 | ⟨h1, h2⟩
    · rcases fu.2.2.2.2.2 with h3 | ⟨h3, h4, h5⟩
      · rw [h1, h3, h0] at hne
        exact absurd rfl hne
      · left
        rw [hd, h1, h3]
        exact ⟨rfl, h4, h5⟩
    · right; left
      rw [hd, h1]
      rw [fu.1, fu.2.2.1] at h2
      exact ⟨rfl, h2⟩
  · right; right
    rw [fd.1, fd.2.2.2.2.1, fu.1, fu.2.2.2.2.1] at hopp
    exact ⟨hopp.1, hp, hopp.2.1, hopp.2.2⟩

/-- C25, as stated, fails: with two cores online, two requested as the minimum
and a requested speed of 204000 kHz, below `g2lp_bottom_freq()`, the
`nothing_bargain` block of `_do_trade_bargain` calls `bthp_do_hotplug` with
direction `CPU_DOWN` for core 1 (cpu-tegra.c:1976) although `active_cpus` is
not above `qos.min_cpus`. -/
theorem C25_counterexample :
    (bargain_prepare floor_env 340000 204000).active_cpus = 2 ∧
    (bargain_prepare floor_env 340000 204000).qos_min_cpus = 2 ∧
    BthpCall.bthp_do_hotplug BTHP_CPU_DOWN 1 204000 ∈
      (_do_trade_bargain floor_env (kick sample_bthp_state 0 1200000000) 340000 204000
        BTHP_DO_NOTHING).calls := by
  decide

/-- C25, amended: every call of `bthp_do_hotplug` that `_do_trade_bargain`
makes has direction `CPU_UP` with `active_cpus < NR_CPUS` and
`active_cpus < qos.max_cpus`, or direction `CPU_DOWN` with
`active_cpus > qos.min_cpus`, or is one of the two opportunistic `CPU_DOWN`
calls of the `nothing_bargain` block, which are made without a test of
`qos.min_cpus`: with no direction preferred, `next_speed <= g2lp_bottom_freq()`
and either more than one core active and not performance-critical, or one core
active and destination core 0. -/
theorem C25_core_count_bounds (e : bthp_env) (st : bthp_state)
    (prev_speed next_speed : Nat) (prefer_up_or_down : Int) (d core : Int) (t : Nat)
    (hc : BthpCall.bthp_do_hotplug d core t ∈
      (_do_trade_bargain e st prev_speed next_speed prefer_up_or_down).calls) :
    (d = BTHP_CPU_UP ∧
      (bargain_prepare e prev_speed next_speed).active_cpus < NR_CPUS ∧
      (bargain_prepare e prev_speed next_speed).active_cpus <
        (bargain_prepare e prev_speed next_speed).qos_max_cpus) ∨
    (d = BTHP_CPU_DOWN ∧
      (bargain_prepare e prev_speed next_speed).active_cpus >
        (bargain_prepare e prev_speed next_speed).qos_min_cpus) ∨
    (d = BTHP_CPU_DOWN ∧ prefer_up_or_down = BTHP_DO_NOTHING ∧
      next_speed ≤ e.g2lp_bottom_freq ∧
      (((bargain_prepare e prev_speed next_speed).active_cpus > 1 ∧
          (bargain_prepare e prev_speed next_speed).qos_perf_critical = false) ∨
        ((bargain_prepare e prev_speed next_speed).active_cpus = 1 ∧ core = 0))) := by
  unfold _do_trade_bargain at hc
  split_ifs at hc
  · simp at hc
  · simp [exit_bargain] at hc
  · rcases nothing_bargain_calls e st _ _ next_speed next_speed [] _ hc with h | h
    · simp at h
    · exact Or.inr (Or.inr ⟨h.2.2.1, h.1, h.2.2.2.1, h.2.2.2.2⟩)
  · have fa := bargain_align_min_frame e (bargain_prepare e prev_speed next_speed)
    have := bargain_trade_calls e st _ prefer_up_or_down next_speed
      (fa.2.2.2.2.2.1.trans rfl) d core t hc
    rw [fa.1, fa.2.2.1, fa.2.2.2.1, fa.2.2.2.2.1] at this
    exact this

/-- C28: `_do_trade_bargain` returns exactly `next_speed` (a) whenever the
speeds and power values are valid, the two evaluations selected a hotplug
decision and `bthp_do_hotplug` reports failure for it, and (b) whenever
overclock is disabled and `prev_speed` or `next_speed` is not a valid bargain
speed or the original power value or the power delta is invalid. -/
theorem C28_fallback_to_dvfs (e : bthp_env) (st : bthp_state)
    (prev_speed next_speed : Nat) (prefer_up_or_down : Int) :
    (e.valid_bargain_speed prev_speed = true → e.valid_bargain_speed next_speed = true →
      e.valid_power_value (bargain_prepare e prev_speed next_speed).orig_power = true →
      e.valid_power_diff (bargain_prepare e prev_speed next_speed).diff_power = true →
      (bargain_selected e st prev_speed next_speed
        prefer_up_or_down).best_hotplug_decision ≠ BTHP_DO_NOTHING →
      (bargain_actuation e st prev_speed next_speed prefer_up_or_down).ok = false →
      (_do_trade_bargain e st prev_speed next_speed prefer_up_or_down).ret = next_speed) ∧
    (e.tun.oc_disabled = true →
      (e.valid_bargain_speed prev_speed = false ∨ e.valid_bargain_speed next_speed = false ∨
        e.valid_power_value (bargain_prepare e prev_speed next_speed).orig_power = false ∨
        e.valid_power_diff (bargain_prepare e prev_speed next_speed).diff_power = false) →
      (_do_trade_bargain e st prev_speed next_speed prefer_up_or_down).ret = next_speed) := by
  constructor
  · intro v1 v2 v3 v4 hd hf
    unfold _do_trade_bargain
    split_ifs with a b c
    · rfl
    · rfl
    · simp [v1, v2, v3, v4] at c
    · unfold bargain_trade
      exact bargain_hotplug_failed_ret e _ _ _ _ hd hf
  · intro hoc hinv
    unfold _do_trade_bargain
    split_ifs with a b c
    · rfl
    · rfl
    · exact nothing_bargain_ret e st _ _ _ _ _ hoc rfl
    · exfalso
      apply c
      rcases hinv with h | h | h | h <;> simp [h]

/-- Witness of the amended C25: with two votes and half of the load tradable,
a bargain from 800000 kHz to 900000 kHz on two of four cores, made past the
debounce window, calls `bthp_do_hotplug` with `CPU_UP` for core 3, and two is
below `NR_CPUS` and below `qos.max_cpus`. -/
theorem C25_core_count_bounds_witness :
    BthpCall.bthp_do_hotplug BTHP_CPU_UP 3 1000000 ∈
      (_do_trade_bargain critical_env (kick sample_bthp_state 0 1200000000) 800000 900000
        BTHP_DO_NOTHING).calls ∧
    (bargain_prepare critical_env 800000 900000).active_cpus < NR_CPUS ∧
    (bargain_prepare critical_env 800000 900000).active_cpus <
      (bargain_prepare critical_env 800000 900000).qos_max_cpus := by
  have hmem : BthpCall.bthp_do_hotplug BTHP_CPU_UP 3 1000000 ∈
      (_do_trade_bargain critical_env (kick sample_bthp_state 0 1200000000) 800000 900000
        BTHP_DO_NOTHING).calls := by decide
  have h := C25_core_count_bounds critical_env (kick sample_bthp_state 0 1200000000)
    800000 900000 BTHP_DO_NOTHING BTHP_CPU_UP 3 1000000 hmem
  rcases h with h | h | h
  · exact ⟨hmem, h.2.1, h.2.2⟩
  · exact absurd h.1 (by decide)
  · exact absurd h.1 (by decide)

/-- Witness of the amended C26: the performance-critical bargain from
800000 kHz to 900000 kHz on two active cores, with two votes and half of the
load tradable, selects `CPU_UP` for core 3 at 1000000 kHz. -/
theorem C26_critical_core_up_witness :
    (bargain_prepare critical_env 800000 900000).qos_perf_critical = true ∧
    (_adjust__one_core_up critical_env sample_bthp_state
      (bargain_prepare critical_env 800000 900000)).best_hotplug_decision = BTHP_CPU_UP ∧
    (_adjust__one_core_up critical_env sample_bthp_state
      (bargain_prepare critical_env 800000 900000)).dest_core = 3 ∧
    (_adjust__one_core_up critical_env sample_bthp_state
      (bargain_prepare critical_env 800000 900000)).best_target_speed = 1000000 := by
  have h := C26_critical_core_up critical_env sample_bthp_state
    (bargain_prepare critical_env 800000 900000)
    (by decide) (by decide) rfl (by decide) (by decide) (by decide) (by decide)
  refine ⟨by decide, h.1, ?_, ?_⟩
  · rw [h.2.1]; decide
  · rw [h.2.2]; decide

/-- Witness of C27: the performance-critical bargain from 800000 kHz to
900000 kHz keeps the decision `DO_NOTHING` through `_adjust__one_core_down`. -/
theorem C27_core_down_not_while_critical_witness :
    (bargain_prepare critical_env 800000 900000).qos_perf_critical = true ∧
    (_adjust__one_core_down critical_env sample_bthp_state
      (bargain_prepare critical_env 800000 900000)).best_hotplug_decision =
        BTHP_DO_NOTHING :=
  ⟨by decide,
   (C27_core_down_not_while_critical critical_env sample_bthp_state
      (bargain_prepare critical_env 800000 900000) (by decide)).2.1⟩

/-- Witness of C28: with a failing actuator the performance-critical bargain
from 800000 kHz to 900000 kHz selects `CPU_UP` and returns 900000; with no
valid bargain speed and overclock disabled the bargain returns 900000. -/
theorem C28_fallback_to_dvfs_witness :
    (bargain_selected failing_hotplug_env (kick sample_bthp_state 0 1200000000)
      800000 900000 BTHP_DO_NOTHING).best_hotplug_decision = BTHP_CPU_UP ∧
    (_do_trade_bargain failing_hotplug_env (kick sample_bthp_state 0 1200000000)
      800000 900000 BTHP_DO_NOTHING).ret = 900000 ∧
    (_do_trade_bargain invalid_speed_env (kick sample_bthp_state 0 1200000000)
      800000 900000 BTHP_DO_NOTHING).ret = 900000 :=
  ⟨by decide,
   (C28_fallback_to_dvfs failing_hotplug_env (kick sample_bthp_state 0 1200000000)
      800000 900000 BTHP_DO_NOTHING).1 rfl rfl rfl rfl (by decide) (by decide),
   (C28_fallback_to_dvfs invalid_speed_env (kick sample_bthp_state 0 1200000000)
      800000 900000 BTHP_DO_NOTHING).2 rfl (Or.inl rfl)⟩

/-- Witness of C30: two votes among one tracked runnable task are
performance-critical. -/
theorem C30_perf_critical_on_witness :
    perf_critical_spec 1 1 1 0 2 = true ∧ perf_critical_on critical_env 0 2 = true := by
  have h := (C30_perf_critical_on critical_env 0 2 (by decide) (by decide) (by decide)
    (by decide) (by decide)).1
  refine ⟨by decide, ?_⟩
  rw [h]
  decide

/-- With overclock enabled the fallback of the `nothing_bargain` block can
return another speed than `next_speed`: no speed being a valid bargain speed, a
performance-critical bargain at the QoS maximum of 1600000 kHz is boosted to
the policy maximum of 1700000 kHz. -/
theorem oc_boost_overrides_fallback :
    oc_env.valid_bargain_speed 1600000 = false ∧
    (_do_trade_bargain oc_env (kick sample_bthp_state 0 1200000000) 1600000 1600000
      BTHP_DO_NOTHING).ret = 1700000 := by
  decide

/-! ## Theorems: the EDP limits -/

/-- C23, as stated, fails: in a table of three zones with the temperatures 20,
50 and 80, ascending, the largest `i` with `30 >= limits[i].temperature` is 0,
but `tegra_edp_update_thermal_zone(30)` selects zone 1: the loop of
cpu-tegra.c:462 stores `i + 1` for a temperature in
`[limits[i].temperature, limits[i + 1].temperature)`. -/
theorem C23_counterexample :
    (∀ i j : Fin 3, i ≤ j →
      (edp_row sample_edp_limits i.val).temperature ≤
        (edp_row sample_edp_limits j.val).temperature) ∧
    (30 : Int) ≥ (edp_row sample_edp_limits 0).temperature ∧
    (∀ i : Fin 3, (30 : Int) ≥ (edp_row sample_edp_limits i.val).temperature → i.val ≤ 0) ∧
    tegra_edp_update_thermal_zone (sample_edp_state false) 30 = (0, some 1) := by
  decide

/-- The loop of `tegra_edp_update_thermal_zone` keeps `index` when no row it
visits matches. -/
theorem thermal_zone_loop_none (tbl : List tegra_edp_limits) (temperature : Int)
    (index : Int) (left : Nat) :
    ∀ i : Nat,
      (∀ j : Nat, i ≤ j → j < i + left →
        ¬ (temperature ≥ (edp_row tbl j).temperature ∧
          temperature < (edp_row tbl ((j : Int) + 1)).temperature)) →
      thermal_zone_loop tbl temperature left i index = index := by
  induction left with
  | zero => intro i _; rfl
  | succ n ih =>
    intro i h
    unfold thermal_zone_loop
    rw [if_neg (h i (le_refl i) (by omega))]
    exact ih (i + 1) (fun j h1 h2 => h j (by omega) (by omega))

/-- The loop of `tegra_edp_update_thermal_zone` stops at the first row `L`
that matches and gives `L + 1`. -/
theorem thermal_zone_loop_found (tbl : List tegra_edp_limits) (temperature : Int)
    (index : Int) (L : Nat) (left : Nat) :
    ∀ i : Nat, i ≤ L → L < i + left →
      (temperature ≥ (edp_row tbl L).temperature ∧
        temperature < (edp_row tbl ((L : Int) + 1)).temperature) →
      (∀ j : Nat, i ≤ j → j < L →
        ¬ (temperature ≥ (edp_row tbl j).temperature ∧
          temperature < (edp_row tbl ((j : Int) + 1)).temperature)) →
      thermal_zone_loop tbl temperature left i index = (L : Int) + 1 := by
  induction left with
  | zero => intro i h1 h2; omega
  | succ n ih =>
    intro i h1 h2 hL hbefore
    unfold thermal_zone_loop
    by_cases hi : i = L
    · subst hi
      rw [if_pos hL]
    · rw [if_neg (hbefore i (le_refl i) (by omega))]
      exact ih (i + 1) (by omega) (by omega) hL
        (fun j h3 h4 => hbefore j (by omega) h4)

/-- The zone index of a table of `n >= 1` rows ordered ascending by
temperature: 0 below the first threshold, and otherwise one above the largest
`L` with `T >= limits[L].temperature`, capped at `n - 1`. -/
theorem thermal_zone_index_ascending (tbl : List tegra_edp_limits) (n : Nat) (T : Int)
    (hn : 1 ≤ n)
    (hasc : ∀ i j : Nat, i ≤ j → j < n →
      (edp_row tbl i).temperature ≤ (edp_row tbl j).temperature) :
    (T < (edp_row tbl 0).temperature → thermal_zone_index tbl n T = 0) ∧
    (∀ L : Nat, L < n → T ≥ (edp_row tbl L).temperature →
      (∀ j : Nat, j < n → T ≥ (edp_row tbl j).temperature → j ≤ L) →
      thermal_zone_index tbl n T = min ((L : Int) + 1) ((n : Int) - 1)) := by
  constructor
  · intro h
    unfold thermal_zone_index
    rw [if_pos h]
  · intro L hL hT hmax
    have h0 : ¬ T < (edp_row tbl 0).temperature := by
      have := hasc 0 L (Nat.zero_le L) hL
      simp only [Nat.cast_zero] at this
      omega
    unfold thermal_zone_index
    rw [if_neg h0]
    have hleft : ((n : Int) - 1).toNat = n - 1 := by omega
    rw [hleft]
    by_cases hlast : L = n - 1
    · have : min ((L : Int) + 1) ((n : Int) - 1) = (n : Int) - 1 := by omega
      rw [this]
      apply thermal_zone_loop_none
      intro j _ hj hc
      have h1 := hasc (j + 1) L (by omega) hL
      have h2 : ((j + 1 : Nat) : Int) = (j : Int) + 1 := by push_cast; rfl
      rw [h2] at h1
      omega
    · have : min ((L : Int) + 1) ((n : Int) - 1) = (L : Int) + 1 := by omega
      rw [this]
      apply thermal_zone_loop_found tbl T _ L (n - 1) 0 (Nat.zero_le L) (by omega)
      · refine ⟨hT, ?_⟩
        by_contra hc
        have := hmax (L + 1) (by omega)
          (by
            have h2 : ((L + 1 : Nat) : Int) = (L : Int) + 1 := by push_cast; rfl
            rw [h2]; omega)
        omega
      · intro j _ hj hc
        have h1 := hasc (j + 1) L (by omega) hL
        have h2 : ((j + 1 : Nat) : Int) = (j : Int) + 1 := by push_cast; rfl
        rw [h2] at h1
        omega

/-- C23, amended: for a limits table of size `n >= 1` ordered ascending by
temperature and every temperature `T`, `tegra_edp_update_thermal_zone` returns
0 and selects zone 0 when `T` is below the first threshold, and otherwise
selects zone `min(L + 1, n - 1)`, where `L` is the largest `i` with
`T >= limits[i].temperature`. -/
theorem C23_thermal_zone_selection (s : EdpState) (tbl : List tegra_edp_limits)
    (n : Nat) (T : Int)
    (htbl : s.cpu_edp_limits = some tbl)
    (hsize : s.cpu_edp_limits_size = n)
    (hn : 1 ≤ n)
    (hasc : ∀ i j : Nat, i ≤ j → j < n →
      (edp_row tbl i).temperature ≤ (edp_row tbl j).temperature) :
    (T < (edp_row tbl 0).temperature →
      tegra_edp_update_thermal_zone s T = (0, some 0)) ∧
    (∀ L : Nat, L < n → T ≥ (edp_row tbl L).temperature →
      (∀ j : Nat, j < n → T ≥ (edp_row tbl j).temperature → j ≤ L) →
      tegra_edp_update_thermal_zone s T =
        (0, some (min ((L : Int) + 1) ((n : Int) - 1)))) := by
  have h := thermal_zone_index_ascending tbl n T hn hasc
  unfold tegra_edp_update_thermal_zone
  rw [htbl, hsize]
  constructor
  · intro h0
    simp only [h.1 h0]
  · intro L hL hT hmax
    simp only [h.2 L hL hT hmax]

/-- C24: for every core count `n >= 1` for which the limit of the current
thermal zone can be read (it is `freq_limits_oc[n - 1]` of the zone when
`enable_oc` is set and `freq_limits[n - 1]` otherwise), `edp_predict_limit(n)`
is the smaller of that limit and `system_edp_limits[n - 1]` when a system table
is present and the alarm asserted, is that limit when the alarm is de-asserted,
and so with the alarm asserted is never above the value with the alarm
de-asserted. -/
theorem C24_edp_predict_limit (s : EdpState) (n : Nat) (z : Nat) (hn : 1 ≤ n)
    (hz : edp_zone_limit s n = some z) :
    (∀ sys : List Nat, s.system_edp_limits = some sys → s.system_edp_alarm = true →
      edp_predict_limit s n = some (min z (arr sys ((n : Int) - 1)))) ∧
    (s.system_edp_alarm = false → edp_predict_limit s n = some z) ∧
    edp_predict_limit { s with system_edp_alarm := false } n = some z ∧
    (∀ a : Nat, edp_predict_limit { s with system_edp_alarm := true } n = some a →
      a ≤ z) ∧
    (∀ tbl : List tegra_edp_limits, s.cpu_edp_limits = some tbl →
      z = if s.enable_oc ≠ 0 then
          arr (edp_row tbl s.edp_thermal_index).freq_limits_oc ((n : Int) - 1)
        else arr (edp_row tbl s.edp_thermal_index).freq_limits ((n : Int) - 1)) := by
  have hn0 : ¬ n = 0 := by omega
  have hz2 : ∀ b : Bool, edp_zone_limit { s with system_edp_alarm := b } n = some z := by
    intro b
    rw [← hz]
    rfl
  refine ⟨?_, ?_, ?_, ?_, ?_⟩
  · intro sys hs ha
    unfold edp_predict_limit
    rw [if_neg hn0, hz]
    simp only [hs, ha, if_true]
  · intro ha
    unfold edp_predict_limit
    rw [if_neg hn0, hz]
    cases hs : s.system_edp_limits <;> simp [ha]
  · unfold edp_predict_limit
    rw [if_neg hn0, hz2]
    cases hs : s.system_edp_limits <;> simp
  · intro a ha
    unfold edp_predict_limit at ha
    rw [if_neg hn0, hz2] at ha
    cases hs : s.system_edp_limits
    · simp [hs] at ha
      omega
    · simp [hs] at ha
      omega
  · intro tbl ht
    unfold edp_zone_limit at hz
    rw [ht] at hz
    simp only at hz
    split_ifs at hz with h1 h2
    · simp at hz
      rw [if_pos h2]; exact hz.symm
    · simp at hz
      rw [if_neg h2]; exact hz.symm

/-- Witness of the amended C23: in the table with the temperatures 20, 50 and
80 the temperature 10 selects zone 0, 30 zone 1, 60 zone 2 and 90 zone 2. -/
theorem C23_thermal_zone_selection_witness :
    tegra_edp_update_thermal_zone (sample_edp_state false) 10 = (0, some 0) ∧
    tegra_edp_update_thermal_zone (sample_edp_state false) 30 = (0, some 1) ∧
    tegra_edp_update_thermal_zone (sample_edp_state false) 60 = (0, some 2) ∧
    tegra_edp_update_thermal_zone (sample_edp_state false) 90 = (0, some 2) :=
  have hasc : ∀ i j : Nat, i ≤ j → j < 3 →
      (edp_row sample_edp_limits i).temperature ≤
        (edp_row sample_edp_limits j).temperature := by
    intro i j hij hj
    have hi : i < 3 := by omega
    interval_cases j <;> interval_cases i <;> decide
  ⟨(C23_thermal_zone_selection (sample_edp_state false) sample_edp_limits 3 10
      rfl rfl (by decide) hasc).1 (by decide),
   (C23_thermal_zone_selection (sample_edp_state false) sample_edp_limits 3 30
      rfl rfl (by decide) hasc).2 0 (by decide) (by decide)
      (by intro j hj; interval_cases j <;> decide),
   (C23_thermal_zone_selection (sample_edp_state false) sample_edp_limits 3 60
      rfl rfl (by decide) hasc).2 1 (by decide) (by decide)
      (by intro j hj; interval_cases j <;> decide),
   (C23_thermal_zone_selection (sample_edp_state false) sample_edp_limits 3 90
      rfl rfl (by decide) hasc).2 2 (by decide) (by decide)
      (by intro j hj; interval_cases j <;> decide)⟩

/-- Witness of C24: in zone 1 with two cores the zone limit is 1400000 kHz; with
the alarm asserted and 1100000 kHz in the system table the predicted limit is
1100000 kHz, with the alarm de-asserted it is 1400000 kHz. -/
theorem C24_edp_predict_limit_witness :
    edp_zone_limit (sample_edp_state true) 2 = some 1400000 ∧
    edp_predict_limit (sample_edp_state true) 2 = some 1100000 ∧
    edp_predict_limit (sample_edp_state false) 2 = some 1400000 :=
  ⟨by decide,
   (C24_edp_predict_limit (sample_edp_state true) 2 1400000 (by decide)
      (by decide)).1 [1200000, 1100000, 1000000, 900000] rfl rfl,
   (C24_edp_predict_limit (sample_edp_state false) 2 1400000 (by decide)
      (by decide)).2.1 rfl⟩

/-! ## Theorems: applying the resolved speed -/

/-- When the clock already reads the rounded rate, `tegra_update_cpu_speed`
returns 0 without a call. -/
theorem update_cpu_speed_settled (c : ClockEnv) (es : Bool) (p : Platform)
    (clk_rate rate : Nat)
    (h : tegra_getspeed c clk_rate 0 = rounded_khz c rate) :
    tegra_update_cpu_speed c es p clk_rate rate = (0, clk_rate, []) := by
  unfold tegra_update_cpu_speed
  split_ifs
  · rfl
  · simp only [h, if_true]

/-- After a `tegra_update_cpu_speed` that returned 0 outside early suspend, a
clock that reads back the rate set reads the rounded rate. -/
theorem update_cpu_speed_success (c : ClockEnv) (es : Bool) (p : Platform)
    (clk_rate rate : Nat) (hes : es = false)
    (hok : (tegra_update_cpu_speed c es p clk_rate rate).1 = 0)
    (hread : ∀ cur : Nat,
      (c.cpu_set_rate cur ((rounded_khz c rate * 1000) % 4294967296)).1 = 0 →
      tegra_getspeed c
        (c.cpu_set_rate cur ((rounded_khz c rate * 1000) % 4294967296)).2 0 =
          rounded_khz c rate) :
    tegra_getspeed c (tegra_update_cpu_speed c es p clk_rate rate).2.1 0 =
      rounded_khz c rate := by
  subst hes
  unfold tegra_update_cpu_speed at hok ⊢
  simp only [Bool.false_eq_true, if_false] at hok ⊢
  by_cases h0 : tegra_getspeed c clk_rate 0 = rounded_khz c rate
  · simp only [h0, if_true]
  · simp only [h0, if_false] at hok ⊢
    by_cases h1 : tegra_getspeed c clk_rate 0 < rounded_khz c rate ∧
        c.tegra_update_mselect_rate (rounded_khz c rate) ≠ 0
    · rw [if_pos h1] at hok
      exact absurd hok h1.2
    · rw [if_neg h1] at hok ⊢
      by_cases h2 : tegra_getspeed c clk_rate 0 < rounded_khz c rate ∧
          c.emc_set_rate (c.tegra_emc_to_cpu_ratio (rounded_khz c rate)) ≠ 0
      · rw [if_pos h2] at hok
        exact absurd hok h2.2
      · rw [if_neg h2] at hok ⊢
        by_cases h3 : (c.cpu_set_rate clk_rate
            ((rounded_khz c rate * 1000) % 4294967296)).1 ≠ 0
        · rw [if_pos h3] at hok
          exact absurd hok h3
        · rw [if_neg h3]
          exact hread clk_rate (not_not.mp h3)

/-- Off the bargaining path the speed resolved is the capped `speed_wocap`, and
the statics of the bargainer are left as they were. -/
theorem speed_cap_resolve_without_bargain (e : SpeedEnv) (st : SpeedState)
    (h : e.is_bthp_en = false ∨ e.bthp.platform.lp_cluster = true) :
    speed_cap_resolve e st =
      { ret := get_scaled_freq e.bthp.tegra_throttle_governor_speed e.bthp.caps
          (speed_wocap e st),
        state := st.bthp, calls := [] } := by
  unfold speed_cap_resolve
  rw [if_neg]
  rcases h with h | h <;> simp [h]

/-- The cpuquiet.c side of `tegra_cpu_set_speed_cap` is the effect
`speed_cap_call` of the path `speed_cap_path`. -/
theorem speed_cap_call_refines (e : SpeedEnv) (st : SpeedState) :
    (speed_cap_call (speed_cap_path e st) e.bthp.platform st.cpq).1 =
      (tegra_cpu_set_speed_cap e st).state.cpq ∧
    (speed_cap_call (speed_cap_path e st) e.bthp.platform st.cpq).2 =
      Call.tegra_cpu_set_speed_cap :: (tegra_cpu_set_speed_cap e st).cpq_calls := by
  unfold speed_cap_path tegra_cpu_set_speed_cap speed_cap_call
  by_cases h1 : e.in_earlysuspend = true
  · simp [h1]
  · by_cases h2 : e.is_suspended = true
    · simp [h1, h2]
    · by_cases h3 : e.is_bthp_en = true ∧ e.bthp.platform.lp_cluster = false
      · by_cases h4 : tegra_getspeed e.clk st.clk_rate 0 = (speed_cap_resolve e st).ret
        · simp [h1, h2, h3, h4]
        · simp [h1, h2, h3, h4]
      · by_cases h4 : tegra_getspeed e.clk st.clk_rate 0 = (speed_cap_resolve e st).ret
        · simp [h1, h2, h3, h4]
        · simp [h1, h2, h3, h4]

/-- On the low-power cluster with core 0 asking for 204000 kHz and the clock at
340000 kHz, `tegra_cpu_set_speed_cap(NULL)` reaches
`tegra_auto_hotplug_governor(204000, false)`. -/
theorem speed_cap_path_reaches_governor :
    speed_cap_path lp_speed_env lp_speed_state = SpeedCapPath.calls_governor 204000 ∧
    (tegra_cpu_set_speed_cap lp_speed_env lp_speed_state).state.cpq.cpq_state =
      CpqState.TEGRA_CPQ_IDLE := by
  decide

/-- C21, as stated, fails: with bargaining enabled, both online cores asking
for 1000000 kHz, one vote and a vote factor of 10 percent, a call made 50 ms
after the last hotplug is stopped by the debounce test, sets the clock to
1000000 kHz and returns 0 with the per-core targets unchanged; the same call
made again 200 ms after the last hotplug, with nothing else changed, bargains,
scales the speed by the vote and sets the clock to 1100000 kHz. -/
theorem C21_counterexample :
    (tegra_cpu_set_speed_cap (sample_speed_env 1050000000) sample_speed_state).ret = 0 ∧
    (tegra_cpu_set_speed_cap (sample_speed_env 1050000000)
      sample_speed_state).state.bthp.target_cpu_speed =
        sample_speed_state.bthp.target_cpu_speed ∧
    (tegra_cpu_set_speed_cap (sample_speed_env 1050000000)
      sample_speed_state).state.clk_rate = 1000000000 ∧
    (tegra_cpu_set_speed_cap (sample_speed_env 1200000000)
      (tegra_cpu_set_speed_cap (sample_speed_env 1050000000)
        sample_speed_state).state).ret = 0 ∧
    ClkCall.clk_set_rate_cpu 1100000000 ∈
      (tegra_cpu_set_speed_cap (sample_speed_env 1200000000)
        (tegra_cpu_set_speed_cap (sample_speed_env 1050000000)
          sample_speed_state).state).clk_calls ∧
    (tegra_cpu_set_speed_cap (sample_speed_env 1200000000)
      (tegra_cpu_set_speed_cap (sample_speed_env 1050000000)
        sample_speed_state).state).state.clk_rate = 1100000000 := by
  decide

/-- C21, amended: if a call of `tegra_cpu_set_speed_cap` returns 0 and the next
call is made on the state it left, not suspended, with the same early-suspend
flag and the same clock, the clock reads back the rate set for the resolved
speed, and the next call resolves the same speed as the first, then the next
call returns 0, makes no call to the clock framework and leaves the rate of
the CPU clock as it was. -/
theorem C21_speed_cap_idempotent (e1 e2 : SpeedEnv) (st : SpeedState)
    (hok : (tegra_cpu_set_speed_cap e1 st).ret = 0)
    (hclk : e2.clk = e1.clk)
    (hes : e2.in_earlysuspend = e1.in_earlysuspend)
    (hsus : e2.is_suspended = false)
    (hread : ∀ cur : Nat,
      (e1.clk.cpu_set_rate cur
        ((rounded_khz e1.clk (speed_cap_resolve e1 st).ret * 1000) % 4294967296)).1 = 0 →
      tegra_getspeed e1.clk
        (e1.clk.cpu_set_rate cur
          ((rounded_khz e1.clk (speed_cap_resolve e1 st).ret * 1000) % 4294967296)).2 0 =
        rounded_khz e1.clk (speed_cap_resolve e1 st).ret)
    (hsame : (speed_cap_resolve e2 (tegra_cpu_set_speed_cap e1 st).state).ret =
      (speed_cap_resolve e1 st).ret) :
    (tegra_cpu_set_speed_cap e2 (tegra_cpu_set_speed_cap e1 st).state).ret = 0 ∧
    (tegra_cpu_set_speed_cap e2 (tegra_cpu_set_speed_cap e1 st).state).clk_calls = [] ∧
    (tegra_cpu_set_speed_cap e2 (tegra_cpu_set_speed_cap e1 st).state).state.clk_rate =
      (tegra_cpu_set_speed_cap e1 st).state.clk_rate := by
  by_cases hearly : e1.in_earlysuspend = true
  · have h2 : e2.in_earlysuspend = true := hes.trans hearly
    unfold tegra_cpu_set_speed_cap
    rw [if_pos h2, if_pos hearly]
    exact ⟨rfl, rfl, rfl⟩
  · have he1 : e1.in_earlysuspend = false := by simpa using hearly
    have he2 : e2.in_earlysuspend = false := hes.trans he1
    have hs1 : e1.is_suspended = false := by
      by_contra hc
      have hc1 : e1.is_suspended = true := by simpa using hc
      unfold tegra_cpu_set_speed_cap at hok
      simp only [he1, hc1, Bool.false_eq_true, if_false, if_true] at hok
      revert hok
      decide
    have key : tegra_getspeed e1.clk (tegra_cpu_set_speed_cap e1 st).state.clk_rate 0 =
          (speed_cap_resolve e1 st).ret ∨
        tegra_getspeed e1.clk (tegra_cpu_set_speed_cap e1 st).state.clk_rate 0 =
          rounded_khz e1.clk (speed_cap_resolve e1 st).ret := by
      unfold tegra_cpu_set_speed_cap at hok ⊢
      simp only [he1, hs1, Bool.false_eq_true, if_false] at hok ⊢
      by_cases hb : e1.is_bthp_en = true ∧ (!e1.bthp.platform.lp_cluster) = true
      · rw [if_pos hb] at hok ⊢
        by_cases hc : tegra_getspeed e1.clk st.clk_rate 0 = (speed_cap_resolve e1 st).ret
        · rw [if_pos hc]
          exact Or.inl hc
        · rw [if_neg hc] at hok ⊢
          exact Or.inr (update_cpu_speed_success e1.clk false e1.bthp.platform _ _ rfl
            hok hread)
      · rw [if_neg hb] at hok ⊢
        by_cases hc : tegra_getspeed e1.clk st.clk_rate 0 = (speed_cap_resolve e1 st).ret
        · rw [if_pos hc]
          exact Or.inl hc
        · rw [if_neg hc] at hok ⊢
          exact Or.inr (update_cpu_speed_success e1.clk false e1.bthp.platform _ _ rfl
            hok hread)
    generalize (tegra_cpu_set_speed_cap e1 st).state = st1 at hsame key ⊢
    unfold tegra_cpu_set_speed_cap
    simp only [he2, hsus, Bool.false_eq_true, if_false, hclk, hsame]
    by_cases hc : tegra_getspeed e1.clk st1.clk_rate 0 = (speed_cap_resolve e1 st).ret
    · simp only [hc, if_true, ite_self]
      split_ifs <;> exact ⟨rfl, rfl, rfl⟩
    · have hr : tegra_getspeed e1.clk st1.clk_rate 0 =
          rounded_khz e1.clk (speed_cap_resolve e1 st).ret := by
        rcases key with h | h
        · exact absurd h hc
        · exact h
      simp only [hc, if_false, update_cpu_speed_settled e1.clk false e2.bthp.platform
        st1.clk_rate _ hr]
      split_ifs <;> exact ⟨rfl, rfl, rfl⟩

/-- C22: `tegra_suspended_target(target)` returns `-EBUSY` and makes no call
when the system is not suspended; when it is suspended it hands
`edp_governor_speed(tegra_throttle_governor_speed(target))` to
`tegra_update_cpu_speed`, and its result is the same for every user cap and
every QoS minimum and maximum frequency. -/
theorem C22_suspended_target (e : SpeedEnv) (clk_rate target : Nat) :
    (e.is_suspended = false →
      tegra_suspended_target e clk_rate target = (-EBUSY, clk_rate, [])) ∧
    (e.is_suspended = true →
      tegra_suspended_target e clk_rate target =
        tegra_update_cpu_speed e.clk e.in_earlysuspend e.bthp.platform clk_rate
          (edp_governor_speed e.bthp.caps
            (e.bthp.tegra_throttle_governor_speed target))) ∧
    (∀ cpu_user_cap qos_min qos_max : Nat,
      tegra_suspended_target
        { e with bthp := { e.bthp with caps :=
          { e.bthp.caps with cpu_user_cap := cpu_user_cap, qos_min := qos_min,
                             qos_max := qos_max } } } clk_rate target =
      tegra_suspended_target e clk_rate target) := by
  refine ⟨?_, ?_, ?_⟩
  · intro h
    unfold tegra_suspended_target
    simp [h]
  · intro h
    unfold tegra_suspended_target
    simp [h]
  · intro a b c
    rfl

/-- Witness of the amended C21: a second call made 60 ms after the last
hotplug, still inside the debounce window, resolves 1000000 kHz again, returns
0 and makes no call to the clock framework. -/
theorem C21_speed_cap_idempotent_witness :
    (tegra_cpu_set_speed_cap (sample_speed_env 1050000000) sample_speed_state).ret = 0 ∧
    (tegra_cpu_set_speed_cap (sample_speed_env 1060000000)
      (tegra_cpu_set_speed_cap (sample_speed_env 1050000000)
        sample_speed_state).state).ret = 0 ∧
    (tegra_cpu_set_speed_cap (sample_speed_env 1060000000)
      (tegra_cpu_set_speed_cap (sample_speed_env 1050000000)
        sample_speed_state).state).clk_calls = [] :=
  have hr : tegra_getspeed (sample_speed_env 1050000000).clk
      ((rounded_khz (sample_speed_env 1050000000).clk
        (speed_cap_resolve (sample_speed_env 1050000000) sample_speed_state).ret * 1000) %
          4294967296) 0 =
      rounded_khz (sample_speed_env 1050000000).clk
        (speed_cap_resolve (sample_speed_env 1050000000) sample_speed_state).ret := by
    decide
  have h := C21_speed_cap_idempotent (sample_speed_env 1050000000)
    (sample_speed_env 1060000000) sample_speed_state (by decide) rfl rfl rfl
    (fun _ _ => hr) (by decide)
  ⟨by decide, h.1, h.2.1⟩

/-- Witness of C22: not suspended, a target of 1000000 kHz is refused with
`-EBUSY`; suspended, with the clock at 340000 kHz and no EDP limit, the clock
is set to 1000000 kHz. -/
theorem C22_suspended_target_witness :
    tegra_suspended_target (sample_speed_env 0) 340000000 1000000 =
      (-EBUSY, 340000000, []) ∧
    (tegra_suspended_target { sample_speed_env 0 with is_suspended := true }
      340000000 1000000).2.1 = 1000000000 := by
  have h1 := (C22_suspended_target (sample_speed_env 0) 340000000 1000000).1 rfl
  have h2 := (C22_suspended_target { sample_speed_env 0 with is_suspended := true }
    340000000 1000000).2.1 rfl
  refine ⟨h1, ?_⟩
  rw [h2]
  decide

/-- The bargaining step of `tegra_cpu_set_speed_cap` never hands back less
than the speed it was entered with. -/
theorem speed_cap_bargain_ge (e : SpeedEnv) (st : SpeedState) (new_speed : Nat) :
    new_speed ≤ (speed_cap_bargain e st new_speed).ret ∧
    ((speed_cap_bargain e st new_speed).ret = new_speed ∨
      (speed_cap_bargain e st new_speed).ret =
        max new_speed
          (_do_trade_bargain e.bthp (kick st.bthp e.bthp.smp_processor_id e.now)
            (tegra_getspeed e.clk st.clk_rate 0) new_speed BTHP_DO_NOTHING).ret) := by
  unfold speed_cap_bargain
  split_ifs with h
  · simp only [bargain_round_step]
    split_ifs with h1 h2 h3
    · refine ⟨le_refl _, Or.inl rfl⟩
    · refine ⟨by omega, Or.inr ?_⟩
      rw [max_eq_right (by omega)]
    · exact ⟨le_refl _, Or.inl rfl⟩
    · exact ⟨le_refl _, Or.inl rfl⟩
  · exact ⟨le_refl _, Or.inl rfl⟩

/-- C37: in `tegra_cpu_set_speed_cap`, past the two suspend tests, on the
performance cluster with bargaining enabled, the speed stored through
`speed_cap` is at least the speed `get_scaled_freq` resolved before bargaining:
it is that speed or the larger of it and the value `_do_trade_bargain`
returned, whatever that value is; and this is the speed applied: nothing is
written to the clock when it equals the current speed, and otherwise
`tegra_update_cpu_speed` is called with it. -/
theorem C37_bargain_never_lowers (e : SpeedEnv) (st : SpeedState)
    (hearly : e.in_earlysuspend = false) (hsusp : e.is_suspended = false)
    (hen : e.is_bthp_en = true) (hg : e.bthp.platform.lp_cluster = false) :
    ∃ v : Nat,
      (tegra_cpu_set_speed_cap e st).speed_cap = some v ∧
      get_scaled_freq e.bthp.tegra_throttle_governor_speed e.bthp.caps
        (speed_wocap e st) ≤ v ∧
      (v = get_scaled_freq e.bthp.tegra_throttle_governor_speed e.bthp.caps
          (speed_wocap e st) ∨
        v = max
          (get_scaled_freq e.bthp.tegra_throttle_governor_speed e.bthp.caps
            (speed_wocap e st))
          (_do_trade_bargain e.bthp (kick st.bthp e.bthp.smp_processor_id e.now)
            (tegra_getspeed e.clk st.clk_rate 0)
            (get_scaled_freq e.bthp.tegra_throttle_governor_speed e.bthp.caps
              (speed_wocap e st)) BTHP_DO_NOTHING).ret) ∧
      (tegra_getspeed e.clk st.clk_rate 0 = v →
        (tegra_cpu_set_speed_cap e st).ret = 0 ∧
        (tegra_cpu_set_speed_cap e st).clk_calls = [] ∧
        (tegra_cpu_set_speed_cap e st).state.clk_rate = st.clk_rate) ∧
      (tegra_getspeed e.clk st.clk_rate 0 ≠ v →
        ((tegra_cpu_set_speed_cap e st).ret,
         (tegra_cpu_set_speed_cap e st).state.clk_rate,
         (tegra_cpu_set_speed_cap e st).clk_calls) =
          tegra_update_cpu_speed e.clk e.in_earlysuspend e.bthp.platform
            st.clk_rate v) := by
  have hb := speed_cap_bargain_ge e st
    (get_scaled_freq e.bthp.tegra_throttle_governor_speed e.bthp.caps (speed_wocap e st))
  have hres : speed_cap_resolve e st = speed_cap_bargain e st
      (get_scaled_freq e.bthp.tegra_throttle_governor_speed e.bthp.caps
        (speed_wocap e st)) := by
    unfold speed_cap_resolve
    simp [hen, hg]
  refine ⟨(speed_cap_resolve e st).ret, ?_, ?_, ?_, ?_, ?_⟩
  · unfold tegra_cpu_set_speed_cap
    simp only [hearly, hsusp, hen, hg]
    simp only [Bool.false_eq_true, if_false, Bool.not_false, and_self, if_true]
    split_ifs <;> rfl
  · rw [hres]; exact hb.1
  · rw [hres]; exact hb.2
  · intro hc
    unfold tegra_cpu_set_speed_cap
    simp only [hearly, hsusp, hen, hg]
    simp only [Bool.false_eq_true, if_false, Bool.not_false, and_self, if_true]
    rw [if_pos hc]
    exact ⟨rfl, rfl, rfl⟩
  · intro hc
    unfold tegra_cpu_set_speed_cap
    simp only [hearly, hsusp, hen, hg]
    simp only [Bool.false_eq_true, if_false, Bool.not_false, and_self, if_true]
    rw [if_neg hc]

/-- Witness of C37: at time 1200000000 on the sample state the vote-scaled
bargain resolves 1100000 kHz, above the 1000000 kHz resolved before it. -/
theorem C37_bargain_never_lowers_witness :
    ∃ v : Nat,
      (tegra_cpu_set_speed_cap (sample_speed_env 1200000000) sample_speed_state).speed_cap
        = some v ∧
      get_scaled_freq (sample_speed_env 1200000000).bthp.tegra_throttle_governor_speed
        (sample_speed_env 1200000000).bthp.caps
        (speed_wocap (sample_speed_env 1200000000) sample_speed_state) ≤ v :=
  let ⟨v, h1, h2, _⟩ := C37_bargain_never_lowers (sample_speed_env 1200000000)
    sample_speed_state rfl rfl rfl rfl
  ⟨v, h1, h2⟩

/-- The loop of `tegra_edp_update_thermal_zone` leaves `index` as it was or
sets it to `j + 1` for a row `j` it visited. -/
theorem thermal_zone_loop_range (tbl : List tegra_edp_limits) (temperature : Int)
    (index : Int) (left : Nat) :
    ∀ i : Nat,
      thermal_zone_loop tbl temperature left i index = index ∨
      ∃ j : Nat, i ≤ j ∧ j < i + left ∧
        thermal_zone_loop tbl temperature left i index = (j : Int) + 1 := by
  induction left with
  | zero => intro i; exact Or.inl rfl
  | succ n ih =>
    intro i
    unfold thermal_zone_loop
    split_ifs with h
    · exact Or.inr ⟨i, le_refl i, by omega, rfl⟩
    · rcases ih (i + 1) with h1 | ⟨j, h1, h2, h3⟩
      · exact Or.inl h1
      · exact Or.inr ⟨j, by omega, by omega, h3⟩

/-- The zone index of a table of `n >= 1` rows is within `[0, n - 1]`. -/
theorem thermal_zone_index_range (tbl : List tegra_edp_limits) (n : Nat) (T : Int)
    (hn : 1 ≤ n) :
    0 ≤ thermal_zone_index tbl n T ∧ thermal_zone_index tbl n T ≤ (n : Int) - 1 := by
  unfold thermal_zone_index
  split_ifs with h
  · omega
  · have hleft : ((n : Int) - 1).toNat = n - 1 := by omega
    rw [hleft]
    rcases thermal_zone_loop_range tbl T ((n : Int) - 1) (n - 1) 0 with h1 | ⟨j, _, h2, h3⟩
    · rw [h1]; omega
    · rw [h3]; omega

/-- A temperature at or above the first threshold has a largest row at or
below it. -/
theorem thermal_zone_largest_row (tbl : List tegra_edp_limits) (n : Nat) (T : Int)
    (hn : 1 ≤ n) (h0 : T ≥ (edp_row tbl 0).temperature) :
    ∃ L : Nat, L < n ∧ T ≥ (edp_row tbl L).temperature ∧
      ∀ j : Nat, j < n → T ≥ (edp_row tbl j).temperature → j ≤ L := by
  refine ⟨Nat.findGreatest (fun i : Nat => T ≥ (edp_row tbl i).temperature) (n - 1), ?_, ?_, ?_⟩
  · have := Nat.findGreatest_le (P := fun i : Nat => T ≥ (edp_row tbl i).temperature) (n - 1)
    omega
  · exact Nat.findGreatest_spec (P := fun i : Nat => T ≥ (edp_row tbl i).temperature)
      (Nat.zero_le (n - 1)) (by simpa using h0)
  · intro j hj hT
    exact Nat.le_findGreatest (by omega) hT

/-- C34: for a limits table of size `n >= 1`, the zone index
`tegra_edp_update_thermal_zone` stores is within `[0, n - 1]` for every
temperature, so the bound check `edp_thermal_index >= cpu_edp_limits_size` of
`edp_predict_limit` does not fire on it; and when the table is ordered
ascending by temperature the index is non-decreasing in the temperature. -/
theorem C34_thermal_zone_ladder (s : EdpState) (tbl : List tegra_edp_limits) (n : Nat)
    (htbl : s.cpu_edp_limits = some tbl)
    (hsize : s.cpu_edp_limits_size = n)
    (hn : 1 ≤ n) :
    (∀ T : Int, ∃ idx : Int,
      tegra_edp_update_thermal_zone s T = (0, some idx) ∧
      0 ≤ idx ∧ idx ≤ (n : Int) - 1 ∧
      ∀ cpus : Nat, edp_zone_limit { s with edp_thermal_index := idx } cpus ≠ none) ∧
    ((∀ i j : Nat, i ≤ j → j < n →
        (edp_row tbl i).temperature ≤ (edp_row tbl j).temperature) →
      ∀ T1 T2 : Int, T1 ≤ T2 → ∀ i1 i2 : Int,
        tegra_edp_update_thermal_zone s T1 = (0, some i1) →
        tegra_edp_update_thermal_zone s T2 = (0, some i2) → i1 ≤ i2) := by
  have hval : ∀ T : Int, tegra_edp_update_thermal_zone s T =
      (0, some (thermal_zone_index tbl n T)) := by
    intro T
    unfold tegra_edp_update_thermal_zone
    rw [htbl, hsize]
  constructor
  · intro T
    have hr := thermal_zone_index_range tbl n T hn
    refine ⟨thermal_zone_index tbl n T, hval T, hr.1, hr.2, ?_⟩
    intro cpus
    unfold edp_zone_limit
    simp only [htbl, hsize]
    rw [if_neg (by omega)]
    split_ifs <;> simp
  · intro hasc T1 T2 hle i1 i2 h1 h2
    rw [hval] at h1 h2
    have e1 : thermal_zone_index tbl n T1 = i1 := by
      have := congrArg Prod.snd h1
      simpa using this
    have e2 : thermal_zone_index tbl n T2 = i2 := by
      have := congrArg Prod.snd h2
      simpa using this
    rw [← e1, ← e2]
    have a1 := thermal_zone_index_ascending tbl n T1 hn hasc
    have a2 := thermal_zone_index_ascending tbl n T2 hn hasc
    by_cases c1 : T1 < (edp_row tbl 0).temperature
    · rw [a1.1 c1]
      exact (thermal_zone_index_range tbl n T2 hn).1
    · have c2 : ¬ T2 < (edp_row tbl 0).temperature := by omega
      obtain ⟨L1, hL1, hT1, hm1⟩ := thermal_zone_largest_row tbl n T1 hn (by omega)
      obtain ⟨L2, hL2, hT2, hm2⟩ := thermal_zone_largest_row tbl n T2 hn (by omega)
      rw [a1.2 L1 hL1 hT1 hm1, a2.2 L2 hL2 hT2 hm2]
      have : L1 ≤ L2 := hm2 L1 hL1 (by omega)
      omega

/-- Witness of C34: in the table of the three zones 20, 50 and 80 the
temperature 30 selects zone 1 and the temperature 60 selects zone 2. -/
theorem C34_thermal_zone_ladder_witness :
    tegra_edp_update_thermal_zone (sample_edp_state false) 30 = (0, some 1) ∧
    tegra_edp_update_thermal_zone (sample_edp_state false) 60 = (0, some 2) ∧
    (1 : Int) ≤ 2 :=
  have hasc : ∀ i j : Nat, i ≤ j → j < 3 →
      (edp_row sample_edp_limits i).temperature ≤
        (edp_row sample_edp_limits j).temperature := by
    intro i j hij hj
    have hi : i < 3 := by omega
    interval_cases j <;> interval_cases i <;> decide
  ⟨by decide, by decide,
   (C34_thermal_zone_ladder (sample_edp_state false) sample_edp_limits 3 rfl rfl
      (by decide)).2 hasc 30 60 (by decide) 1 2 (by decide) (by decide)⟩

theorem suboptimal_inv_L_step (t freq : Nat) (pre : List Nat) (v : target_locals)
    (h : suboptimal_inv_L t pre v.suboptimal) :
    suboptimal_inv_L t (pre ++ [freq])
      (target_freq_body t CPUFREQ_RELATION_L pre.length freq v).suboptimal := by
  have keep : (freq = CPUFREQ_ENTRY_INVALID ∨ t ≤ freq ∨ freq < v.suboptimal.frequency) →
      suboptimal_inv_L t (pre ++ [freq]) v.suboptimal := by
    intro hc
    rcases h with ⟨hi, hfr, hall⟩ | ⟨hi, hget, hmem, hne, hle, hall⟩
    · left
      refine ⟨hi, hfr, ?_⟩
      intro f hfm hfne
      rcases List.mem_append.1 hfm with hp | hl
      · exact hall f hp hfne
      · have : f = freq := by simpa using hl
        subst this
        rcases hc with hc | hc | hc
        · exact absurd hc hfne
        · exact hc
        · omega
    · right
      refine ⟨by simp; omega, ?_, List.mem_append_left _ hmem, hne, hle, ?_⟩
      · rw [getD_snoc_lt _ _ _ hi]; exact hget
      · intro f hfm hfne htf
        rcases List.mem_append.1 hfm with hp | hl
        · exact hall f hp hfne htf
        · have : f = freq := by simpa using hl
          subst this
          rcases hc with hc | hc | hc
          · exact absurd hc hfne
          · omega
          · omega
  unfold target_freq_body
  by_cases hinv : freq = CPUFREQ_ENTRY_INVALID
  · simp only [hinv, if_true]
    exact keep (Or.inl hinv) |> fun k => by simpa [hinv] using k
  · simp only [hinv, if_false, CPUFREQ_RELATION_L, CPUFREQ_RELATION_H]
    simp only [show ¬ ((0 : Nat) = 1) by decide, if_false, if_true]
    by_cases ht : freq ≥ t
    · simp only [ht, if_true]
      have k := keep (Or.inr (Or.inl ht))
      split_ifs <;> exact k
    · simp only [ht, if_false]
      by_cases hb : freq ≥ v.suboptimal.frequency
      · simp only [hb, if_true]
        right
        refine ⟨by simp, getD_snoc_last _ _, by simp, hinv, (by show freq < t; omega), ?_⟩
        intro f hfm hfne htf
        rcases List.mem_append.1 hfm with hp | hl
        · rcases h with ⟨_, _, hall⟩ | ⟨_, _, _, _, _, hall⟩
          · have := hall f hp hfne
            exact absurd htf (by omega)
          · have := hall f hp hfne htf
            exact le_trans this hb
        · have : f = freq := by simpa using hl
          subst this
          exact le_refl _
      · simp only [hb, if_false]
        exact keep (Or.inr (Or.inr (by omega)))

theorem suboptimal_inv_H_step (t freq : Nat) (pre : List Nat) (v : target_locals)
    (hf : freq ≤ UINT_MAX) (h : suboptimal_inv_H t pre v.suboptimal) :
    suboptimal_inv_H t (pre ++ [freq])
      (target_freq_body t CPUFREQ_RELATION_H pre.length freq v).suboptimal := by
  have keep : (freq = CPUFREQ_ENTRY_INVALID ∨ freq ≤ t ∨ v.suboptimal.frequency < freq) →
      suboptimal_inv_H t (pre ++ [freq]) v.suboptimal := by
    intro hc
    rcases h with ⟨hi, hfr, hall⟩ | ⟨hi, hget, hmem, hne, hle, hall⟩
    · left
      refine ⟨hi, hfr, ?_⟩
      intro f hfm hfne
      rcases List.mem_append.1 hfm with hp | hl
      · exact hall f hp hfne
      · have : f = freq := by simpa using hl
        subst this
        rcases hc with hc | hc | hc
        · exact absurd hc hfne
        · exact hc
        · omega
    · right
      refine ⟨by simp; omega, ?_, List.mem_append_left _ hmem, hne, hle, ?_⟩
      · rw [getD_snoc_lt _ _ _ hi]; exact hget
      · intro f hfm hfne htf
        rcases List.mem_append.1 hfm with hp | hl
        · exact hall f hp hfne htf
        · have : f = freq := by simpa using hl
          subst this
          rcases hc with hc | hc | hc
          · exact absurd hc hfne
          · omega
          · omega
  unfold target_freq_body
  by_cases hinv : freq = CPUFREQ_ENTRY_INVALID
  · simp only [hinv, if_true]
    exact keep (Or.inl hinv) |> fun k => by simpa [hinv] using k
  · simp only [hinv, if_false, CPUFREQ_RELATION_H, if_true]
    by_cases ht : freq ≤ t
    · simp only [ht, if_true]
      have k := keep (Or.inr (Or.inl ht))
      split_ifs <;> exact k
    · simp only [ht, if_false]
      by_cases hb : freq ≤ v.suboptimal.frequency
      · simp only [hb, if_true]
        right
        refine ⟨by simp, getD_snoc_last _ _, by simp, hinv, (by show t < freq; omega), ?_⟩
        intro f hfm hfne htf
        rcases List.mem_append.1 hfm with hp | hl
        · rcases h with ⟨_, _, hall⟩ | ⟨_, _, _, _, _, hall⟩
          · have := hall f hp hfne
            exact absurd htf (by omega)
          · have := hall f hp hfne htf
            exact le_trans hb this
        · have : f = freq := by simpa using hl
          subst this
          exact le_refl _
      · simp only [hb, if_false]
        exact keep (Or.inr (Or.inr (by omega)))

/-- Under `CPUFREQ_RELATION_L`, when no valid entry reaches the target,
`_cpu_target_freq` returns the largest valid entry below it. -/
theorem cpu_target_freq_L_fallback (tbl : List Nat) (t : Nat)
    (hfit : ∀ f ∈ tbl, f ≤ UINT_MAX) (hlen : tbl.length < UINT_MAX)
    (hex : ∃ f, valid_entry tbl f)
    (hno : ¬ ∃ f, valid_entry tbl f ∧ t ≤ f) :
    valid_entry tbl (_cpu_target_freq (some tbl) t CPUFREQ_RELATION_L) ∧
    _cpu_target_freq (some tbl) t CPUFREQ_RELATION_L < t ∧
    ∀ f, valid_entry tbl f → f < t →
      f ≤ _cpu_target_freq (some tbl) t CPUFREQ_RELATION_L := by
  have h := target_freq_loop_inv t CPUFREQ_RELATION_L (fun f => f ≤ UINT_MAX)
    (fun pre v => optimal_inv_L t pre v.optimal ∧ suboptimal_inv_L t pre v.suboptimal)
    (fun pre freq v hf hv =>
      ⟨optimal_inv_L_step t freq pre v hf hv.1, suboptimal_inv_L_step t freq pre v hv.2⟩)
    tbl []
    { optimal := { index := UINT_MAX, frequency := UINT_MAX },
      suboptimal := { index := UINT_MAX, frequency := 0 } }
    (fun f hf => hfit f (table_entries_mem tbl f hf))
    ⟨Or.inl ⟨rfl, rfl, by simp⟩, Or.inl ⟨rfl, rfl, by simp⟩⟩
  simp only [List.length_nil, Nat.zero_add, List.nil_append] at h
  obtain ⟨hlen2, hopt, hsub⟩ := h
  have hle := table_entries_le tbl
  rw [cpu_target_freq_eq_L, hlen2]
  rcases hopt with ⟨hoi, _, _⟩ | ⟨_, _, hmem, hne, hle2, _⟩
  · rw [if_pos (by rw [hoi]; omega)]
    rcases hsub with ⟨_, _, hall⟩ | ⟨hi, hget, hmem, hne, hlt, hall⟩
    · obtain ⟨f, hf⟩ := hex
      exact absurd ⟨f, hf, hall f hf.1 hf.2⟩ hno
    · rw [if_neg (by omega), table_entries_getD tbl _ hi, hget]
      exact ⟨⟨hmem, hne⟩, hlt, fun f hf htf => hall f hf.1 hf.2 htf⟩
  · exact absurd ⟨_, ⟨hmem, hne⟩, hle2⟩ hno

/-- Under `CPUFREQ_RELATION_H`, when no valid entry is at or below the target,
`_cpu_target_freq` returns the smallest valid entry above it. -/
theorem cpu_target_freq_H_fallback (tbl : List Nat) (t : Nat)
    (hfit : ∀ f ∈ tbl, f ≤ UINT_MAX) (hlen : tbl.length < UINT_MAX)
    (hex : ∃ f, valid_entry tbl f)
    (hno : ¬ ∃ f, valid_entry tbl f ∧ f ≤ t) :
    valid_entry tbl (_cpu_target_freq (some tbl) t CPUFREQ_RELATION_H) ∧
    t < _cpu_target_freq (some tbl) t CPUFREQ_RELATION_H ∧
    ∀ f, valid_entry tbl f → t < f →
      _cpu_target_freq (some tbl) t CPUFREQ_RELATION_H ≤ f := by
  have h := target_freq_loop_inv t CPUFREQ_RELATION_H (fun f => f ≤ UINT_MAX)
    (fun pre v => optimal_inv_H t pre v.optimal ∧ suboptimal_inv_H t pre v.suboptimal)
    (fun pre freq v hf hv =>
      ⟨optimal_inv_H_step t freq pre v hv.1, suboptimal_inv_H_step t freq pre v hf hv.2⟩)
    tbl []
    { optimal := { index := UINT_MAX, frequency := 0 },
      suboptimal := { index := UINT_MAX, frequency := UINT_MAX } }
    (fun f hf => hfit f (table_entries_mem tbl f hf))
    ⟨Or.inl ⟨rfl, rfl, by simp⟩, Or.inl ⟨rfl, rfl, by simp⟩⟩
  simp only [List.length_nil, Nat.zero_add, List.nil_append] at h
  obtain ⟨hlen2, hopt, hsub⟩ := h
  have hle := table_entries_le tbl
  rw [cpu_target_freq_eq_H, hlen2]
  rcases hopt with ⟨hoi, _, _⟩ | ⟨_, _, hmem, hne, hle2, _⟩
  · rw [if_pos (by rw [hoi]; omega)]
    rcases hsub with ⟨_, _, hall⟩ | ⟨hi, hget, hmem, hne, hlt, hall⟩
    · obtain ⟨f, hf⟩ := hex
      exact absurd ⟨f, hf, hall f hf.1 hf.2⟩ hno
    · rw [if_neg (by omega), table_entries_getD tbl _ hi, hget]
      exact ⟨⟨hmem, hne⟩, hlt, fun f hf htf => hall f hf.1 hf.2 htf⟩
  · exact absurd ⟨_, ⟨hmem, hne⟩, hle2⟩ hno

/-- C38: for a frequency table of `unsigned int` entries, shorter than `~0`,
with at least one valid entry, `_cpu_target_freq` returns a valid table entry
under `CPUFREQ_RELATION_L` and under `CPUFREQ_RELATION_H` for every target (so
it returns 0 only when 0 is a valid entry); when no valid entry is at or above
the target, relation L gives the largest valid entry below the target, and
when no valid entry is at or below the target, relation H gives the smallest
valid entry above it. -/
theorem C38_snap_returns_entry (tbl : List Nat) (t : Nat)
    (hfit : ∀ f ∈ tbl, f ≤ UINT_MAX) (hlen : tbl.length < UINT_MAX)
    (hex : ∃ f, valid_entry tbl f) :
    valid_entry tbl (_cpu_target_freq (some tbl) t CPUFREQ_RELATION_L) ∧
    valid_entry tbl (_cpu_target_freq (some tbl) t CPUFREQ_RELATION_H) ∧
    (_cpu_target_freq (some tbl) t CPUFREQ_RELATION_L = 0 → valid_entry tbl 0) ∧
    (_cpu_target_freq (some tbl) t CPUFREQ_RELATION_H = 0 → valid_entry tbl 0) ∧
    ((¬ ∃ f, valid_entry tbl f ∧ t ≤ f) →
      _cpu_target_freq (some tbl) t CPUFREQ_RELATION_L < t ∧
      ∀ f, valid_entry tbl f → f < t →
        f ≤ _cpu_target_freq (some tbl) t CPUFREQ_RELATION_L) ∧
    ((¬ ∃ f, valid_entry tbl f ∧ f ≤ t) →
      t < _cpu_target_freq (some tbl) t CPUFREQ_RELATION_H ∧
      ∀ f, valid_entry tbl f → t < f →
        _cpu_target_freq (some tbl) t CPUFREQ_RELATION_H ≤ f) := by
  have hL : valid_entry tbl (_cpu_target_freq (some tbl) t CPUFREQ_RELATION_L) := by
    by_cases h : ∃ f, valid_entry tbl f ∧ t ≤ f
    · exact (cpu_target_freq_L tbl t hfit h).1
    · exact (cpu_target_freq_L_fallback tbl t hfit hlen hex h).1
  have hH : valid_entry tbl (_cpu_target_freq (some tbl) t CPUFREQ_RELATION_H) := by
    by_cases h : ∃ f, valid_entry tbl f ∧ f ≤ t
    · exact (cpu_target_freq_H tbl t h).1
    · exact (cpu_target_freq_H_fallback tbl t hfit hlen hex h).1
  refine ⟨hL, hH, ?_, ?_, ?_, ?_⟩
  · intro h0; rw [h0] at hL; exact hL
  · intro h0; rw [h0] at hH; exact hH
  · intro h; exact (cpu_target_freq_L_fallback tbl t hfit hlen hex h).2
  · intro h; exact (cpu_target_freq_H_fallback tbl t hfit hlen hex h).2

/-- Witness of C38: on the sample table the target 2000000 kHz, above every
entry, gives 1600000 kHz under relation L, and the target 10000 kHz, below
every entry, gives 51000 kHz under relation H. -/
theorem C38_snap_returns_entry_witness :
    _cpu_target_freq (some sample_freq_table) 2000000 CPUFREQ_RELATION_L = 1600000 ∧
    _cpu_target_freq (some sample_freq_table) 10000 CPUFREQ_RELATION_H = 51000 ∧
    valid_entry sample_freq_table
      (_cpu_target_freq (some sample_freq_table) 2000000 CPUFREQ_RELATION_L) ∧
    _cpu_target_freq (some sample_freq_table) 2000000 CPUFREQ_RELATION_L < 2000000 ∧
    10000 < _cpu_target_freq (some sample_freq_table) 10000 CPUFREQ_RELATION_H :=
  have hno : ∀ f, valid_entry sample_freq_table f → f < 2000000 ∧ 10000 < f := by
    intro f hf
    have hm : ∀ g ∈ table_entries sample_freq_table, g < 2000000 ∧ 10000 < g := by decide
    exact hm f hf.1
  ⟨by decide, by decide,
   (C38_snap_returns_entry sample_freq_table 2000000 (by decide) (by decide)
      ⟨51000, by decide⟩).1,
   ((C38_snap_returns_entry sample_freq_table 2000000 (by decide) (by decide)
      ⟨51000, by decide⟩).2.2.2.2.1
        (fun ⟨f, hf, hle⟩ => absurd (hno f hf).1 (by omega))).1,
   ((C38_snap_returns_entry sample_freq_table 10000 (by decide) (by decide)
      ⟨51000, by decide⟩).2.2.2.2.2
        (fun ⟨f, hf, hle⟩ => absurd (hno f hf).2 (by omega))).1⟩

/-- What a call of `_adjust__one_core_up` that is not performance-critical
does: it leaves `params` as they are, or it records `CPU_UP` with a power
delta below `diff_power` when there are votes and below `best_diff_power`
when there are none. -/
theorem adjust_one_core_up_accept (e : bthp_env) (st : bthp_state) (params : bthp_params)
    (hnc : params.qos_perf_critical = false) :
    _adjust__one_core_up e st params = params ∨
    ((_adjust__one_core_up e st params).best_hotplug_decision = BTHP_CPU_UP ∧
      (_adjust__one_core_up e st params).best_diff_power <
        (if params.qos_perf_up_votes > 0 then params.diff_power
         else params.best_diff_power) ∧
      (_adjust__one_core_up e st params).diff_power = params.diff_power ∧
      (_adjust__one_core_up e st params).qos_perf_up_votes = params.qos_perf_up_votes ∧
      (_adjust__one_core_up e st params).qos_perf_critical = params.qos_perf_critical ∧
      (params.qos_perf_up_votes > 0 →
        better_perf e.tun (_adjust__one_core_up e st params).best_target_speed
          (params.active_cpus + 1) params.best_target_speed
          (if params.best_hotplug_decision = BTHP_CPU_DOWN then params.active_cpus - 1
           else params.active_cpus) = true)) := by
  rw [adjust_one_core_up_eq]
  simp only [hnc, Bool.false_eq_true, if_false]
  split_ifs
  all_goals first
    | exact Or.inl rfl
    | (right; refine ⟨rfl, ?_, rfl, rfl, rfl, ?_⟩ <;> simp_all)

/-- What a call of `_adjust__one_core_down` that is not performance-critical
does: it leaves `params` as they are, or it records `CPU_DOWN` with a power
delta below `diff_power` when there are votes and below `best_diff_power`
when there are none. -/
theorem adjust_one_core_down_accept (e : bthp_env) (st : bthp_state)
    (params : bthp_params) :
    _adjust__one_core_down e st params = params ∨
    ((_adjust__one_core_down e st params).best_hotplug_decision = BTHP_CPU_DOWN ∧
      (_adjust__one_core_down e st params).best_diff_power <
        (if params.qos_perf_up_votes > 0 then params.diff_power
         else params.best_diff_power) ∧
      (_adjust__one_core_down e st params).diff_power = params.diff_power ∧
      (_adjust__one_core_down e st params).qos_perf_up_votes = params.qos_perf_up_votes ∧
      (_adjust__one_core_down e st params).qos_perf_critical =
        params.qos_perf_critical ∧
      (params.qos_perf_up_votes > 0 →
        better_perf e.tun (_adjust__one_core_down e st params).best_target_speed
          (params.active_cpus - 1) params.best_target_speed
          (if params.best_hotplug_decision = BTHP_CPU_UP then params.active_cpus + 1
           else params.active_cpus) = true)) := by
  unfold _adjust__one_core_down
  lift_lets
  intros
  split_ifs
  all_goals first
    | exact Or.inl rfl
    | (right; refine ⟨rfl, ?_, rfl, rfl, rfl, ?_⟩ <;> simp_all)

/-- C31, as stated, fails: in the bargain from 1000000 kHz to 1000000 kHz on
three cores with one vote, not performance-critical, the core-up evaluation
records `CPU_UP` at 860000 kHz with the power delta -1000, and the core-down
evaluation that follows records `CPU_DOWN` at 1500000 kHz with the power delta
-100: the candidate beats the recorded one under `better_perf` and its delta
is below `diff_power = 0`, which is what the test of cpu-tegra.c:1590 compares
with when there are votes, so `best_diff_power` goes up from -1000 to -100. -/
theorem C31_counterexample :
    (bargain_align_min trade_env
      (bargain_prepare trade_env 1000000 1000000)).qos_perf_critical = false ∧
    (bargain_align_min trade_env
      (bargain_prepare trade_env 1000000 1000000)).qos_perf_up_votes = 1 ∧
    (_adjust__one_core_up trade_env trade_state
      (bargain_align_min trade_env
        (bargain_prepare trade_env 1000000 1000000))).best_hotplug_decision =
      BTHP_CPU_UP ∧
    (_adjust__one_core_up trade_env trade_state
      (bargain_align_min trade_env
        (bargain_prepare trade_env 1000000 1000000))).best_diff_power = -1000 ∧
    (_adjust__one_core_down trade_env trade_state
      (_adjust__one_core_up trade_env trade_state
        (bargain_align_min trade_env
          (bargain_prepare trade_env 1000000 1000000)))).best_hotplug_decision =
      BTHP_CPU_DOWN ∧
    (_adjust__one_core_down trade_env trade_state
      (_adjust__one_core_up trade_env trade_state
        (bargain_align_min trade_env
          (bargain_prepare trade_env 1000000 1000000)))).best_diff_power = -100 ∧
    bargain_selected trade_env trade_state 1000000 1000000 BTHP_DO_NOTHING =
      _adjust__one_core_down trade_env trade_state
        (_adjust__one_core_up trade_env trade_state
          (bargain_align_min trade_env (bargain_prepare trade_env 1000000 1000000))) := by
  decide

/-- C31, amended: for every call of `_adjust__one_core_up` or
`_adjust__one_core_down` with `qos.perf_critical` false, if the call records a
new decision then, without performance votes, the new `best_diff_power` is
strictly less than the value `best_diff_power` held before the call, and with
performance votes it is strictly less than `diff_power`, the power delta of
plain frequency scaling, and the candidate beats the recorded best under
`better_perf`; so across the two evaluations, entered with
`best_diff_power <= diff_power`, `best_diff_power` never rises above
`diff_power`, and without votes it never increases. -/
theorem C31_best_power_bounded (e : bthp_env) (st : bthp_state) (params : bthp_params)
    (hnc : params.qos_perf_critical = false) :
    (_adjust__one_core_up e st params = params ∨
      ((_adjust__one_core_up e st params).best_hotplug_decision = BTHP_CPU_UP ∧
        (_adjust__one_core_up e st params).best_diff_power <
          (if params.qos_perf_up_votes > 0 then params.diff_power
           else params.best_diff_power) ∧
        (params.qos_perf_up_votes > 0 →
          better_perf e.tun (_adjust__one_core_up e st params).best_target_speed
            (params.active_cpus + 1) params.best_target_speed
            (if params.best_hotplug_decision = BTHP_CPU_DOWN then params.active_cpus - 1
             else params.active_cpus) = true))) ∧
    (_adjust__one_core_down e st params = params ∨
      ((_adjust__one_core_down e st params).best_hotplug_decision = BTHP_CPU_DOWN ∧
        (_adjust__one_core_down e st params).best_diff_power <
          (if params.qos_perf_up_votes > 0 then params.diff_power
           else params.best_diff_power) ∧
        (params.qos_perf_up_votes > 0 →
          better_perf e.tun (_adjust__one_core_down e st params).best_target_speed
            (params.active_cpus - 1) params.best_target_speed
            (if params.best_hotplug_decision = BTHP_CPU_UP then params.active_cpus + 1
             else params.active_cpus) = true))) ∧
    (params.best_diff_power ≤ params.diff_power →
      (_adjust__one_core_down e st (_adjust__one_core_up e st params)).best_diff_power ≤
        params.diff_power ∧
      (params.qos_perf_up_votes ≤ 0 →
        (_adjust__one_core_up e st params).best_diff_power ≤ params.best_diff_power ∧
        (_adjust__one_core_down e st (_adjust__one_core_up e st params)).best_diff_power ≤
          (_adjust__one_core_up e st params).best_diff_power)) := by
  have hu := adjust_one_core_up_accept e st params hnc
  have hd := adjust_one_core_down_accept e st params
  have hd2 := adjust_one_core_down_accept e st (_adjust__one_core_up e st params)
  refine ⟨?_, ?_, ?_⟩
  · rcases hu with h | ⟨h1, h2, _, _, _, h6⟩
    · exact Or.inl h
    · exact Or.inr ⟨h1, h2, h6⟩
  · rcases hd with h | ⟨h1, h2, _, _, _, h6⟩
    · exact Or.inl h
    · exact Or.inr ⟨h1, h2, h6⟩
  · intro hle
    have hup : (_adjust__one_core_up e st params).best_diff_power ≤ params.diff_power ∧
        (_adjust__one_core_up e st params).diff_power = params.diff_power ∧
        (_adjust__one_core_up e st params).qos_perf_up_votes = params.qos_perf_up_votes ∧
        (params.qos_perf_up_votes ≤ 0 →
          (_adjust__one_core_up e st params).best_diff_power ≤ params.best_diff_power) := by
      rcases hu with h | ⟨_, h2, h3, h4, _, _⟩
      · rw [h]; exact ⟨hle, rfl, rfl, fun _ => le_refl _⟩
      · refine ⟨?_, h3, h4, ?_⟩
        · split_ifs at h2 <;> omega
        · intro hv
          rw [if_neg (by omega)] at h2
          omega
    obtain ⟨u1, u2, u3, u4⟩ := hup
    rcases hd2 with h | ⟨_, h2, _, _, _, _⟩
    · rw [h]
      exact ⟨u1, fun hv => ⟨u4 hv, le_refl _⟩⟩
    · rw [u2, u3] at h2
      refine ⟨?_, fun hv => ⟨u4 hv, ?_⟩⟩
      · split_ifs at h2 <;> omega
      · rw [if_neg (by omega)] at h2
        omega

/-- Witness of the amended C31: in the bargain of `trade_env` the two
evaluations leave `best_diff_power` at -100, not above `diff_power = 0`. -/
theorem C31_best_power_bounded_witness :
    (bargain_align_min trade_env
      (bargain_prepare trade_env 1000000 1000000)).diff_power = 0 ∧
    (_adjust__one_core_down trade_env trade_state
      (_adjust__one_core_up trade_env trade_state
        (bargain_align_min trade_env
          (bargain_prepare trade_env 1000000 1000000)))).best_diff_power ≤
      (bargain_align_min trade_env
        (bargain_prepare trade_env 1000000 1000000)).diff_power :=
  ⟨by decide,
   ((C31_best_power_bounded trade_env trade_state
      (bargain_align_min trade_env (bargain_prepare trade_env 1000000 1000000))
      (by decide)).2.2 (by decide)).1⟩

/-- C32, as stated, fails: in the bargain of `trade_env` the clamped candidate
of the core-up evaluation is 825000 kHz; the largest entry of the table at or
below it is 760000 kHz, yet the snapped speed is 860000 kHz, the smallest
entry at or above it: `_adjust__one_core_up` snaps with `CPUFREQ_RELATION_L`
(cpu-tegra.c:1408). -/
theorem C32_counterexample :
    trade_env.freq_table = some sample_freq_table ∧
    core_up_clamped trade_env trade_state
      (bargain_align_min trade_env (bargain_prepare trade_env 1000000 1000000)) = 825000 ∧
    valid_entry sample_freq_table 760000 ∧
    (∀ f ∈ table_entries sample_freq_table, f ≠ CPUFREQ_ENTRY_INVALID →
      f ≤ 825000 → f ≤ 760000) ∧
    core_up_snapped trade_env trade_state
      (bargain_align_min trade_env (bargain_prepare trade_env 1000000 1000000)) = 860000 ∧
    (_adjust__one_core_up trade_env trade_state
      (bargain_align_min trade_env
        (bargain_prepare trade_env 1000000 1000000))).best_target_speed = 860000 := by
  decide

/-- C32, amended: in the core-up evaluation the candidate speed, after
clamping to the policy min/max, is snapped with the relation
`CPUFREQ_RELATION_L`: for a table of `unsigned int` entries the snapped speed
is the smallest valid frequency-table entry at or above the clamped candidate
whenever such an entry exists, and otherwise, in a table shorter than `~0` with
a valid entry, the largest valid entry below the clamped candidate. -/
theorem C32_core_up_snap (e : bthp_env) (st : bthp_state) (params : bthp_params)
    (tbl : List Nat) (htbl : e.freq_table = some tbl)
    (hfit : ∀ f ∈ tbl, f ≤ UINT_MAX) :
    ((∃ f, valid_entry tbl f ∧ core_up_clamped e st params ≤ f) →
      valid_entry tbl (core_up_snapped e st params) ∧
      core_up_clamped e st params ≤ core_up_snapped e st params ∧
      ∀ f, valid_entry tbl f → core_up_clamped e st params ≤ f →
        core_up_snapped e st params ≤ f) ∧
    (tbl.length < UINT_MAX → (∃ f, valid_entry tbl f) →
      (¬ ∃ f, valid_entry tbl f ∧ core_up_clamped e st params ≤ f) →
      valid_entry tbl (core_up_snapped e st params) ∧
      core_up_snapped e st params < core_up_clamped e st params ∧
      ∀ f, valid_entry tbl f → f < core_up_clamped e st params →
        f ≤ core_up_snapped e st params) := by
  unfold core_up_snapped
  rw [htbl]
  exact ⟨cpu_target_freq_L tbl _ hfit,
    fun hlen hex hno => cpu_target_freq_L_fallback tbl _ hfit hlen hex hno⟩

/-- Witness of the amended C32: in the bargain of `trade_env` the clamped
candidate 825000 kHz is snapped to 860000 kHz, a valid entry at or above
it. -/
theorem C32_core_up_snap_witness :
    valid_entry sample_freq_table
      (core_up_snapped trade_env trade_state
        (bargain_align_min trade_env (bargain_prepare trade_env 1000000 1000000))) ∧
    core_up_clamped trade_env trade_state
      (bargain_align_min trade_env (bargain_prepare trade_env 1000000 1000000)) ≤
    core_up_snapped trade_env trade_state
      (bargain_align_min trade_env (bargain_prepare trade_env 1000000 1000000)) :=
  have h := (C32_core_up_snap trade_env trade_state
    (bargain_align_min trade_env (bargain_prepare trade_env 1000000 1000000))
    sample_freq_table rfl (by decide)).1 ⟨860000, by decide, by decide⟩
  ⟨h.1, h.2.1⟩

/-- One pass of the loop of `perf_votes_scaling`, written with the candidate
`vote_scaled`. -/
theorem perf_votes_scaling_loop_succ (e : bthp_env) (params : bthp_params)
    (base_freq n s : Nat) :
    perf_votes_scaling_loop e params base_freq (n + 1) s =
      if vote_scaled e base_freq (n + 1) ≤ params.qos_max_freq then
        if _cpu_target_freq e.freq_table (vote_scaled e base_freq (n + 1))
            CPUFREQ_RELATION_L = 0 then
          (base_freq, params)
        else
          (_cpu_target_freq e.freq_table (vote_scaled e base_freq (n + 1))
              CPUFREQ_RELATION_L,
            { params with
              best_diff_power :=
                s32 ((e.p2pconv
                  (_cpu_target_freq e.freq_table (vote_scaled e base_freq (n + 1))
                    CPUFREQ_RELATION_L) params.active_cpus : Int) - params.orig_power),
              best_target_speed :=
                _cpu_target_freq e.freq_table (vote_scaled e base_freq (n + 1))
                  CPUFREQ_RELATION_L })
      else
        perf_votes_scaling_loop e params base_freq n (vote_scaled e base_freq (n + 1)) :=
  rfl

/-- When no candidate of the loop of `perf_votes_scaling` fits under
`qos.max_freq`, the loop leaves `params` alone and hands back the last
candidate it computed, the one for a single factor. -/
theorem perf_votes_scaling_loop_no_fit (e : bthp_env) (params : bthp_params)
    (base_freq n : Nat) :
    ∀ s : Nat,
      (∀ k : Nat, 1 ≤ k → k ≤ n → params.qos_max_freq < vote_scaled e base_freq k) →
      perf_votes_scaling_loop e params base_freq n s =
        (if n = 0 then s else vote_scaled e base_freq 1, params) := by
  induction n with
  | zero => intro s _; rfl
  | succ n ih =>
    intro s h
    rw [perf_votes_scaling_loop_succ, if_neg (by have := h (n + 1) (by omega) (le_refl _); omega),
      ih _ (fun k h1 h2 => h k h1 (by omega))]
    by_cases hn : n = 0
    · subst hn; rfl
    · rw [if_neg hn, if_neg (by omega)]

/-- When a candidate of the loop of `perf_votes_scaling` fits under
`qos.max_freq`, and `qos.max_freq` is a valid table entry not below the base
speed, the loop hands back a speed that is at most `qos.max_freq`. -/
theorem perf_votes_scaling_loop_fit (e : bthp_env) (params : bthp_params)
    (base_freq : Nat) (tbl : List Nat) (htbl : e.freq_table = some tbl)
    (hfit : ∀ f ∈ tbl, f ≤ UINT_MAX)
    (hmax : valid_entry tbl params.qos_max_freq)
    (hbase : base_freq ≤ params.qos_max_freq) (n : Nat) :
    ∀ s : Nat,
      (∃ k : Nat, 1 ≤ k ∧ k ≤ n ∧ vote_scaled e base_freq k ≤ params.qos_max_freq) →
      (perf_votes_scaling_loop e params base_freq n s).1 ≤ params.qos_max_freq := by
  induction n with
  | zero => intro s ⟨k, h1, h2, _⟩; omega
  | succ n ih =>
    intro s ⟨k, h1, h2, h3⟩
    rw [perf_votes_scaling_loop_succ]
    by_cases hc : vote_scaled e base_freq (n + 1) ≤ params.qos_max_freq
    · rw [if_pos hc]
      split_ifs with h0
      · exact hbase
      · rw [htbl]
        exact (cpu_target_freq_L tbl _ hfit ⟨_, hmax, hc⟩).2.2 _ hmax hc
    · rw [if_neg hc]
      have hk : k ≠ n + 1 := fun hk => hc (hk ▸ h3)
      exact ih _ ⟨k, h1, by omega, h3⟩

/-- C33, as stated, fails: with one vote, `perfvote_factor = 10`, the policy
maximum at 1600000 kHz and the base speed 1600000 kHz, not above it, the only
candidate 1760000 kHz is above `qos.max_freq`; `perf_votes_scaling` leaves the
loop of cpu-tegra.c:1707 with that candidate still in `scaled_freq` and
returns it, and `_do_trade_bargain` writes it into `target_cpu_speed[0]`. -/
theorem C33_counterexample :
    (bargain_prepare vote_cap_env 1600000 1600000).qos_perf_up_votes = 1 ∧
    vote_cap_env.tun.perfvote_factor = 10 ∧
    (bargain_prepare vote_cap_env 1600000 1600000).qos_max_freq = 1600000 ∧
    u32 ((bargain_prepare vote_cap_env 1600000 1600000).orig_speed +
      (bargain_prepare vote_cap_env 1600000 1600000).diff_speed) = 1600000 ∧
    valid_entry sample_freq_table 1600000 ∧
    (perf_votes_scaling vote_cap_env (bargain_prepare vote_cap_env 1600000 1600000)).1 =
      1760000 ∧
    (_do_trade_bargain vote_cap_env vote_cap_state 1600000 1600000
      BTHP_DO_NOTHING).state.target_cpu_speed = [1760000, 1600000, 0, 0] := by
  decide

/-- C33, the behaviour of the code: for every bargain state with
`perf_up_votes >= 1` and base speed `orig_speed + diff_speed <= qos.max_freq`,
over a table of `unsigned int` entries in which `qos.max_freq` is a valid
entry, the speed `perf_votes_scaling` returns is at most `qos.max_freq` when
the candidate `base * (100 + k * perfvote_factor) / 100` of some factor count
`k` in `[1, perf_up_votes]` is at most `qos.max_freq`; when no candidate is,
the function returns the candidate of `k = 1`, which is above
`qos.max_freq`. -/
theorem C33_vote_scaling (e : bthp_env) (params : bthp_params) (tbl : List Nat)
    (htbl : e.freq_table = some tbl)
    (hfit : ∀ f ∈ tbl, f ≤ UINT_MAX)
    (hmax : valid_entry tbl params.qos_max_freq)
    (hvotes : 1 ≤ params.qos_perf_up_votes)
    (hbase : u32 (params.orig_speed + params.diff_speed) ≤ params.qos_max_freq) :
    ((∃ k : Nat, 1 ≤ k ∧ (k : Int) ≤ params.qos_perf_up_votes ∧
        vote_scaled e (u32 (params.orig_speed + params.diff_speed)) k ≤
          params.qos_max_freq) →
      (perf_votes_scaling e params).1 ≤ params.qos_max_freq) ∧
    ((∀ k : Nat, 1 ≤ k → (k : Int) ≤ params.qos_perf_up_votes →
        params.qos_max_freq <
          vote_scaled e (u32 (params.orig_speed + params.diff_speed)) k) →
      (perf_votes_scaling e params).1 =
        vote_scaled e (u32 (params.orig_speed + params.diff_speed)) 1 ∧
      params.qos_max_freq < (perf_votes_scaling e params).1 ∧
      (perf_votes_scaling e params).2 = params) := by
  constructor
  · intro ⟨k, h1, h2, h3⟩
    unfold perf_votes_scaling
    exact perf_votes_scaling_loop_fit e params _ tbl htbl hfit hmax hbase _ _
      ⟨k, h1, by omega, h3⟩
  · intro h
    have hl := perf_votes_scaling_loop_no_fit e params
      (u32 (params.orig_speed + params.diff_speed)) params.qos_perf_up_votes.toNat
      (u32 (params.orig_speed + params.diff_speed))
      (fun k h1 h2 => h k h1 (by omega))
    rw [if_neg (by omega)] at hl
    unfold perf_votes_scaling
    simp only [hl]
    exact ⟨trivial, h 1 (le_refl _) (by omega), trivial⟩

/-- Witness of C33: in `vote_cap_env` the candidate of the only factor count
is 1760000 kHz, above the maximum 1600000 kHz, and it is what
`perf_votes_scaling` returns. -/
theorem C33_vote_scaling_witness :
    (perf_votes_scaling vote_cap_env (bargain_prepare vote_cap_env 1600000 1600000)).1 =
      vote_scaled vote_cap_env 1600000 1 ∧
    (bargain_prepare vote_cap_env 1600000 1600000).qos_max_freq <
      (perf_votes_scaling vote_cap_env
        (bargain_prepare vote_cap_env 1600000 1600000)).1 :=
  have hk : ∀ k : Nat, 1 ≤ k →
      (k : Int) ≤ (bargain_prepare vote_cap_env 1600000 1600000).qos_perf_up_votes →
      (bargain_prepare vote_cap_env 1600000 1600000).qos_max_freq <
        vote_scaled vote_cap_env
          (u32 ((bargain_prepare vote_cap_env 1600000 1600000).orig_speed +
            (bargain_prepare vote_cap_env 1600000 1600000).diff_speed)) k := by
    intro k h1 h2
    have hv : (bargain_prepare vote_cap_env 1600000 1600000).qos_perf_up_votes = 1 := by
      decide
    have hk1 : k = 1 := by omega
    subst hk1
    decide
  have h := (C33_vote_scaling vote_cap_env (bargain_prepare vote_cap_env 1600000 1600000)
    sample_freq_table rfl (by decide) (by decide) (by decide) (by decide)).2 hk
  ⟨h.1, h.2.1⟩

/-- One call of `resolve_perf_low_by_oc` keeps `big_hammer` within
`[1, 2 * oc_big_hammer_limit]` when the limit is within `[1, 2^31)`. -/
theorem resolve_perf_low_by_oc_hammer (e : bthp_env) (k : bthp_kicker)
    (params : bthp_params) (oc_speed : Nat)
    (h1 : 1 ≤ e.tun.oc_big_hammer_limit) (h2 : e.tun.oc_big_hammer_limit < 2147483648)
    (hk : 1 ≤ k.oc_big_hammer ∧ k.oc_big_hammer ≤ 2 * e.tun.oc_big_hammer_limit) :
    1 ≤ (resolve_perf_low_by_oc e k params oc_speed).2.1.oc_big_hammer ∧
    (resolve_perf_low_by_oc e k params oc_speed).2.1.oc_big_hammer ≤
      2 * e.tun.oc_big_hammer_limit := by
  unfold resolve_perf_low_by_oc
  dsimp only
  split_ifs <;> dsimp only <;> omega

/-- A sequence of calls of `resolve_perf_low_by_oc` under one limit keeps
`big_hammer` within `[1, 2 * oc_big_hammer_limit]`. -/
theorem oc_rounds_hammer (L : Nat) (h1 : 1 ≤ L) (h2 : L < 2147483648)
    (calls : List oc_call) :
    ∀ k : bthp_kicker,
      (∀ c ∈ calls, c.env.tun.oc_big_hammer_limit = L) →
      1 ≤ k.oc_big_hammer ∧ k.oc_big_hammer ≤ 2 * L →
      1 ≤ (oc_rounds k calls).oc_big_hammer ∧ (oc_rounds k calls).oc_big_hammer ≤ 2 * L := by
  induction calls with
  | nil => intro k _ hk; exact hk
  | cons c cs ih =>
    intro k hL hk
    have hc : c.env.tun.oc_big_hammer_limit = L := hL c (List.mem_cons_self _ _)
    unfold oc_rounds
    apply ih _ (fun d hd => hL d (List.mem_cons_of_mem _ hd))
    have := resolve_perf_low_by_oc_hammer c.env k c.params c.oc_speed
      (by omega) (by omega) (by rw [hc]; exact hk)
    rw [hc] at this
    exact this

/-- C36: in `resolve_perf_low_by_oc` a miss (the calling core is the last
booster and has no performance votes) halves `big_hammer` with a floor of 1
and returns false; a boost is granted only when the bargain is
performance-critical with `diff_speed = 0` and `orig_speed = qos.max_freq` and
the call is not a miss, and a granted boost leaves `big_hammer` at twice the
value clamped to `oc_big_hammer_limit` (the value on entry, or 1 after the
reset of an out-of-date booster); so for a fixed `oc_big_hammer_limit` in
`[1, 2^31)`, `1 <= big_hammer <= 2 * oc_big_hammer_limit` holds after every
sequence of calls from the initial `bthp_kicker`. -/
theorem C36_oc_big_hammer (e : bthp_env) (k : bthp_kicker) (params : bthp_params)
    (oc_speed : Nat) :
    (params.cpu = k.oc_cpu → params.qos_perf_up_votes = 0 →
      (resolve_perf_low_by_oc e k params oc_speed).1 = false ∧
      (resolve_perf_low_by_oc e k params oc_speed).2.1.oc_big_hammer =
        max 1 (k.oc_big_hammer / 2)) ∧
    ((resolve_perf_low_by_oc e k params oc_speed).1 = true →
      params.qos_perf_critical = true ∧ params.diff_speed = 0 ∧
      params.orig_speed = params.qos_max_freq ∧
      ¬ (params.cpu = k.oc_cpu ∧ params.qos_perf_up_votes = 0) ∧
      ∃ b : Nat, (b = k.oc_big_hammer ∨ b = 1) ∧
        (resolve_perf_low_by_oc e k params oc_speed).2.1.oc_big_hammer =
          (min b e.tun.oc_big_hammer_limit * 2) % 4294967296) ∧
    (∀ (L : Nat) (calls : List oc_call), 1 ≤ L → L < 2147483648 →
      (∀ c ∈ calls, c.env.tun.oc_big_hammer_limit = L) →
      1 ≤ (oc_rounds {} calls).oc_big_hammer ∧
      (oc_rounds {} calls).oc_big_hammer ≤ 2 * L) := by
  refine ⟨?_, ?_, ?_⟩
  · intro h1 h2
    unfold resolve_perf_low_by_oc
    dsimp only
    rw [if_pos ⟨h1, h2⟩]
    split_ifs with h3
    · exact ⟨rfl, by dsimp only; omega⟩
    · exact ⟨rfl, by dsimp only; omega⟩
  · unfold resolve_perf_low_by_oc
    dsimp only
    by_cases c1 : params.cpu = k.oc_cpu ∧ params.qos_perf_up_votes = 0
    · rw [if_pos c1]
      split_ifs <;> intro h <;> exact absurd h (by simp)
    · rw [if_neg c1]
      by_cases c2 : params.qos_perf_critical = true ∧ params.diff_speed = 0 ∧
          params.orig_speed = params.qos_max_freq
      · rw [if_pos c2]
        split_ifs with c3 c4 c5 c6 c7 c8 c9
        all_goals first
          | (intro h; simp at h; done)
          | (intro _
             refine ⟨c2.1, c2.2.1, c2.2.2, c1, 1, Or.inr rfl, ?_⟩
             dsimp only at *
             omega)
          | (intro _
             refine ⟨c2.1, c2.2.1, c2.2.2, c1, k.oc_big_hammer, Or.inl rfl, ?_⟩
             dsimp only at *
             omega)
      · rw [if_neg c2]
        intro h
        exact absurd h (by simp)
  · intro L calls h1 h2 hL
    exact oc_rounds_hammer L h1 h2 calls {} hL ⟨by decide, by
      show 1 ≤ 2 * L
      omega⟩

/-- Witness of C36: from the initial `bthp_kicker`, with the limit 100, a
granted boost for core 0 leaves `big_hammer` at 2, and a miss of core 0 that
follows halves it to 1. -/
theorem C36_oc_big_hammer_witness :
    (resolve_perf_low_by_oc oc_env {} (bargain_prepare oc_env 1600000 1600000)
      1600000).1 = true ∧
    (oc_rounds {}
      [{ env := oc_env, params := bargain_prepare oc_env 1600000 1600000,
         oc_speed := 1600000 }]).oc_big_hammer = 2 ∧
    (oc_rounds {}
      [{ env := oc_env, params := bargain_prepare oc_env 1600000 1600000,
         oc_speed := 1600000 },
       { env := oc_env,
         params := { bargain_prepare oc_env 1600000 1600000 with qos_perf_up_votes := 0 },
         oc_speed := 1600000 }]).oc_big_hammer = 1 ∧
    1 ≤ (oc_rounds {}
      [{ env := oc_env, params := bargain_prepare oc_env 1600000 1600000,
         oc_speed := 1600000 }]).oc_big_hammer ∧
    (oc_rounds {}
      [{ env := oc_env, params := bargain_prepare oc_env 1600000 1600000,
         oc_speed := 1600000 }]).oc_big_hammer ≤ 2 * 100 :=
  ⟨by decide, by decide, by decide,
   (C36_oc_big_hammer oc_env {} (bargain_prepare oc_env 1600000 1600000) 1600000).2.2
     100
     [{ env := oc_env, params := bargain_prepare oc_env 1600000 1600000,
        oc_speed := 1600000 }]
     (by decide) (by decide)
     (by intro c hc; simp only [List.mem_singleton] at hc; subst hc; rfl)⟩

/-- Setting one bit of a mask changes the number of set bits by at most
one. -/
theorem count_set_bounds (l : List Bool) (i : Nat) (b : Bool) :
    (l.set i b).count true ≤ l.count true + 1 ∧
    l.count true ≤ (l.set i b).count true + 1 := by
  induction l generalizing i with
  | nil => simp
  | cons a l ih =>
    cases i with
    | zero =>
      cases a <;> cases b <;> simp [List.set] <;> omega
    | succ i =>
      have := ih i
      cases a <;> simp [List.set] <;> omega

/-- The function `tegra_cpuquiet_force_gmode` leaves the online mask as it
is. -/
theorem force_gmode_online (clk_ret : Int) (p : Platform) (s : Cpuquiet) :
    (tegra_cpuquiet_force_gmode clk_ret p s).2.1.online = p.online := by
  unfold tegra_cpuquiet_force_gmode
  split_ifs <;> rfl

/-- C39: `update_core_config` calls `cpu_down` only when the online count read
on entry is above 1 and above `tegra_cpq_min_cpus()`, calls `cpu_up` only when
that count is below `tegra_cpq_max_cpus()`, so that the online count afterwards
is at least 1, at least `tegra_cpq_min_cpus()` after a `cpu_down` and at most
`tegra_cpq_max_cpus()` after a `cpu_up`; and it returns `-EINVAL` without a
call, hotplug or cluster switch, when the controller is `DISABLED` or the core
number is `>= nr_cpu_ids`. -/
theorem C39_update_core_config (o : CoreConfigOracle) (p : Platform) (s : Cpuquiet)
    (cpunumber : Nat) (up : Bool) :
    (∀ c : Nat, Call.cpu_down c ∈ (update_core_config o p s cpunumber up).2.2 →
      up = false ∧ c = cpunumber ∧
      num_online_cpus p > 1 ∧ num_online_cpus p > tegra_cpq_min_cpus p s ∧
      num_online_cpus (update_core_config o p s cpunumber up).2.1 ≥ 1 ∧
      num_online_cpus (update_core_config o p s cpunumber up).2.1 ≥
        tegra_cpq_min_cpus p s) ∧
    (∀ c : Nat, Call.cpu_up c ∈ (update_core_config o p s cpunumber up).2.2 →
      up = true ∧ c = cpunumber ∧
      num_online_cpus p < tegra_cpq_max_cpus p s ∧
      num_online_cpus (update_core_config o p s cpunumber up).2.1 ≤
        tegra_cpq_max_cpus p s) ∧
    (s.cpq_state = CpqState.TEGRA_CPQ_DISABLED ∨ cpunumber ≥ nr_cpu_ids →
      update_core_config o p s cpunumber up = (-EINVAL, p, [])) := by
  have hg := force_gmode_no_hotplug o.clk_set_parent_ret p s
  have hgo := force_gmode_online o.clk_set_parent_ret p s
  have hcnt : ∀ (q : Platform) (b ok : Bool), q.online = p.online →
      num_online_cpus (hotplugged q cpunumber b ok) ≤ num_online_cpus p + 1 ∧
      num_online_cpus p ≤ num_online_cpus (hotplugged q cpunumber b ok) + 1 := by
    intro q b ok hq
    unfold hotplugged num_online_cpus
    split_ifs
    · have := count_set_bounds q.online cpunumber b
      rw [hq] at this
      simpa [hq] using this
    · rw [hq]; omega
  refine ⟨?_, ?_, ?_⟩
  · intro c hc
    unfold update_core_config at hc ⊢
    dsimp only at hc ⊢
    by_cases h1 : s.cpq_state = CpqState.TEGRA_CPQ_DISABLED ∨ cpunumber ≥ nr_cpu_ids
    · rw [if_pos h1] at hc; simp at hc
    · rw [if_neg h1] at hc ⊢
      by_cases h2 : (!o.trylock) = true
      · rw [if_pos h2] at hc; simp at hc
      · rw [if_neg h2] at hc ⊢
        cases up with
        | true =>
          exfalso
          simp only [if_true] at hc
          split_ifs at hc
          all_goals first
            | (simp at hc; done)
            | (have hn := hg _ hc
               simp [hotplug_target] at hn)
            | (simp only [List.mem_append, List.mem_singleton] at hc
               rcases hc with hc | hc
               · have := hg _ hc
                 simp [hotplug_target] at this
               · cases hc)
        | false =>
          simp only [Bool.false_eq_true, if_false] at hc ⊢
          by_cases h3 : num_online_cpus p > 1 ∧ num_online_cpus p > tegra_cpq_min_cpus p s
          · rw [if_pos h3] at hc ⊢
            simp only [List.mem_singleton, Call.cpu_down.injEq] at hc
            have := hcnt p false (decide (o.hotplug_ret = 0)) rfl
            refine ⟨trivial, hc, h3.1, h3.2, ?_, ?_⟩ <;> dsimp only <;> omega
          · rw [if_neg h3] at hc; simp at hc
  · intro c hc
    unfold update_core_config at hc ⊢
    dsimp only at hc ⊢
    by_cases h1 : s.cpq_state = CpqState.TEGRA_CPQ_DISABLED ∨ cpunumber ≥ nr_cpu_ids
    · rw [if_pos h1] at hc; simp at hc
    · rw [if_neg h1] at hc ⊢
      by_cases h2 : (!o.trylock) = true
      · rw [if_pos h2] at hc; simp at hc
      · rw [if_neg h2] at hc ⊢
        cases up with
        | false =>
          exfalso
          simp only [Bool.false_eq_true, if_false] at hc
          split_ifs at hc <;> simp at hc
        | true =>
          simp only [if_true] at hc ⊢
          by_cases h3 : p.lp_cluster = true ∧ (!s.screen_on) = true
          · rw [if_pos h3] at hc; simp at hc
          · rw [if_neg h3] at hc ⊢
            by_cases h4 : num_online_cpus p < tegra_cpq_max_cpus p s
            · rw [if_pos h4] at hc ⊢
              simp only [List.mem_append, List.mem_singleton, Call.cpu_up.injEq] at hc
              have hc2 : c = cpunumber := by
                rcases hc with hc | hc
                · split_ifs at hc
                  · have := hg _ hc
                    simp [hotplug_target] at this
                  · simp at hc
                · exact hc
              refine ⟨trivial, hc2, h4, ?_⟩
              dsimp only
              split_ifs
              · have := hcnt (tegra_cpuquiet_force_gmode o.clk_set_parent_ret p s).2.1 true
                  (decide (o.hotplug_ret = 0)) hgo
                omega
              · have := hcnt p true (decide (o.hotplug_ret = 0)) rfl
                dsimp only
                omega
            · rw [if_neg h4] at hc
              exfalso
              split_ifs at hc
              · have := hg _ hc
                simp [hotplug_target] at this
              · simp at hc
  · intro h
    unfold update_core_config
    dsimp only
    rw [if_pos h]

/-- Witness of C39: with two cores online and the bounds 1 and 4, a request to
take core 1 down calls `cpu_down(1)` and leaves one core online. -/
theorem C39_update_core_config_witness :
    (update_core_config { trylock := true, clk_set_parent_ret := 0, hotplug_ret := 0 }
      sample_platform {} 1 false).2.2 = [Call.cpu_down 1] ∧
    num_online_cpus sample_platform > 1 ∧
    num_online_cpus
      (update_core_config { trylock := true, clk_set_parent_ret := 0, hotplug_ret := 0 }
        sample_platform {} 1 false).2.1 ≥ 1 :=
  have h := (C39_update_core_config
    { trylock := true, clk_set_parent_ret := 0, hotplug_ret := 0 }
    sample_platform {} 1 false).1 1 (by decide)
  ⟨by decide, h.2.2.1, h.2.2.2.2.1⟩

theorem edp_limit_loop_shift (limit : Nat) (l : List Nat) :
    ∀ i : Nat, edp_limit_loop limit l i = i + edp_limit_loop limit l 0 := by
  induction l with
  | nil => intro i; rfl
  | cons f rest ih =>
    intro i
    unfold edp_limit_loop
    split_ifs
    · rfl
    · rfl
    · rw [ih (i + 1), ih (0 + 1)]
      omega

theorem edp_limit_loop_entries (limit : Nat) (tbl : List Nat) :
    edp_limit_loop limit tbl 0 = edp_limit_loop limit (table_entries tbl) 0 := by
  induction tbl with
  | nil => rfl
  | cons f rest ih =>
    by_cases he : f = CPUFREQ_TABLE_END
    · subst he
      rw [table_entries_cons_end]
      simp [edp_limit_loop]
    · rw [table_entries_cons _ _ he]
      unfold edp_limit_loop
      rw [if_neg he, if_neg he]
      split_ifs
      · rfl
      · rw [edp_limit_loop_shift limit rest, edp_limit_loop_shift limit (table_entries rest), ih]

/-- On ascending entries without an end marker the loop of `edp_update_limit`
stops right after the largest entry that is at most `limit`. -/
theorem edp_limit_loop_sorted (limit : Nat) (l : List Nat) :
    (∀ f ∈ l, f ≠ CPUFREQ_TABLE_END) → l.Pairwise (fun a b => a ≤ b) →
    edp_limit_loop limit l 0 ≤ l.length ∧
    (0 < edp_limit_loop limit l 0 →
      l.getD (edp_limit_loop limit l 0 - 1) 0 ≤ limit ∧
      l.getD (edp_limit_loop limit l 0 - 1) 0 ∈ l) ∧
    (∀ g ∈ l, g ≤ limit →
      0 < edp_limit_loop limit l 0 ∧ g ≤ l.getD (edp_limit_loop limit l 0 - 1) 0) := by
  induction l with
  | nil =>
    intro _ _
    simp [edp_limit_loop]
  | cons f rest ih =>
    intro hne hp
    have hpc := List.pairwise_cons.1 hp
    have ihr := ih (fun g hg => hne g (List.mem_cons_of_mem _ hg)) hpc.2
    have hfe : f ≠ CPUFREQ_TABLE_END := hne f (List.mem_cons_self _ _)
    by_cases hf : f > limit
    · have hv : edp_limit_loop limit (f :: rest) 0 = 0 := by
        unfold edp_limit_loop
        rw [if_neg hfe, if_pos hf]
      rw [hv]
      refine ⟨Nat.zero_le _, fun h => absurd h (by omega), ?_⟩
      intro g hg hgl
      rcases List.mem_cons.1 hg with h | h
      · omega
      · have := hpc.1 g h
        omega
    · have hv : edp_limit_loop limit (f :: rest) 0 = edp_limit_loop limit rest 0 + 1 := by
        simp only [edp_limit_loop, if_neg hfe, if_neg hf]
        rw [edp_limit_loop_shift limit rest (0 + 1)]
        omega
      rw [hv]
      simp only [Nat.add_sub_cancel, List.length_cons]
      by_cases hz : edp_limit_loop limit rest 0 = 0
      · rw [hz]
        simp only [List.getD_cons_zero]
        refine ⟨by omega, fun _ => ⟨by omega, List.mem_cons_self _ _⟩, ?_⟩
        intro g hg hgl
        rcases List.mem_cons.1 hg with h | h
        · exact ⟨by omega, by omega⟩
        · have := (ihr.2.2 g h hgl).1
          omega
      · obtain ⟨m, hm⟩ := Nat.exists_eq_succ_of_ne_zero hz
        have hget : (f :: rest).getD (edp_limit_loop limit rest 0) 0 =
            rest.getD (edp_limit_loop limit rest 0 - 1) 0 := by
          rw [hm]
          simp
        rw [hget]
        have h2 := ihr.2.1 (by omega)
        refine ⟨by omega, fun _ => ⟨h2.1, List.mem_cons_of_mem _ h2.2⟩, ?_⟩
        intro g hg hgl
        rcases List.mem_cons.1 hg with h | h
        · rw [h]
          exact ⟨by omega, hpc.1 _ h2.2⟩
        · exact ⟨by omega, (ihr.2.2 g h hgl).2⟩

/-- C40: in `edp_update_limit` (table-rounded build), for a frequency table
whose entries before the end marker are ascending and whose first entry is at
most the predicted limit `L = edp_predict_limit(cpumask_weight(edp_cpumask))`,
no `BUG_ON` fires and `edp_limit` becomes the largest table entry that is at
most `L`: it is an entry of the table, it is at most `L`, and every entry at
most `L` is at most `edp_limit`; nothing else is written. -/
theorem C40_edp_update_limit (s : EdpState) (tbl : List Nat) (L f0 : Nat)
    (hL : edp_predict_limit s (cpumask_weight s.edp_cpumask) = some L)
    (hasc : (table_entries tbl).Pairwise (fun a b => a ≤ b))
    (hfirst : (table_entries tbl).head? = some f0)
    (hle : f0 ≤ L) :
    ∃ limit : Nat,
      edp_update_limit (some tbl) s = some { s with edp_limit := limit } ∧
      limit ∈ table_entries tbl ∧ limit ≤ L ∧
      ∀ g ∈ table_entries tbl, g ≤ L → g ≤ limit := by
  have hne : ∀ f ∈ table_entries tbl, f ≠ CPUFREQ_TABLE_END := by
    intro f hf
    have := List.mem_takeWhile_imp hf
    simpa using this
  have h := edp_limit_loop_sorted L (table_entries tbl) hne hasc
  have hmem : f0 ∈ table_entries tbl := by
    cases hE : table_entries tbl with
    | nil => rw [hE] at hfirst; simp at hfirst
    | cons a l =>
      rw [hE] at hfirst
      simp only [List.head?_cons, Option.some.injEq] at hfirst
      rw [hfirst]
      exact List.mem_cons_self _ _
  have hpos := (h.2.2 f0 hmem hle).1
  have hres := h.2.1 hpos
  refine ⟨(table_entries tbl).getD (edp_limit_loop L (table_entries tbl) 0 - 1) 0,
    ?_, hres.2, hres.1, fun g hg hgl => (h.2.2 g hg hgl).2⟩
  unfold edp_update_limit
  rw [hL]
  simp only
  rw [edp_limit_loop_entries, if_neg (by omega),
    table_entries_getD tbl _ (by omega)]

/-- Witness of C40: in zone 1 with two cores in the mask the predicted limit
is 1400000 kHz, an entry of the sample table, and `edp_limit` becomes
1400000 kHz. -/
theorem C40_edp_update_limit_witness :
    edp_predict_limit (sample_edp_state false)
      (cpumask_weight (sample_edp_state false).edp_cpumask) = some 1400000 ∧
    edp_update_limit (some sample_freq_table) (sample_edp_state false) =
      some { sample_edp_state false with edp_limit := 1400000 } ∧
    ∃ limit : Nat,
      edp_update_limit (some sample_freq_table) (sample_edp_state false) =
        some { sample_edp_state false with edp_limit := limit } ∧
      limit ≤ 1400000 :=
  ⟨by decide, by decide,
   let ⟨limit, h1, _, h3, _⟩ := C40_edp_update_limit (sample_edp_state false)
     sample_freq_table 1400000 51000 (by decide) (by decide) (by decide) (by decide)
   ⟨limit, h1, h3⟩⟩

/-- The function `edp_update_limit` writes `edp_limit` only. -/
theorem edp_update_limit_frame (freq_table : Option (List Nat)) (s s2 : EdpState)
    (h : edp_update_limit freq_table s = some s2) :
    s2 = { s with edp_limit := s2.edp_limit } := by
  unfold edp_update_limit at h
  cases hp : edp_predict_limit s (cpumask_weight s.edp_cpumask) with
  | none => rw [hp] at h; simp at h
  | some limit =>
    rw [hp] at h
    cases freq_table with
    | none => simp at h
    | some tbl =>
      simp only at h
      split_ifs at h
      simp only [Option.some.injEq] at h
      rw [← h]

/-- C35, as stated, fails: on `CPU_DEAD` for core 1, with cores 0 and 1 in the
mask, `tegra_cpu_edp_notify` clears core 1 from `edp_cpumask` first (place 0)
and recomputes the speed cap last (place 3), with the mask of core 0 alone and
the limit 1500000 kHz of one core in force; the order of cpu-tegra.c:588-593
is `cpu_clear`, `tegra_cpu_dvfs_alter`, `edp_update_limit`,
`tegra_cpu_set_speed_cap`. -/
theorem C35_counterexample :
    (sample_edp_state false).edp_cpumask = [true, true, false, false] ∧
    (tegra_cpu_edp_notify (sample_speed_env 1200000000) (fun _ _ _ _ => 0)
      (sample_edp_state false) sample_speed_state CpuEvent.CPU_DEAD 1).map
        (fun r => r.calls) =
      some [EdpCall.cpu_clear 1,
            EdpCall.tegra_cpu_dvfs_alter 1 [true, false, false, false] true
              CpuEvent.CPU_DEAD,
            EdpCall.edp_update_limit [true, false, false, false],
            EdpCall.tegra_cpu_set_speed_cap [true, false, false, false] 1500000] ∧
    (tegra_cpu_edp_notify (sample_speed_env 1200000000) (fun _ _ _ _ => 0)
      (sample_edp_state false) sample_speed_state CpuEvent.CPU_DEAD 1).map
        (fun r => (first_cpu_clear 1 r.calls, first_speed_cap r.calls)) =
      some (0, 3) := by
  decide

/-- C35, amended: in `tegra_cpu_edp_notify`, when a core comes up
(`CPU_UP_PREPARE`) the core is added to `edp_cpumask` first and the EDP limit
is recomputed next, every recomputation of the speed cap is made with the core
in the mask, and the core is taken out of the mask again, and the limit
recomputed, exactly when the notification fails; when a core has gone down
(`CPU_DEAD`) the core is removed from `edp_cpumask` first, and the EDP limit
and then the speed cap are recomputed afterwards, from the reduced mask. -/
theorem C35_edp_mask_ordering (e : SpeedEnv)
    (dvfs_alter : Int → List Bool → Bool → CpuEvent → Int)
    (s : EdpState) (st : SpeedState) (cpu : Nat) :
    (∀ r : edp_notify_result,
      tegra_cpu_edp_notify e dvfs_alter s st CpuEvent.CPU_UP_PREPARE cpu = some r →
      (∃ rest : List EdpCall,
        r.calls = EdpCall.cpu_set cpu ::
          EdpCall.edp_update_limit (s.edp_cpumask.set cpu true) :: rest) ∧
      (∀ (m : List Bool) (l : Nat), EdpCall.tegra_cpu_set_speed_cap m l ∈ r.calls →
        m = s.edp_cpumask.set cpu true) ∧
      (r.ret ≠ 0 →
        r.edp.edp_cpumask = (s.edp_cpumask.set cpu true).set cpu false ∧
        ∃ pre : List EdpCall,
          r.calls = pre ++
            [EdpCall.cpu_clear cpu,
             EdpCall.edp_update_limit ((s.edp_cpumask.set cpu true).set cpu false)]) ∧
      (r.ret = 0 →
        r.edp.edp_cpumask = s.edp_cpumask.set cpu true ∧
        EdpCall.cpu_clear cpu ∉ r.calls)) ∧
    (∀ r : edp_notify_result,
      tegra_cpu_edp_notify e dvfs_alter s st CpuEvent.CPU_DEAD cpu = some r →
      r.calls =
        [EdpCall.cpu_clear cpu,
         EdpCall.tegra_cpu_dvfs_alter s.edp_thermal_index (s.edp_cpumask.set cpu false)
           true CpuEvent.CPU_DEAD,
         EdpCall.edp_update_limit (s.edp_cpumask.set cpu false),
         EdpCall.tegra_cpu_set_speed_cap (s.edp_cpumask.set cpu false) r.edp.edp_limit] ∧
      r.edp.edp_cpumask = s.edp_cpumask.set cpu false ∧
      edp_update_limit e.bthp.freq_table
        { s with edp_cpumask := s.edp_cpumask.set cpu false } = some r.edp ∧
      r.speed = (tegra_cpu_set_speed_cap (speed_env_with_limit e r.edp) st).state ∧
      first_cpu_clear cpu r.calls = 0 ∧ first_speed_cap r.calls = 3) := by
  constructor
  · intro r hr
    unfold tegra_cpu_edp_notify at hr
    simp only at hr
    cases h2 : edp_update_limit e.bthp.freq_table
        { s with edp_cpumask := s.edp_cpumask.set cpu true } with
    | none => rw [h2] at hr; simp at hr
    | some s2 =>
      rw [h2] at hr
      simp only at hr
      have hm : s2.edp_cpumask = s.edp_cpumask.set cpu true := by
        have := edp_update_limit_frame _ _ _ h2
        rw [this]
      have hfr : ∀ s4 : EdpState,
          edp_update_limit e.bthp.freq_table
            { s2 with edp_cpumask := (s.edp_cpumask.set cpu true).set cpu false } = some s4 →
          s4.edp_cpumask = (s.edp_cpumask.set cpu true).set cpu false := by
        intro s4 h4
        have := edp_update_limit_frame _ _ _ h4
        rw [this]
      unfold edp_notify_up at hr
      dsimp only at hr
      rw [hm] at hr
      split_ifs at hr
      all_goals first
        | (simp only [Option.some.injEq] at hr
           subst hr
           simp_all)
        | (split at hr
           · simp at hr
           · rename_i s4 h4
             have hm4 := hfr s4 h4
             simp only [Option.some.injEq] at hr
             subst hr
             simp_all
             try first
               | exact ⟨[_, _, _, _], rfl⟩
               | exact ⟨[_, _, _], rfl⟩
               | exact ⟨[_, _], rfl⟩)
  · intro r hr
    unfold tegra_cpu_edp_notify at hr
    simp only at hr
    cases h2 : edp_update_limit e.bthp.freq_table
        { s with edp_cpumask := s.edp_cpumask.set cpu false } with
    | none => rw [h2] at hr; simp at hr
    | some s2 =>
      rw [h2] at hr
      simp only [Option.some.injEq] at hr
      have hm : s2.edp_cpumask = s.edp_cpumask.set cpu false := by
        have := edp_update_limit_frame _ _ _ h2
        rw [this]
      subst hr
      refine ⟨?_, hm, rfl, rfl, ?_, ?_⟩
      · simp only [hm]
      · simp [first_cpu_clear]
      · simp [first_speed_cap, List.findIdx_cons]

/-- Witness of the amended C35: on `CPU_DEAD` for core 1 the sample statics end
with core 1 out of the mask, the limit of one core in `edp_limit`, and the
removal at place 0 before the speed cap at place 3. -/
theorem C35_edp_mask_ordering_witness :
    ∃ r : edp_notify_result,
      tegra_cpu_edp_notify (sample_speed_env 1200000000) (fun _ _ _ _ => 0)
        (sample_edp_state false) sample_speed_state CpuEvent.CPU_DEAD 1 = some r ∧
      r.edp.edp_cpumask = [true, false, false, false] ∧
      first_cpu_clear 1 r.calls = 0 ∧ first_speed_cap r.calls = 3 :=
  have hs : ∃ r : edp_notify_result,
      tegra_cpu_edp_notify (sample_speed_env 1200000000) (fun _ _ _ _ => 0)
        (sample_edp_state false) sample_speed_state CpuEvent.CPU_DEAD 1 = some r :=
    Option.isSome_iff_exists.1 (by decide)
  let ⟨r, hr⟩ := hs
  have h := (C35_edp_mask_ordering (sample_speed_env 1200000000) (fun _ _ _ _ => 0)
    (sample_edp_state false) sample_speed_state 1).2 r hr
  ⟨r, hr, h.2.1, h.2.2.2.2.1, h.2.2.2.2.2⟩

end Tegra
